import Mathlib

/-!
# CanAirIO sensor library: unit registry, frame reads, detection, driver reads, the loop,
initialisation and getters

A shallow embedding of `src/src/Sensors.cpp`.  The `Sensors` object becomes a record,
every method a function from the record to a result and the next record.  Debug
printing (`DEBUG`, `Serial.println`) is left out: it changes nothing a method reads.
-/

namespace CanAirIO

/-- One byte delivered by the UART. -/
abbrev Byte := Fin 256

/-- Value of the `SENSOR_COMMS` macro, as `serialInit` switches over it. -/
inductive Port where
  | SERIALPORT
  | SERIALPORT1
  | SERIALPORT2
  | SERIALPORT3
  | other
  deriving DecidableEq, Repr

/-- Target board, as far as the preprocessor conditions of `serialInit` tell boards apart. -/
inductive Arch where
  | avrMega
  | samd21
  | samDue
  | avr32u4
  | esp32
  | other
  deriving DecidableEq, Repr

/-- What `Sensors.cpp` takes from `Sensors.hpp` and from the toolchain.  The header is not
among the sources, so its constants are parameters: the size of the registry array, the
polling bound of the frame reader, the ordinals of the `UNIT` enumerators the drivers
register, whether plain `char` is signed, and the build flags read by `serialInit`. -/
structure Header where
  MAX_UNITS_SUPPORTED : Nat
  SENSOR_RETRY : Nat
  char_signed : Bool
  SENSOR_COMMS : Port
  arch : Arch
  INCLUDE_SOFTWARE_SERIAL : Bool
  PM1 : Nat
  PM25 : Nat
  PM4 : Nat
  PM10 : Nat
  CO2 : Nat
  CO2TEMP : Nat
  CO2HUM : Nat
  TEMP : Nat
  HUM : Nat
  PRESS : Nat
  ALT : Nat
  GAS : Nat
  deriving DecidableEq, Repr

/-- Modelled from the spec: `enum DEVICE_TYPE` is declared in `Sensors.hpp`, which is
missing.  The enumerators are numbered in the order the spec lists the UART kinds, the
order of the chain in `sensorSerialInit`; `Auto` is the generic Honeywell/Plantower kind. -/
def Auto : Int := 0

/-- Modelled from the spec: second enumerator of `DEVICE_TYPE`. -/
def Panasonic : Int := 1

/-- Modelled from the spec: third enumerator of `DEVICE_TYPE`. -/
def SSPS30 : Int := 2

/-- Modelled from the spec: fourth enumerator of `DEVICE_TYPE`. -/
def SDS011 : Int := 3

/-- Modelled from the spec: fifth enumerator of `DEVICE_TYPE`. -/
def Mhz19 : Int := 4

/-- Modelled from the spec: sixth enumerator of `DEVICE_TYPE`. -/
def CM1106 : Int := 5

/-- Modelled from the spec: seventh enumerator of `DEVICE_TYPE`. -/
def SENSEAIRS8 : Int := 6

/-- A value of the C types `float` and `double`: not-a-number, an infinity with its sign, or
a number.  The two zeros are one value. -/
inductive Flt where
  | nan
  | inf (negative : Bool)
  | val (q : ℚ)
  deriving DecidableEq, Repr

/-- The test `isnan(x)`. -/
def Flt.isnan : Flt → Bool
  | Flt.nan => true
  | _ => false

/-- The comparison `x == q` with a number `q`: false for NaN and for the infinities. -/
def Flt.eqNum : Flt → ℚ → Bool
  | Flt.val r, q => decide (r = q)
  | _, _ => false

/-- The floating-point arithmetic of the toolchain, which the sources use and do not
define: subtraction of two `float`s; the four operations on `double`; the conversions from
`int` to `double` and from `double` to `float`; `round`, with its result read as an
integer; the cast `(uint32_t) x` of a `float`. -/
structure Fpu where
  fsub : Flt → Flt → Flt
  dadd : Flt → Flt → Flt
  dsub : Flt → Flt → Flt
  dmul : Flt → Flt → Flt
  ddiv : Flt → Flt → Flt
  ofInt : Int → Flt
  toFloat : Flt → Flt
  round : Flt → Int
  toUInt32 : Flt → Nat

/-- Return code of `sps30.GetValues`, as far as `sps30Read` tells codes apart. -/
inductive Sps30Ret where
  | ERR_OK
  | ERR_DATALENGTH
  | other
  deriving DecidableEq, Repr

/-- One answer of `sps30.GetValues(&val)`: the return code and the four mass values. -/
structure Sps30Values where
  ret : Sps30Ret
  MassPM1 : Flt
  MassPM2 : Flt
  MassPM4 : Flt
  MassPM10 : Flt
  deriving DecidableEq, Repr

/-- One answer of the MH-Z19 driver: `getCO2()` and `getTemperature()`. -/
structure Mhz19Answer where
  co2 : Int
  temperature : Flt
  deriving DecidableEq, Repr

/-- One answer of the AM2320 driver: whether `read()` gave `AM232X_OK`, then
`getHumidity()` and `getTemperature()`. -/
structure Am2320Answer where
  ok : Bool
  humidity : Flt
  temperature : Flt
  deriving DecidableEq, Repr

/-- One answer of the BME280 driver: `readHumidity()`, `readTemperature()`,
`readPressure()` and `readAltitude(SEALEVELPRESSURE_HPA)`. -/
structure Bme280Answer where
  humidity : Flt
  temperature : Flt
  pressure : Flt
  altitude : Flt
  deriving DecidableEq, Repr

/-- One answer of the BMP280 driver: `readTemperature()`, the two calls of
`readPressure()` and `readAltitude(SEALEVELPRESSURE_HPA)`. -/
structure Bmp280Answer where
  temperature : Flt
  pressure : Flt
  pressure2 : Flt
  altitude : Flt
  deriving DecidableEq, Repr

/-- One answer of the BME680 driver: `beginReading()`, `endReading()`, the members
`temperature`, `humidity`, `pressure`, `gas_resistance` and `readAltitude(...)`. -/
structure Bme680Answer where
  endTime : Nat
  endReading : Bool
  temperature : Flt
  humidity : Flt
  pressure : Flt
  gas_resistance : Flt
  altitude : Flt
  deriving DecidableEq, Repr

/-- One answer of a driver that gives `readHumidity()` and `readTemperature()` (AHT10,
SHT31). -/
structure HumTempAnswer where
  humidity : Flt
  temperature : Flt
  deriving DecidableEq, Repr

/-- One answer of the SCD30 driver: `getCO2()`, `getHumidity()`, `getTemperature()`. -/
structure Scd30Answer where
  co2 : Nat
  humidity : Flt
  temperature : Flt
  deriving DecidableEq, Repr

/-- One answer of `scd4x.readMeasurement(tCO2, tCO2temp, tCO2humi)`: the error code and
the three outputs. -/
structure Scd4xAnswer where
  error : Nat
  co2 : Nat
  temperature : Flt
  humidity : Flt
  deriving DecidableEq, Repr

/-- One answer of the SN-GCJA5 driver: `getPM1_0()`, `getPM2_5()`, `getPM10()`, each as
converted to an integer. -/
structure Gcja5Answer where
  pm1 : Int
  pm25 : Int
  pm10 : Int
  deriving DecidableEq, Repr

/-- What the SCD30 driver answers in `CO2scd30Init`: `scd30.begin()`, and the outcome of
the two comparisons of the offsets stored in the sensor with `altoffset` and `toffset`,
which only decide whether the offset is sent to the sensor again. -/
structure Scd30Begin where
  begin : Bool
  altitudeDiffers : Bool
  offsetDiffers : Bool
  deriving DecidableEq, Repr

/-- What the SCD4x driver answers in `CO2scd4xInit`: the error codes of
`stopPeriodicMeasurement()` and `startPeriodicMeasurement()`, and the outcome of the two
comparisons of the offsets stored in the sensor with `altoffset` and `toffset`. -/
structure Scd4xBegin where
  stopError : Nat
  altitudeDiffers : Bool
  offsetDiffers : Bool
  startError : Nat
  deriving DecidableEq, Repr

/-- The members of the `Sensors` object that the modelled methods read or write, and the
outside world they talk to.

* `pm1 .. CO2Val` are `uint16_t` readings.
* `units_registered` is the global array of `uint8_t` slots, `units_registered_count` and
  `current_unit` the two counters that index it.
* `onErrorCb` says whether `_onErrorCb` is set; `errors` collects the messages given to it.
* `serial` is the UART: each element is what one run of the inner loop of `hwSerialRead`
  (`while (_serial->available() > 0)`) drains; when the list is used up nothing arrives.
* `sps30_init`, `cm1106_init`, `s8_init` are the answers the vendor drivers will give to the
  next calls of `sps30UARTInit`, `CO2CM1106Init` and `senseAirS8Init`.
* `delay_ms` adds up the arguments of `delay`.
* `CO2humi .. gas` are the `float` readings, `toffset`, `altoffset`, `hpa` the calibration,
  `dhttemp`, `dhthumi` the outputs of the DHT driver.
* `i2conly` and `sample_time` are the settings read by `loop`; `onDataCb` says whether
  `_onDataCb` is set and `data_calls` counts its invocations.
* `pmLoopTimeStamp` and `measurement_timestamp` are the `static` locals of `loop` and
  `dhtIsReady`, the second one empty until its initialiser has run.
* `millis` holds the coming answers of `millis()`.
* `sps30_start`, `sps30`, `mhz19`, `cm1106`, `s8`, `dht_sensor`, `am2320`, `bme280`,
  `bmp280`, `bme680`, `aht10`, `sht31`, `scd30`, `scd4x`, `pmGCJA5` hold the coming answers
  of the vendor drivers, one element for each call of the read that asks them; a list that
  is used up stands for a device that is not there.
* `sps30_i2c`, `gcja5_begin`, `scd30_begin`, `scd4x_begin` hold the coming answers of the
  drivers to `sps30I2CInit`, `PMGCJA5Init`, `CO2scd30Init` and `CO2scd4xInit`. -/
structure Sensors where
  pm1 : Nat
  pm25 : Nat
  pm4 : Nat
  pm10 : Nat
  CO2Val : Nat
  dataReady : Bool
  dev_uart_type : Int
  device_selected : String
  units_registered : List Nat
  units_registered_count : Nat
  current_unit : Nat
  onErrorCb : Bool
  errors : List String
  serial : List (List Byte)
  sps30_init : List Bool
  cm1106_init : List Bool
  s8_init : List Bool
  delay_ms : Nat
  CO2humi : Flt
  CO2temp : Flt
  humi : Flt
  temp : Flt
  pres : Flt
  alt : Flt
  gas : Flt
  toffset : Flt
  altoffset : Flt
  hpa : Flt
  dhttemp : Flt
  dhthumi : Flt
  i2conly : Bool
  sample_time : Int
  onDataCb : Bool
  data_calls : Nat
  pmLoopTimeStamp : Nat
  measurement_timestamp : Option Nat
  millis : List Nat
  sps30_start : List Bool
  sps30 : List Sps30Values
  mhz19 : List Mhz19Answer
  cm1106 : List Int
  s8 : List Int
  dht_sensor : List (Option (Flt × Flt))
  am2320 : List Am2320Answer
  bme280 : List Bme280Answer
  bmp280 : List Bmp280Answer
  bme680 : List Bme680Answer
  aht10 : List HumTempAnswer
  sht31 : List HumTempAnswer
  scd30 : List Scd30Answer
  scd4x : List Scd4xAnswer
  pmGCJA5 : List Gcja5Answer
  sps30_i2c : List Bool
  gcja5_begin : List Bool
  scd30_begin : List Scd30Begin
  scd4x_begin : List Scd4xBegin
  deriving DecidableEq, Repr

/-- The object before `init`: nothing read, nothing detected, an array of `n` zeroed slots
(a global array starts zeroed), no callback, a silent UART and no device on the bus; the
sample time is 5 seconds and the clock stands at 0. -/
def Sensors.fresh (n : Nat) : Sensors where
  pm1 := 0
  pm25 := 0
  pm4 := 0
  pm10 := 0
  CO2Val := 0
  dataReady := false
  dev_uart_type := -1
  device_selected := ""
  units_registered := List.replicate n 0
  units_registered_count := 0
  current_unit := 0
  onErrorCb := false
  errors := []
  serial := []
  sps30_init := []
  cm1106_init := []
  s8_init := []
  delay_ms := 0
  CO2humi := Flt.val 0
  CO2temp := Flt.val 0
  humi := Flt.val 0
  temp := Flt.val 0
  pres := Flt.val 0
  alt := Flt.val 0
  gas := Flt.val 0
  toffset := Flt.val 0
  altoffset := Flt.val 0
  hpa := Flt.val 0
  dhttemp := Flt.val 0
  dhthumi := Flt.val 0
  i2conly := false
  sample_time := 5
  onDataCb := false
  data_calls := 0
  pmLoopTimeStamp := 0
  measurement_timestamp := none
  millis := []
  sps30_start := []
  sps30 := []
  mhz19 := []
  cm1106 := []
  s8 := []
  dht_sensor := []
  am2320 := []
  bme280 := []
  bmp280 := []
  bme680 := []
  aht10 := []
  sht31 := []
  scd30 := []
  scd4x := []
  pmGCJA5 := []
  sps30_i2c := []
  gcja5_begin := []
  scd30_begin := []
  scd4x_begin := []

/-! ## Unit registry -/

/-- `Sensors::isUnitRegistered`: scan all `MAX_UNITS_SUPPORTED` slots for `unit`. -/
def isUnitRegistered (hd : Header) (s : Sensors) (unit : Nat) : Bool :=
  (List.range hd.MAX_UNITS_SUPPORTED).any fun i => s.units_registered.getD i 0 == unit

/-- `Sensors::unitRegister`: nothing if the unit is found, otherwise
`units_registered[units_registered_count++] = unit`.  The slot is a `uint8_t`, so the
ordinal is stored modulo 256; a store past the end of the array is dropped. -/
def unitRegister (hd : Header) (unit : Nat) (s : Sensors) : Sensors :=
  if isUnitRegistered hd s unit then s
  else
    { s with
      units_registered := s.units_registered.set s.units_registered_count (unit % 256)
      units_registered_count := s.units_registered_count + 1 }

/-- `Sensors::resetUnitsRegister`: the count is 0 and each of the `MAX_UNITS_SUPPORTED`
slots of the array is 0. -/
def resetUnitsRegister (hd : Header) (s : Sensors) : Sensors :=
  { s with
    units_registered_count := 0
    units_registered := List.replicate hd.MAX_UNITS_SUPPORTED 0 }

/-- `Sensors::getUnitsRegisteredCount`, which returns a `uint8_t`. -/
def getUnitsRegisteredCount (s : Sensors) : Nat :=
  s.units_registered_count % 256

/-- The loop of `getNextUnit`: from index `i`, for `n` more slots, the first index whose
slot is not 0. -/
def getNextUnitScan (arr : List Nat) : Nat → Nat → Option Nat
  | 0, _ => none
  | n + 1, i => if arr.getD i 0 != 0 then some i else getNextUnitScan arr n (i + 1)

/-- `Sensors::getNextUnit`: scan from `current_unit` to the end of the array; on a slot
that is not 0 leave the cursor behind it and return it, otherwise rewind the cursor and
return 0. -/
def getNextUnit (hd : Header) (s : Sensors) : Nat × Sensors :=
  match getNextUnitScan s.units_registered (hd.MAX_UNITS_SUPPORTED - s.current_unit)
      s.current_unit with
  | some i => (s.units_registered.getD i 0, { s with current_unit := i + 1 })
  | none => (0, { s with current_unit := 0 })

/-- Register the units of a list, first to last. -/
def registerAll (hd : Header) (us : List Nat) (s : Sensors) : Sensors :=
  us.foldl (fun t u => unitRegister hd u t) s

/-- The results of `n` successive calls of `getNextUnit`, and the state after them. -/
def getNextUnits (hd : Header) : Nat → Sensors → List Nat × Sensors
  | 0, s => ([], s)
  | n + 1, s =>
    let r := getNextUnit hd s
    let rest := getNextUnits hd n r.2
    (r.1 :: rest.1, rest.2)

/-! ## Frame reader -/

/-- The loop of `hwSerialRead`,
`while (txtMsg.length() < lenght_buffer && try_sensor_read++ < SENSOR_RETRY)`, whose body
drains the UART into `txtMsg`.  The first argument bounds the number of tests of the loop
condition; the result is the frame, the final `try_sensor_read` and the UART left over. -/
def hwSerialReadLoop (hd : Header) (lenght_buffer : Nat) :
    Nat → Nat → List Byte → List (List Byte) → List Byte × Nat × List (List Byte)
  | 0, try_sensor_read, txtMsg, ser => (txtMsg, try_sensor_read, ser)
  | fuel + 1, try_sensor_read, txtMsg, ser =>
    if txtMsg.length < lenght_buffer then
      if try_sensor_read < hd.SENSOR_RETRY then
        hwSerialReadLoop hd lenght_buffer fuel (try_sensor_read + 1)
          (txtMsg ++ ser.headD []) ser.tail
      else (txtMsg, try_sensor_read + 1, ser)
    else (txtMsg, try_sensor_read, ser)

/-- The frame reader on the UART alone: the loop started with an empty frame and
`try_sensor_read = 0`.  The condition is tested at most `SENSOR_RETRY + 1` times. -/
def hwSerialReadRaw (hd : Header) (lenght_buffer : Nat) (ser : List (List Byte)) :
    List Byte × Nat × List (List Byte) :=
  hwSerialReadLoop hd lenght_buffer (hd.SENSOR_RETRY + 1) 0 [] ser

/-- `Sensors::hwSerialRead`: the frame read, and the object with the UART advanced. -/
def hwSerialRead (hd : Header) (lenght_buffer : Nat) (s : Sensors) : List Byte × Sensors :=
  let r := hwSerialReadRaw hd lenght_buffer s.serial
  (r.1, { s with serial := r.2.2 })

/-- The frames that `n` successive calls of `hwSerialRead(lenght_buffer)` return. -/
def framesRead (hd : Header) (lenght_buffer : Nat) : Nat → List (List Byte) → List (List Byte)
  | 0, _ => []
  | n + 1, ser =>
    let r := hwSerialReadRaw hd lenght_buffer ser
    r.1 :: framesRead hd lenght_buffer n r.2.2

/-- The byte at index `i` of a frame as a number 0..255; like `String::operator[]`, 0 past
the end. -/
def byteAt (txtMsg : List Byte) (i : Nat) : Nat :=
  (txtMsg.getD i 0).val

/-- The expression `txtMsg[i]`, a plain `char` promoted to `int`: the byte itself where
`char` is unsigned, the byte minus 256 from 128 on where `char` is signed. -/
def charAt (hd : Header) (txtMsg : List Byte) (i : Nat) : Int :=
  if hd.char_signed && decide (128 ≤ byteAt txtMsg i) then (byteAt txtMsg i : Int) - 256
  else (byteAt txtMsg i : Int)

/-- Conversion of an `int` to a `uint16_t` member. -/
def toUInt16 (x : Int) : Nat :=
  (x % 65536).toNat

/-- `Sensors::onSensorError`: hand the message to the error callback if one is set. -/
def onSensorError (msg : String) (s : Sensors) : Sensors :=
  if s.onErrorCb then { s with errors := s.errors ++ [msg] } else s

/-- The Arduino call `delay(ms)`. -/
def delay (ms : Nat) (s : Sensors) : Sensors :=
  { s with delay_ms := s.delay_ms + ms }

/-! ## UART reads -/

/-- `Sensors::pmGenericRead` (Honeywell and Plantower frames). -/
def pmGenericRead (hd : Header) (s : Sensors) : Bool × Sensors :=
  let r := hwSerialRead hd 32 s
  let txtMsg := r.1
  if charAt hd txtMsg 0 = 66 then
    if charAt hd txtMsg 1 = 77 then
      let s1 := { r.2 with
        pm25 := toUInt16 (charAt hd txtMsg 6 * 256 + charAt hd txtMsg 7)
        pm10 := toUInt16 (charAt hd txtMsg 8 * 256 + charAt hd txtMsg 9) }
      let s2 := unitRegister hd hd.PM10 (unitRegister hd hd.PM25 s1)
      if s2.pm25 > 1000 ∧ s2.pm10 > 1000 then
        (false, onSensorError "[E][SLIB] UART PMGENERIC out of range pm25 > 1000" s2)
      else (true, s2)
    else (false, onSensorError "[E][SLIB] UART PMGENERIC invalid sensor header!" r.2)
  else (false, r.2)

/-- `Sensors::pmPanasonicRead`. -/
def pmPanasonicRead (hd : Header) (s : Sensors) : Bool × Sensors :=
  let r := hwSerialRead hd 32 s
  let txtMsg := r.1
  if charAt hd txtMsg 0 = 2 then
    let s1 := { r.2 with
      pm1 := toUInt16 (charAt hd txtMsg 2 * 256 + charAt hd txtMsg 1)
      pm25 := toUInt16 (charAt hd txtMsg 6 * 256 + charAt hd txtMsg 5)
      pm10 := toUInt16 (charAt hd txtMsg 10 * 256 + charAt hd txtMsg 9) }
    let s2 := unitRegister hd hd.PM10 (unitRegister hd hd.PM25 (unitRegister hd hd.PM1 s1))
    if s2.pm25 > 2000 ∧ s2.pm10 > 2000 then
      (false, onSensorError "[E][SLIB] PANASONIC out of range pm25 > 2000" s2)
    else (true, s2)
  else (false, onSensorError "[E][SLIB] PANASONIC invalid sensor header!" r.2)

/-- `Sensors::pmSDS011Read`; the division by 10 is the truncating division of `int`. -/
def pmSDS011Read (hd : Header) (s : Sensors) : Bool × Sensors :=
  let r := hwSerialRead hd 10 s
  let txtMsg := r.1
  if charAt hd txtMsg 0 = 170 then
    if charAt hd txtMsg 1 = 192 then
      let s1 := { r.2 with
        pm25 := toUInt16 ((charAt hd txtMsg 3 * 256 + charAt hd txtMsg 2).tdiv 10)
        pm10 := toUInt16 ((charAt hd txtMsg 5 * 256 + charAt hd txtMsg 4).tdiv 10) }
      let s2 := unitRegister hd hd.PM10 (unitRegister hd hd.PM25 s1)
      if s2.pm25 > 1000 ∧ s2.pm10 > 1000 then
        (false, onSensorError "[E][SLIB] SDS011 out of range pm25 > 1000" s2)
      else (true, s2)
    else (false, onSensorError "[E][SLIB] SDS011 invalid sensor header!" r.2)
  else (false, r.2)

/-! ## Detection -/

/-- `Sensors::sps30UARTInit`: the answer belongs to the vendor driver. -/
def sps30UARTInit (s : Sensors) : Bool × Sensors :=
  (s.sps30_init.headD false, { s with sps30_init := s.sps30_init.tail })

/-- `Sensors::CO2Mhz19Init`: starts the driver and returns true. -/
def CO2Mhz19Init (s : Sensors) : Bool × Sensors :=
  (true, s)

/-- `Sensors::CO2CM1106Init`: true when the driver reports a software version. -/
def CO2CM1106Init (s : Sensors) : Bool × Sensors :=
  (s.cm1106_init.headD false, { s with cm1106_init := s.cm1106_init.tail })

/-- `Sensors::senseAirS8Init`: true when the driver reports a firmware version. -/
def senseAirS8Init (s : Sensors) : Bool × Sensors :=
  (s.s8_init.headD false, { s with s8_init := s.s8_init.tail })

/-- The `default:` branch of the switch in `serialInit`. -/
def serialInitDefault (hd : Header) (pms_rx pms_tx : Int) : Bool :=
  if pms_rx = 0 ∨ pms_tx = 0 then false
  else if pms_rx = 8 ∧ pms_tx = 8 then true
  else hd.INCLUDE_SOFTWARE_SERIAL

/-- Whether the switch over `SENSOR_COMMS` in `serialInit` gets to `break` (a port was
opened) rather than to `return false`.  A `case` that the preprocessor removes for the
board falls to `default:`. -/
def serialInitSwitch (hd : Header) (pms_rx pms_tx : Int) : Bool :=
  match hd.SENSOR_COMMS, hd.arch with
  | Port.SERIALPORT, _ => true
  | Port.SERIALPORT1, Arch.avrMega => true
  | Port.SERIALPORT1, Arch.samd21 => true
  | Port.SERIALPORT1, Arch.samDue => true
  | Port.SERIALPORT1, Arch.avr32u4 => true
  | Port.SERIALPORT1, Arch.esp32 => if pms_rx = 0 ∨ pms_tx = 0 then false else true
  | Port.SERIALPORT2, Arch.avrMega => true
  | Port.SERIALPORT2, Arch.samDue => true
  | Port.SERIALPORT2, Arch.esp32 => true
  | Port.SERIALPORT3, Arch.avrMega => true
  | Port.SERIALPORT3, Arch.samDue => true
  | _, _ => serialInitDefault hd pms_rx pms_tx

/-- `Sensors::serialInit`: open the port, then `delay(10)` and true; false when the switch
returned early. -/
def serialInit (hd : Header) (_pms_type : Int) (_speed_baud : Nat) (pms_rx pms_tx : Int)
    (s : Sensors) : Bool × Sensors :=
  if serialInitSwitch hd pms_rx pms_tx then (true, delay 10 s) else (false, s)

/-- `Sensors::pmSensorAutoDetect`. -/
def pmSensorAutoDetect (hd : Header) (pms_type : Int) (s : Sensors) : Bool × Sensors :=
  let s0 := delay 1000 s
  let r1 := if pms_type = SSPS30 then sps30UARTInit s0 else (false, s0)
  if r1.1 then (true, { r1.2 with device_selected := "SENSIRION", dev_uart_type := SSPS30 })
  else
    let r2 := if pms_type = SDS011 then pmSDS011Read hd r1.2 else (false, r1.2)
    if r2.1 then (true, { r2.2 with device_selected := "SDS011", dev_uart_type := SDS011 })
    else
      let r3 := if pms_type = Mhz19 then CO2Mhz19Init r2.2 else (false, r2.2)
      if r3.1 then (true, { r3.2 with device_selected := "MHZ19", dev_uart_type := Mhz19 })
      else
        let r4 := if pms_type = CM1106 then CO2CM1106Init r3.2 else (false, r3.2)
        if r4.1 then
          (true, { r4.2 with device_selected := "CM1106", dev_uart_type := CM1106 })
        else
          let r5 := if pms_type = SENSEAIRS8 then senseAirS8Init r4.2 else (false, r4.2)
          if r5.1 then
            (true, { r5.2 with device_selected := "SENSEAIRS8", dev_uart_type := SENSEAIRS8 })
          else if pms_type ≤ Panasonic then
            let g := pmGenericRead hd r5.2
            if g.1 then (true, { g.2 with device_selected := "GENERIC", dev_uart_type := Auto })
            else
              let p := pmPanasonicRead hd (delay 1000 g.2)
              if p.1 then
                (true, { p.2 with device_selected := "PANASONIC", dev_uart_type := Panasonic })
              else (false, p.2)
          else (false, r5.2)

/-- The loop of `sensorSerialInit`,
`while (!pmSensorAutoDetect(pms_type) && try_sensor_init++ < 2);`.  The first argument
bounds the number of tests of the condition; the result is the final `try_sensor_init`
and the object. -/
def sensorSerialInitLoop (hd : Header) (pms_type : Int) : Nat → Nat → Sensors → Nat × Sensors
  | 0, try_sensor_init, s => (try_sensor_init, s)
  | fuel + 1, try_sensor_init, s =>
    let r := pmSensorAutoDetect hd pms_type s
    if r.1 then (try_sensor_init, r.2)
    else if try_sensor_init < 2 then sensorSerialInitLoop hd pms_type fuel (try_sensor_init + 1) r.2
    else (try_sensor_init + 1, r.2)

/-- The chain at the head of `sensorSerialInit`: each known kind opens the port at its
speed, any other value of `pms_type` opens nothing and goes on. -/
def sensorSerialInitPort (hd : Header) (pms_type pms_rx pms_tx : Int) (s : Sensors) :
    Bool × Sensors :=
  if pms_type = Auto then serialInit hd pms_type 9600 pms_rx pms_tx s
  else if pms_type = Panasonic then serialInit hd pms_type 9600 pms_rx pms_tx s
  else if pms_type = SSPS30 then serialInit hd pms_type 115200 pms_rx pms_tx s
  else if pms_type = SDS011 then serialInit hd pms_type 9600 pms_rx pms_tx s
  else if pms_type = Mhz19 then serialInit hd pms_type 9600 pms_rx pms_tx s
  else if pms_type = CM1106 then serialInit hd pms_type 9600 pms_rx pms_tx s
  else if pms_type = SENSEAIRS8 then serialInit hd pms_type 9600 pms_rx pms_tx s
  else (true, s)

/-- `Sensors::sensorSerialInit`: false when the port did not open; otherwise run the
detection loop (its condition is tested at most three times) and answer
`dev_uart_type >= 0`. -/
def sensorSerialInit (hd : Header) (pms_type pms_rx pms_tx : Int) (s : Sensors) :
    Bool × Sensors :=
  let r := sensorSerialInitPort hd pms_type pms_rx pms_tx s
  if r.1 then
    let l := sensorSerialInitLoop hd pms_type 3 0 r.2
    (decide (0 ≤ l.2.dev_uart_type), l.2)
  else (false, r.2)

/-! ## Compensation -/

/-- `Sensors::CO2correctionAlt`: the correction is evaluated in `double`, stored in the
`float` `CO2cor`, rounded and written back to `CO2Val`.  The decimal literals stand as
they are written in the source. -/
def CO2correctionAlt (fp : Fpu) (s : Sensors) : Sensors :=
  let CO2cor := fp.toFloat (fp.dadd
    (fp.dmul
      (fp.dmul (Flt.val 0.016) (fp.ddiv (fp.dsub (Flt.val 1013.25) s.hpa) (Flt.val 10)))
      (fp.ofInt ((s.CO2Val : Int) - 400)))
    (fp.ofInt (s.CO2Val : Int)))
  { s with CO2Val := toUInt16 (fp.round CO2cor) }

/-- The local `CO2cor` of `CO2correctionAlt` for a reading `r` at the pressure `hpa`:
`(0.016 * ((1013.25 - hpa) / 10) * (r - 400)) + r`, evaluated in `double` and stored in a
`float`. -/
def CO2cor (fp : Fpu) (r : Nat) (hpa : Flt) : Flt :=
  fp.toFloat (fp.dadd
    (fp.dmul
      (fp.dmul (Flt.val 0.016) (fp.ddiv (fp.dsub (Flt.val 1013.25) hpa) (Flt.val 10)))
      (fp.ofInt ((r : Int) - 400)))
    (fp.ofInt (r : Int)))

/-- `Sensors::hpaCalculation`: `1012 - 0.118 * altitude + 0.00000473 * altitude * altitude`,
evaluated in `double` and returned as a `float`. -/
def hpaCalculation (fp : Fpu) (altitude : Flt) : Flt :=
  fp.toFloat (fp.dadd
    (fp.dsub (Flt.val 1012) (fp.dmul (Flt.val 0.118) altitude))
    (fp.dmul (fp.dmul (Flt.val 0.00000473) altitude) altitude))

/-! ## Reads of the UART devices with a vendor driver -/

/-- What `sps30.GetValues` answers when no SPS30 is there. -/
def Sps30Values.absent : Sps30Values :=
  ⟨Sps30Ret.other, Flt.val 0, Flt.val 0, Flt.val 0, Flt.val 0⟩

/-- The `do ... while (ret != ERR_OK)` loop of `sps30Read`.  The first argument bounds the
number of rounds, the second is `error_cnt`; the result is the values read, or nothing when
the loop left the method with `return false`. -/
def sps30ReadLoop : Nat → Nat → Sensors → Option Sps30Values × Sensors
  | 0, _, s => (none, s)
  | fuel + 1, error_cnt, s =>
    let val := s.sps30.headD Sps30Values.absent
    let s1 := { s with sps30 := s.sps30.tail }
    match val.ret with
    | Sps30Ret.ERR_OK => (some val, s1)
    | Sps30Ret.ERR_DATALENGTH =>
      if error_cnt > 3 then (none, s1) else sps30ReadLoop fuel (error_cnt + 1) (delay 500 s1)
    | Sps30Ret.other => (none, s1)

/-- The head of `sps30Read`: `delay(35)`, then, when `i2conly` is set and the sample time
is above 30 s, the sensor is started (`return false` if that fails) and given 15 s. -/
def sps30ReadStart (s : Sensors) : Bool × Sensors :=
  let s0 := delay 35 s
  if s0.i2conly && decide (30 < s0.sample_time) then
    if s0.sps30_start.headD false then
      (true, delay 15000 { s0 with sps30_start := s0.sps30_start.tail })
    else (false, { s0 with sps30_start := s0.sps30_start.tail })
  else (true, s0)

/-- The tail of `sps30Read`, once `GetValues` has answered `ERR_OK`: the four masses are
rounded and stored, the four units registered, and the range guard decides the answer.
The call `sps30.stop()` between the two is a command to the sensor and changes no member. -/
def sps30ReadStore (hd : Header) (fp : Fpu) (val : Sps30Values) (s : Sensors) :
    Bool × Sensors :=
  let s3 := { s with
    pm1 := toUInt16 (fp.round val.MassPM1)
    pm25 := toUInt16 (fp.round val.MassPM2)
    pm4 := toUInt16 (fp.round val.MassPM4)
    pm10 := toUInt16 (fp.round val.MassPM10) }
  let s4 := unitRegister hd hd.PM10 (unitRegister hd hd.PM4
    (unitRegister hd hd.PM25 (unitRegister hd hd.PM1 s3)))
  if s4.pm25 > 1000 ∧ s4.pm10 > 1000 then
    (false, onSensorError "[E][SLIB] SPS30 Sensirion out of range pm25 > 1000" s4)
  else (true, { s4 with dataReady := true })

/-- `Sensors::sps30Read`.  The loop makes at most five rounds. -/
def sps30Read (hd : Header) (fp : Fpu) (s : Sensors) : Bool × Sensors :=
  let started := sps30ReadStart s
  if started.1 then
    match sps30ReadLoop 5 0 started.2 with
    | (none, s2) => (false, s2)
    | (some val, s2) => sps30ReadStore hd fp val s2
  else (false, started.2)

/-- What the MH-Z19 driver answers when no sensor is there. -/
def Mhz19Answer.absent : Mhz19Answer :=
  ⟨0, Flt.val 0⟩

/-- `Sensors::CO2Mhz19Read`. -/
def CO2Mhz19Read (hd : Header) (fp : Fpu) (s : Sensors) : Bool × Sensors :=
  let a := s.mhz19.headD Mhz19Answer.absent
  let s1 := { s with
    mhz19 := s.mhz19.tail
    CO2Val := toUInt16 a.co2
    CO2temp := fp.fsub a.temperature s.toffset }
  if s1.CO2Val > 0 then
    let s2 := if s1.altoffset.eqNum 0 then s1 else CO2correctionAlt fp s1
    (true, unitRegister hd hd.CO2TEMP (unitRegister hd hd.CO2 { s2 with dataReady := true }))
  else (false, s1)

/-- `Sensors::CO2CM1106Read`. -/
def CO2CM1106Read (hd : Header) (fp : Fpu) (s : Sensors) : Bool × Sensors :=
  let s1 := { s with cm1106 := s.cm1106.tail, CO2Val := toUInt16 (s.cm1106.headD 0) }
  if s1.CO2Val > 0 then
    let s2 := { s1 with dataReady := true }
    let s3 := if s2.altoffset.eqNum 0 then s2 else CO2correctionAlt fp s2
    (true, unitRegister hd hd.CO2 s3)
  else (false, s1)

/-- `Sensors::senseAirS8Read`. -/
def senseAirS8Read (hd : Header) (fp : Fpu) (s : Sensors) : Bool × Sensors :=
  let s1 := { s with s8 := s.s8.tail, CO2Val := toUInt16 (s.s8.headD 0) }
  if s1.CO2Val > 0 then
    let s2 := if s1.altoffset.eqNum 0 then s1 else CO2correctionAlt fp s1
    (true, unitRegister hd hd.CO2 { s2 with dataReady := true })
  else (false, s1)

/-- `Sensors::pmSensorRead`: the read of the device selected by `dev_uart_type`. -/
def pmSensorRead (hd : Header) (fp : Fpu) (s : Sensors) : Bool × Sensors :=
  if s.dev_uart_type = Auto then pmGenericRead hd s
  else if s.dev_uart_type = Panasonic then pmPanasonicRead hd s
  else if s.dev_uart_type = SSPS30 then sps30Read hd fp s
  else if s.dev_uart_type = SDS011 then pmSDS011Read hd s
  else if s.dev_uart_type = Mhz19 then CO2Mhz19Read hd fp s
  else if s.dev_uart_type = CM1106 then CO2CM1106Read hd fp s
  else if s.dev_uart_type = SENSEAIRS8 then senseAirS8Read hd fp s
  else (false, s)

/-! ## Reads of the I2C devices -/

/-- What the AM2320 driver answers when no sensor is there. -/
def Am2320Answer.absent : Am2320Answer :=
  ⟨false, Flt.nan, Flt.nan⟩

/-- `Sensors::am2320Read`. -/
def am2320Read (hd : Header) (fp : Fpu) (s : Sensors) : Sensors :=
  let a := s.am2320.headD Am2320Answer.absent
  let s0 := { s with am2320 := s.am2320.tail }
  if a.ok then
    let s1 := if a.humidity.isnan then s0 else { s0 with humi := a.humidity }
    if a.temperature.isnan then s1
    else
      unitRegister hd hd.HUM (unitRegister hd hd.TEMP
        { s1 with temp := fp.fsub a.temperature s1.toffset, dataReady := true })
  else s0

/-- What the BME280 driver answers when no sensor is there. -/
def Bme280Answer.absent : Bme280Answer :=
  ⟨Flt.nan, Flt.nan, Flt.nan, Flt.nan⟩

/-- `Sensors::bme280Read`. -/
def bme280Read (hd : Header) (fp : Fpu) (s : Sensors) : Sensors :=
  let a := s.bme280.headD Bme280Answer.absent
  let s0 := { s with bme280 := s.bme280.tail }
  if a.humidity.isnan || a.humidity.eqNum 0 || a.temperature.isnan then s0
  else
    unitRegister hd hd.HUM (unitRegister hd hd.TEMP
      { s0 with
        humi := a.humidity
        temp := fp.fsub a.temperature s0.toffset
        pres := a.pressure
        alt := a.altitude
        dataReady := true })

/-- What the BMP280 driver answers when no sensor is there. -/
def Bmp280Answer.absent : Bmp280Answer :=
  ⟨Flt.val 0, Flt.val 0, Flt.val 0, Flt.val 0⟩

/-- `Sensors::bmp280Read`. -/
def bmp280Read (hd : Header) (fp : Fpu) (s : Sensors) : Sensors :=
  let a := s.bmp280.headD Bmp280Answer.absent
  let s0 := { s with bmp280 := s.bmp280.tail }
  if a.pressure.eqNum 0 then s0
  else
    unitRegister hd hd.ALT (unitRegister hd hd.PRESS (unitRegister hd hd.TEMP
      { s0 with
        temp := fp.fsub a.temperature s0.toffset
        pres := a.pressure2
        alt := a.altitude
        dataReady := true }))

/-- What the BME680 driver answers when no sensor is there. -/
def Bme680Answer.absent : Bme680Answer :=
  ⟨0, false, Flt.val 0, Flt.val 0, Flt.val 0, Flt.val 0, Flt.val 0⟩

/-- `Sensors::bme680Read`. -/
def bme680Read (hd : Header) (fp : Fpu) (s : Sensors) : Sensors :=
  let a := s.bme680.headD Bme680Answer.absent
  let s0 := { s with bme680 := s.bme680.tail }
  if a.endTime = 0 then s0
  else if a.endReading then
    if a.temperature.eqNum 0 then s0
    else
      unitRegister hd hd.GAS (unitRegister hd hd.PRESS (unitRegister hd hd.HUM
        (unitRegister hd hd.TEMP
          { s0 with
            temp := fp.fsub a.temperature s0.toffset
            humi := a.humidity
            pres := fp.toFloat (fp.ddiv a.pressure (Flt.val 100))
            gas := fp.toFloat (fp.ddiv a.gas_resistance (Flt.val 1000))
            alt := a.altitude
            dataReady := true })))
  else s0

/-- What the AHT10 driver answers when no sensor is there. -/
def HumTempAnswer.absent255 : HumTempAnswer :=
  ⟨Flt.val 255, Flt.val 255⟩

/-- `Sensors::aht10Read`. -/
def aht10Read (hd : Header) (fp : Fpu) (s : Sensors) : Sensors :=
  let a := s.aht10.headD HumTempAnswer.absent255
  let s0 := { s with aht10 := s.aht10.tail }
  let s1 := if a.humidity.eqNum 255 then s0 else { s0 with humi := a.humidity }
  if a.temperature.eqNum 255 then s1
  else
    unitRegister hd hd.HUM (unitRegister hd hd.TEMP
      { s1 with temp := fp.fsub a.temperature s1.toffset, dataReady := true })

/-- What the SHT31 driver answers when no sensor is there. -/
def HumTempAnswer.absentNan : HumTempAnswer :=
  ⟨Flt.nan, Flt.nan⟩

/-- `Sensors::sht31Read`. -/
def sht31Read (hd : Header) (fp : Fpu) (s : Sensors) : Sensors :=
  let a := s.sht31.headD HumTempAnswer.absentNan
  let s0 := { s with sht31 := s.sht31.tail }
  let s1 := if a.humidity.isnan then s0 else { s0 with humi := a.humidity }
  if a.temperature.isnan then s1
  else
    unitRegister hd hd.HUM (unitRegister hd hd.TEMP
      { s1 with temp := fp.fsub a.temperature s1.toffset, dataReady := true })

/-- What the SCD30 driver answers when no sensor is there. -/
def Scd30Answer.absent : Scd30Answer :=
  ⟨0, Flt.val 0, Flt.val 0⟩

/-- `Sensors::CO2scd30Read`. -/
def CO2scd30Read (hd : Header) (s : Sensors) : Sensors :=
  let a := s.scd30.headD Scd30Answer.absent
  let s0 := { s with scd30 := s.scd30.tail }
  let tCO2 := a.co2 % 65536
  if tCO2 > 0 then
    unitRegister hd hd.CO2HUM (unitRegister hd hd.CO2TEMP (unitRegister hd hd.CO2
      { s0 with
        CO2Val := tCO2
        CO2humi := a.humidity
        CO2temp := a.temperature
        dataReady := true }))
  else s0

/-- What `scd4x.readMeasurement` answers when no sensor is there. -/
def Scd4xAnswer.absent : Scd4xAnswer :=
  ⟨1, 0, Flt.val 0, Flt.val 0⟩

/-- `Sensors::CO2scd4xRead`. -/
def CO2scd4xRead (hd : Header) (s : Sensors) : Sensors :=
  if s.device_selected = "SCD4x" then
    let a := s.scd4x.headD Scd4xAnswer.absent
    let s0 := { s with scd4x := s.scd4x.tail }
    if a.error % 65536 = 0 then
      unitRegister hd hd.CO2HUM (unitRegister hd hd.CO2TEMP (unitRegister hd hd.CO2
        { s0 with
          CO2Val := a.co2 % 65536
          CO2humi := a.humidity
          CO2temp := a.temperature
          dataReady := true }))
    else s0
  else s

/-- What the SN-GCJA5 driver answers when no sensor is there. -/
def Gcja5Answer.absent : Gcja5Answer :=
  ⟨0, 0, 0⟩

/-- `Sensors::PMGCJA5Read`. -/
def PMGCJA5Read (hd : Header) (s : Sensors) : Sensors :=
  if s.device_selected = "PANASONIC_I2C" then
    let a := s.pmGCJA5.headD Gcja5Answer.absent
    unitRegister hd hd.PM10 (unitRegister hd hd.PM25 (unitRegister hd hd.PM1
      { s with
        pmGCJA5 := s.pmGCJA5.tail
        pm1 := toUInt16 a.pm1
        pm25 := toUInt16 a.pm25
        pm10 := toUInt16 a.pm10
        dataReady := true }))
  else s

/-- The Arduino call `millis()`, a 32-bit count; when the list of answers is used up the
clock reads 0. -/
def millis (s : Sensors) : Nat × Sensors :=
  (s.millis.headD 0 % 4294967296, { s with millis := s.millis.tail })

/-- The initialiser of the `static` timestamp of `dhtIsReady`, which the first call runs:
it reads `millis()`. -/
def dhtTimestamp (s : Sensors) : Nat × Sensors :=
  match s.measurement_timestamp with
  | some t => (t, s)
  | none => ((millis s).1, { (millis s).2 with measurement_timestamp := some (millis s).1 })

/-- The inner part of `dhtIsReady`: `dht_sensor.measure(temperature, humidity)`, which
writes its two outputs when it succeeds; the timestamp is then renewed from `millis()`. -/
def dhtMeasure (s : Sensors) : Bool × Sensors :=
  match s.dht_sensor.headD none with
  | some (temperature, humidity) =>
    (true,
      { s with
        dht_sensor := s.dht_sensor.tail
        dhttemp := temperature
        dhthumi := humidity
        millis := s.millis.tail
        measurement_timestamp := some (s.millis.headD 0 % 4294967296) })
  | none => (false, { s with dht_sensor := s.dht_sensor.tail })

/-- `Sensors::dhtIsReady(&dhttemp, &dhthumi)`: a measurement is asked for once more than
4000 ms have passed since the timestamp. -/
def dhtIsReady (s : Sensors) : Bool × Sensors :=
  let init := dhtTimestamp s
  let now := millis init.2
  if (now.1 + 4294967296 - init.1) % 4294967296 > 4000 then dhtMeasure now.2
  else (false, now.2)

/-- `Sensors::dhtRead`. -/
def dhtRead (hd : Header) (fp : Fpu) (s : Sensors) : Sensors :=
  let r := dhtIsReady s
  if r.1 then
    unitRegister hd hd.HUM (unitRegister hd hd.TEMP
      { r.2 with temp := fp.fsub r.2.dhttemp r.2.toffset, humi := r.2.dhthumi, dataReady := true })
  else r.2

/-! ## The loop -/

/-- `Sensors::resetAllVariables`. -/
def resetAllVariables (s : Sensors) : Sensors :=
  { s with
    pm1 := 0
    pm25 := 0
    pm10 := 0
    CO2Val := 0
    CO2humi := Flt.val 0
    CO2temp := Flt.val 0
    humi := Flt.val 0
    temp := Flt.val 0
    alt := Flt.val 0
    gas := Flt.val 0
    pres := Flt.val 0 }

/-- The first three statements of a cycle of `loop`: the timestamp is renewed from
`millis()`, `dataReady` cleared and the registry reset. -/
def loopStart (hd : Header) (s : Sensors) : Sensors :=
  resetUnitsRegister hd { (millis s).2 with pmLoopTimeStamp := (millis s).1, dataReady := false }

/-- The head of a cycle of `loop`: after `loopStart`, unless `i2conly` is set, `dataReady`
becomes the answer of `pmSensorRead`. -/
def loopUart (hd : Header) (fp : Fpu) (s : Sensors) : Sensors :=
  if (loopStart hd s).i2conly then loopStart hd s
  else
    { (pmSensorRead hd fp (loopStart hd s)).2 with
      dataReady := (pmSensorRead hd fp (loopStart hd s)).1 }

/-- The ten reads that every cycle of `loop` makes after the UART read, in their order. -/
def loopI2C (hd : Header) (fp : Fpu) (s : Sensors) : Sensors :=
  PMGCJA5Read hd (CO2scd4xRead hd (CO2scd30Read hd (sht31Read hd fp (aht10Read hd fp
    (bme680Read hd fp (bmp280Read hd fp (bme280Read hd fp (am2320Read hd fp
      (dhtRead hd fp s)))))))))

/-- The statement `if (i2conly && dev_uart_type == SSPS30) sps30Read();` of `loop`. -/
def loopSps30 (hd : Header) (fp : Fpu) (s : Sensors) : Sensors :=
  if s.i2conly ∧ s.dev_uart_type = SSPS30 then (sps30Read hd fp s).2 else s

/-- A cycle of `loop` up to the point where the callbacks are dispatched. -/
def loopReads (hd : Header) (fp : Fpu) (s : Sensors) : Sensors :=
  loopSps30 hd fp (loopI2C hd fp (loopUart hd fp s))

/-- The dispatch of the callbacks in `loop`: the data callback when `dataReady` is set and
the callback is there, otherwise the error callback when `dataReady` is not set and that
callback is there. -/
def loopDispatch (s : Sensors) : Sensors :=
  if s.dataReady ∧ s.onDataCb then { s with data_calls := s.data_calls + 1 }
  else if (!s.dataReady) ∧ s.onErrorCb then
    { s with errors := s.errors ++ ["[W][SLIB] No data from any sensor!"] }
  else s

/-- The body of the `if` of `loop`, a cycle: the reads, the dispatch, and
`resetAllVariables` when no unit is registered. -/
def loopCycle (hd : Header) (fp : Fpu) (s : Sensors) : Sensors :=
  let t := loopDispatch (loopReads hd fp s)
  if t.units_registered_count = 0 then resetAllVariables t else t

/-- The test of `loop`, `millis() - pmLoopTimeStamp > sample_time * (uint32_t)1000`, for
the answer `now` of `millis()`: both sides are 32-bit unsigned. -/
def loopDue (now : Nat) (s : Sensors) : Bool :=
  decide ((now + 4294967296 - s.pmLoopTimeStamp % 4294967296) % 4294967296 >
    (s.sample_time * 1000 % 4294967296).toNat)

/-- `Sensors::loop`: a cycle when more than `sample_time * 1000` ms have passed since
`pmLoopTimeStamp`, then `dhtRead` in every call. -/
def loop (hd : Header) (fp : Fpu) (s : Sensors) : Sensors :=
  let m := millis s
  if loopDue m.1 m.2 then dhtRead hd fp (loopCycle hd fp m.2)
  else dhtRead hd fp m.2

/-! ## Initialisation -/

/-- `Sensors::sps30I2CInit`: nothing when the SPS30 was found on the UART; otherwise, when
`sps30.begin(&Wire)`, `sps30tests()` and `sps30.start()` all succeed, the SPS30 becomes
the selected device. -/
def sps30I2CInit (s : Sensors) : Bool × Sensors :=
  if s.dev_uart_type = SSPS30 then (false, s)
  else if s.sps30_i2c.headD false then
    (true, { s with
      sps30_i2c := s.sps30_i2c.tail
      device_selected := "SENSIRION"
      dev_uart_type := SSPS30 })
  else (false, { s with sps30_i2c := s.sps30_i2c.tail })

/-- `Sensors::PMGCJA5Init`: nothing when a Panasonic was found on the UART; otherwise,
when `pmGCJA5.begin()` succeeds, the SN-GCJA5 becomes the selected device. -/
def PMGCJA5Init (s : Sensors) : Sensors :=
  if s.dev_uart_type = Panasonic then s
  else if s.gcja5_begin.headD false then
    { s with
      gcja5_begin := s.gcja5_begin.tail
      device_selected := "PANASONIC_I2C"
      dev_uart_type := Auto }
  else { s with gcja5_begin := s.gcja5_begin.tail }

/-- `Sensors::am2320Init`: `am2320.begin()` and a line on the console; no member
changes. -/
def am2320Init (s : Sensors) : Sensors := s

/-- `Sensors::sht31Init`: a new driver object, `sht31.begin()` and a line on the console;
no member that is modelled changes. -/
def sht31Init (s : Sensors) : Sensors := s

/-- `Sensors::bme280Init`: `bme280.begin()` and a line on the console; no member
changes. -/
def bme280Init (s : Sensors) : Sensors := s

/-- `Sensors::bmp280Init`: `bmp280.begin()` and the settings of the sensor; no member
changes. -/
def bmp280Init (s : Sensors) : Sensors := s

/-- `Sensors::bme680Init`: `bme680.begin()` and the settings of the sensor; no member
changes. -/
def bme680Init (s : Sensors) : Sensors := s

/-- `Sensors::aht10Init`: a new driver object, `aht10.begin()` and a line on the console;
no member that is modelled changes. -/
def aht10Init (s : Sensors) : Sensors := s

/-- `Sensors::dhtInit`, whose body is empty. -/
def dhtInit (s : Sensors) : Sensors := s

/-- `Sensors::setSCD30AltitudeOffset`: a command to the sensor when the SCD30 is the
selected device; no member changes. -/
def setSCD30AltitudeOffset (s : Sensors) : Sensors := s

/-- `Sensors::setSCD30TempOffset`: a command to the sensor when the SCD30 is the selected
device; no member changes. -/
def setSCD30TempOffset (s : Sensors) : Sensors := s

/-- `Sensors::setSCD4xAltitudeOffset`: when the SCD4x is the selected device the
measurement is stopped, `delay(510)`, the altitude is sent and the measurement started. -/
def setSCD4xAltitudeOffset (s : Sensors) : Sensors :=
  if s.device_selected = "SCD4x" then delay 510 s else s

/-- `Sensors::setSCD4xTempOffset`: when the SCD4x is the selected device the measurement
is stopped, `delay(510)`, the offset is sent and the measurement started. -/
def setSCD4xTempOffset (s : Sensors) : Sensors :=
  if s.device_selected = "SCD4x" then delay 510 s else s

/-- What the SCD30 driver answers to `CO2scd30Init` when no sensor is there. -/
def Scd30Begin.absent : Scd30Begin :=
  ⟨false, false, false⟩

/-- `Sensors::CO2scd30Init`: when `scd30.begin()` succeeds the SCD30 becomes the selected
device, the offsets that differ are sent to the sensor, and a first read is made. -/
def CO2scd30Init (hd : Header) (s : Sensors) : Sensors :=
  let a := s.scd30_begin.headD Scd30Begin.absent
  let s0 := { s with scd30_begin := s.scd30_begin.tail }
  if a.begin then
    let s1 := { delay 10 s0 with device_selected := "SCD30" }
    let s2 := if a.altitudeDiffers then delay 10 (setSCD30AltitudeOffset s1) else s1
    let s3 := if a.offsetDiffers then delay 10 (setSCD30TempOffset s2) else s2
    CO2scd30Read hd s3
  else s0

/-- What the SCD4x driver answers to `CO2scd4xInit` when no sensor is there. -/
def Scd4xBegin.absent : Scd4xBegin :=
  ⟨1, false, false, 1⟩

/-- `Sensors::CO2scd4xInit`: when `stopPeriodicMeasurement()` gives no error the SCD4x
becomes the selected device and the offsets that differ are sent to the sensor; when
`startPeriodicMeasurement()` gives no error either, a first read is made. -/
def CO2scd4xInit (hd : Header) (s : Sensors) : Sensors :=
  let a := s.scd4x_begin.headD Scd4xBegin.absent
  let s0 := { s with scd4x_begin := s.scd4x_begin.tail }
  if a.stopError % 65536 = 0 then
    let s1 := { delay 10 s0 with device_selected := "SCD4x" }
    let s2 := if a.altitudeDiffers then delay 1 (setSCD4xAltitudeOffset s1) else s1
    let s3 := if a.offsetDiffers then delay 1 (setSCD4xTempOffset s2) else s2
    if a.startError % 65536 = 0 then CO2scd4xRead hd s3 else s3
  else s0

/-- The second part of `Sensors::init`, after `Wire.begin()`: the inits of the I2C
devices, in their order. -/
def initI2C (hd : Header) (s : Sensors) : Sensors :=
  CO2scd4xInit hd (CO2scd30Init hd (dhtInit (aht10Init (bme680Init (bmp280Init (bme280Init
    (sht31Init (am2320Init (PMGCJA5Init (sps30I2CInit s).2)))))))))

/-- `Sensors::init`: unless `i2conly` is set the UART device is looked for, then the I2C
devices are. -/
def init (hd : Header) (pms_type pms_rx pms_tx : Int) (s : Sensors) : Sensors :=
  initI2C hd (if s.i2conly then s else (sensorSerialInit hd pms_type pms_rx pms_tx s).2)

/-! ## Getters -/

/-- `Sensors::getPM1`. -/
def getPM1 (s : Sensors) : Nat := s.pm1

/-- `Sensors::getPM25`. -/
def getPM25 (s : Sensors) : Nat := s.pm25

/-- `Sensors::getPM4`. -/
def getPM4 (s : Sensors) : Nat := s.pm4

/-- `Sensors::getPM10`. -/
def getPM10 (s : Sensors) : Nat := s.pm10

/-- `Sensors::getCO2`. -/
def getCO2 (s : Sensors) : Nat := s.CO2Val

/-- `Sensors::getCO2humi`. -/
def getCO2humi (s : Sensors) : Flt := s.CO2humi

/-- `Sensors::getCO2temp`. -/
def getCO2temp (s : Sensors) : Flt := s.CO2temp

/-- `Sensors::getHumidity`. -/
def getHumidity (s : Sensors) : Flt := s.humi

/-- `Sensors::getTemperature`. -/
def getTemperature (s : Sensors) : Flt := s.temp

/-- `Sensors::getGas`. -/
def getGas (s : Sensors) : Flt := s.gas

/-- `Sensors::getAltitude`. -/
def getAltitude (s : Sensors) : Flt := s.alt

/-- `Sensors::getPressure`. -/
def getPressure (s : Sensors) : Flt := s.pres

/-- The characters that the C library call `sprintf(output, "%0<width>d", n)` writes before
the terminating 0, for `n` not negative: the decimal digits of `n`, with zeros in front
of them up to `width` characters. -/
def sprintfZeroPad (width n : Nat) : List Char :=
  List.replicate (width - (if n = 0 then 1 else (Nat.digits 10 n).length)) '0' ++
    (if n = 0 then ['0'] else (Nat.digits 10 n).reverse.map Nat.digitChar)

/-- The size of the local `char output[5]` of the `getString...` methods. -/
def outputSize : Nat := 5

/-- `Sensors::getStringPM1`: what `sprintf(output, "%03d", getPM1())` writes before the
terminator. -/
def getStringPM1 (s : Sensors) : List Char := sprintfZeroPad 3 (getPM1 s)

/-- `Sensors::getStringPM25`: what `sprintf(output, "%03d", getPM25())` writes before the
terminator. -/
def getStringPM25 (s : Sensors) : List Char := sprintfZeroPad 3 (getPM25 s)

/-- `Sensors::getStringPM4`: what `sprintf(output, "%03d", getPM4())` writes before the
terminator. -/
def getStringPM4 (s : Sensors) : List Char := sprintfZeroPad 3 (getPM4 s)

/-- `Sensors::getStringPM10`: what `sprintf(output, "%03d", getPM10())` writes before the
terminator. -/
def getStringPM10 (s : Sensors) : List Char := sprintfZeroPad 3 (getPM10 s)

/-- `Sensors::getStringCO2`: what `sprintf(output, "%04d", getCO2())` writes before the
terminator. -/
def getStringCO2 (s : Sensors) : List Char := sprintfZeroPad 4 (getCO2 s)

/-- `Sensors::getUnitValue`: the `switch` over the unit, its cases in their order. -/
def getUnitValue (hd : Header) (fp : Fpu) (unit : Nat) (s : Sensors) : Nat :=
  if unit = hd.PM1 then s.pm1
  else if unit = hd.PM25 then s.pm25
  else if unit = hd.PM10 then s.pm10
  else if unit = hd.PM4 then s.pm4
  else if unit = hd.CO2 then s.CO2Val
  else if unit = hd.CO2HUM then fp.toUInt32 s.CO2humi
  else if unit = hd.CO2TEMP then fp.toUInt32 s.CO2temp
  else if unit = hd.HUM then fp.toUInt32 s.humi
  else if unit = hd.TEMP then fp.toUInt32 s.temp
  else if unit = hd.PRESS then fp.toUInt32 s.hpa
  else if unit = hd.ALT then fp.toUInt32 s.alt
  else if unit = hd.GAS then fp.toUInt32 s.gas
  else 0

/-! ## Examples and invariants used in the statements -/

/-- A configuration for the examples: an ESP32 build (plain `char` unsigned, `Serial2`),
a registry of 20 slots, 1000 polls per frame, and the twelve units numbered from 1. -/
def Header.sample : Header where
  MAX_UNITS_SUPPORTED := 20
  SENSOR_RETRY := 1000
  char_signed := false
  SENSOR_COMMS := Port.SERIALPORT2
  arch := Arch.esp32
  INCLUDE_SOFTWARE_SERIAL := false
  PM1 := 1
  PM25 := 2
  PM4 := 3
  PM10 := 4
  CO2 := 5
  CO2TEMP := 6
  CO2HUM := 7
  TEMP := 8
  HUM := 9
  PRESS := 10
  ALT := 11
  GAS := 12

/-- The configuration of the examples on an ATmega2560, where plain `char` is signed. -/
def Header.sampleAvr : Header :=
  { Header.sample with char_signed := true, arch := Arch.avrMega }

/-- The registry holds the list `l` in its first slots, zeros in the others, and counts
`l`. -/
def RegShape (hd : Header) (l : List Nat) (s : Sensors) : Prop :=
  s.units_registered = l ++ List.replicate (hd.MAX_UNITS_SUPPORTED - l.length) 0 ∧
    s.units_registered_count = l.length ∧ l.length ≤ hd.MAX_UNITS_SUPPORTED

/-- The registry invariant of a cycle: the first slots hold distinct non-zero ordinals of
the enumeration `V`, the count is their number, the other slots are 0. -/
def RegInv (hd : Header) (V : Finset Nat) (s : Sensors) : Prop :=
  ∃ l : List Nat, RegShape hd l s ∧ l.Nodup ∧ ∀ x ∈ l, x ≠ 0 ∧ x ∈ V

/-- The object before `init`, wired to a UART that will deliver `ser`. -/
def Sensors.onUart (n : Nat) (ser : List (List Byte)) : Sensors :=
  { Sensors.fresh n with serial := ser }

/-- A 32-byte Honeywell/Plantower frame: header `0x42 0x4D`, then the four bytes `a b c d`
at offsets 6 to 9, zeros elsewhere. -/
def genericFrame (a b c d : Byte) : List Byte :=
  [0x42, 0x4D, 0, 0, 0, 0, a, b, c, d] ++ List.replicate 22 0

/-- A 10-byte Nova SDS011 frame: header `0xAA 0xC0`, then the four bytes `a b c d` at
offsets 2 to 5, zeros elsewhere. -/
def sds011Frame (a b c d : Byte) : List Byte :=
  [0xAA, 0xC0, a, b, c, d, 0, 0, 0, 0]

/-- A binary operation that is exact on numbers and gives NaN as soon as one operand is
not a number. -/
def Flt.exact2 (f : ℚ → ℚ → ℚ) : Flt → Flt → Flt
  | Flt.val a, Flt.val b => Flt.val (f a b)
  | _, _ => Flt.nan

/-- Arithmetic for the examples: exact on numbers (a quotient by 0 and every operation on
NaN or an infinity give NaN), rounding to the nearest integer with halves away from 0, and
a cast to `uint32_t` that cuts the fraction off (0 where C leaves the cast undefined).
On the small whole numbers of the examples this is what `float` and `double` give; where
an example uses decimal fractions, `float` and `double` differ from it by rounding errors
far below the margin the example has. -/
def Fpu.exact : Fpu where
  fsub := Flt.exact2 (fun a b => a - b)
  dadd := Flt.exact2 (fun a b => a + b)
  dsub := Flt.exact2 (fun a b => a - b)
  dmul := Flt.exact2 (fun a b => a * b)
  ddiv := fun x y => if y = Flt.val 0 then Flt.nan else Flt.exact2 (fun a b => a / b) x y
  ofInt := fun n => Flt.val n
  toFloat := fun x => x
  round := fun x =>
    match x with
    | Flt.val q => if 0 ≤ q then Rat.floor (q + 1 / 2) else -Rat.floor (-q + 1 / 2)
    | _ => 0
  toUInt32 := fun x =>
    match x with
    | Flt.val q => if 0 ≤ q ∧ q < 4294967296 then (Rat.floor q).toNat else 0
    | _ => 0

/-- The units that the reads register, in the order of the cases of `getUnitValue`. -/
def Header.units (hd : Header) : List Nat :=
  [hd.PM1, hd.PM25, hd.PM10, hd.PM4, hd.CO2, hd.CO2HUM, hd.CO2TEMP, hd.HUM, hd.TEMP,
    hd.PRESS, hd.ALT, hd.GAS]

/-- What the registry theorems ask of the header: no unit has the ordinal 0, which marks
an empty slot, every ordinal fits a `uint8_t` slot, and the array has a slot for each of
the twelve units. -/
def Header.UnitsOk (hd : Header) : Prop :=
  (∀ u ∈ hd.units, u ≠ 0 ∧ u < 256) ∧ hd.units.length ≤ hd.MAX_UNITS_SUPPORTED

/-- An object in `i2conly` mode whose SPS30, found on the I2C bus, will give the four
masses 5, 7, 9 and 11 once and then stop answering. -/
def Sensors.withSps30 : Sensors :=
  { Sensors.fresh 20 with
    i2conly := true
    dev_uart_type := SSPS30
    device_selected := "SENSIRION"
    sps30 := [⟨Sps30Ret.ERR_OK, Flt.val 5, Flt.val 7, Flt.val 9, Flt.val 11⟩] }

/-- An object on which `kind` has been detected and an error callback installed, wired to
a UART that will deliver `ser`, with no device on the I2C bus. -/
def Sensors.detected (kind : Int) (name : String) (ser : List (List Byte)) : Sensors :=
  { Sensors.fresh 20 with
    dev_uart_type := kind
    device_selected := name
    onErrorCb := true
    serial := ser }

/-- The object after `n` successive calls of `pmSensorAutoDetect(pms_type)`. -/
def detectTimes (hd : Header) (pms_type : Int) : Nat → Sensors → Sensors
  | 0, s => s
  | n + 1, s => detectTimes hd pms_type n (pmSensorAutoDetect hd pms_type s).2

/-- The object after `n` successive calls of `loop`. -/
def loops (hd : Header) (fp : Fpu) : Nat → Sensors → Sensors
  | 0, s => s
  | n + 1, s => loops hd fp n (loop hd fp s)

/-- The selection of the device is in `t` what it is in `s`: `dev_uart_type` and
`device_selected`. -/
def DeviceKept (s t : Sensors) : Prop :=
  t.dev_uart_type = s.dev_uart_type ∧ t.device_selected = s.device_selected

/-- The read stored no PM value: the four PM members of `t` are those of `s`. -/
def PmKept (s t : Sensors) : Prop :=
  t.pm1 = s.pm1 ∧ t.pm25 = s.pm25 ∧ t.pm4 = s.pm4 ∧ t.pm10 = s.pm10

/-- The unit registry of `t`, array and count, is that of `s`. -/
def RegistryKept (s t : Sensors) : Prop :=
  t.units_registered = s.units_registered ∧
    t.units_registered_count = s.units_registered_count

/-- What no read touches: the two callbacks with the count of data calls, the `i2conly`
setting and the selected device. -/
def FlagsKept (s t : Sensors) : Prop :=
  t.onErrorCb = s.onErrorCb ∧ t.onDataCb = s.onDataCb ∧ t.data_calls = s.data_calls ∧
    t.i2conly = s.i2conly ∧ t.dev_uart_type = s.dev_uart_type ∧
    t.device_selected = s.device_selected

/-- Between `s` and `t` the error callback was invoked at most once, and not with the
message that `loop` gives it. -/
def ErrRel (s t : Sensors) : Prop :=
  ∃ e : List String, t.errors = s.errors ++ e ∧ e.length ≤ 1 ∧
    "[W][SLIB] No data from any sensor!" ∉ e

/-- The effect of one I2C read on what `loop` looks at: either the read was idle, and
registry, `dataReady`, `pm25` and `pm10` are as before, or it set `dataReady` and
registered a non-empty list of units. -/
def I2cStep (hd : Header) (s t : Sensors) : Prop :=
  FlagsKept s t ∧ t.errors = s.errors ∧
    ((RegistryKept s t ∧ t.dataReady = s.dataReady ∧ t.pm25 = s.pm25 ∧ t.pm10 = s.pm10) ∨
      (t.dataReady = true ∧ ∃ us : List Nat, us ≠ [] ∧ (∀ u ∈ us, u ∈ hd.units) ∧
        RegistryKept (registerAll hd us s) t))

/-- The effect of one UART read with result `r` on what `loop` looks at: the read failed
idle (registry, `dataReady`, `pm25`, `pm10` as before), or it failed after registering
units, with `pm25` and `pm10` both above 1000, or it succeeded and registered a non-empty
list of units. -/
def UartStep (hd : Header) (s : Sensors) (r : Bool × Sensors) : Prop :=
  FlagsKept s r.2 ∧ ErrRel s r.2 ∧
    ((r.1 = false ∧ r.2.dataReady = s.dataReady ∧ RegistryKept s r.2 ∧
        r.2.pm25 = s.pm25 ∧ r.2.pm10 = s.pm10) ∨
      (r.1 = false ∧ r.2.dataReady = s.dataReady ∧ 1000 < r.2.pm25 ∧ 1000 < r.2.pm10 ∧
        ∃ us : List Nat, (∀ u ∈ us, u ∈ hd.units) ∧ RegistryKept (registerAll hd us s) r.2) ∨
      (r.1 = true ∧ ∃ us : List Nat, us ≠ [] ∧ (∀ u ∈ us, u ∈ hd.units) ∧
        RegistryKept (registerAll hd us s) r.2))

/-- The effect of a part of a cycle that started in `s`: the registry of `t` is that of
`s` with a list of units registered; `dataReady` gets set only with a unit registered, and
when it is not set either nothing was registered or `pm25` and `pm10` are both above
1000. -/
def CycleRel (hd : Header) (s t : Sensors) : Prop :=
  ∃ us : List Nat, (∀ u ∈ us, u ∈ hd.units) ∧ RegistryKept (registerAll hd us s) t ∧
    (t.dataReady = true → s.dataReady = true ∨ us ≠ []) ∧
    (t.dataReady = false → us = [] ∨ (1000 < t.pm25 ∧ 1000 < t.pm10))

/-! ## The unit registry: lemmas -/

theorem getD_zeros (l : List Nat) (n i : Nat) :
    (l ++ List.replicate n 0).getD i 0 = l.getD i 0 := by
  by_cases h : i < l.length
  · rw [List.getD_append _ _ _ _ h]
  · rw [List.getD_append_right _ _ _ _ (by omega)]
    rw [List.getD_eq_default l 0 (by omega)]
    simp

theorem set_zeros (l : List Nat) (n v : Nat) :
    (l ++ List.replicate (n + 1) 0).set l.length v = (l ++ [v]) ++ List.replicate n 0 := by
  induction l with
  | nil => simp [List.replicate_succ]
  | cons a t ih => simpa using ih

theorem isUnitRegistered_iff (hd : Header) (s : Sensors) (u : Nat) :
    isUnitRegistered hd s u = true ↔
      ∃ i, i < hd.MAX_UNITS_SUPPORTED ∧ s.units_registered.getD i 0 = u := by
  simp [isUnitRegistered]

theorem regShape_reset (hd : Header) (s : Sensors) : RegShape hd [] (resetUnitsRegister hd s) := by
  simp [RegShape, resetUnitsRegister]

theorem isUnitRegistered_shape (hd : Header) (l : List Nat) (s : Sensors) (u : Nat)
    (hs : RegShape hd l s) :
    isUnitRegistered hd s u = true ↔ u ∈ l ∨ (u = 0 ∧ l.length < hd.MAX_UNITS_SUPPORTED) := by
  obtain ⟨ha, -, hle⟩ := hs
  rw [isUnitRegistered_iff, ha]
  constructor
  · rintro ⟨i, hi, he⟩
    rw [getD_zeros] at he
    by_cases h : i < l.length
    · left
      rw [List.getD_eq_getElem _ _ h] at he
      exact he ▸ List.getElem_mem h
    · right
      rw [List.getD_eq_default l 0 (by omega)] at he
      exact ⟨he.symm, by omega⟩
  · rintro (h | ⟨h0, hlt⟩)
    · obtain ⟨i, hi, he⟩ := List.mem_iff_getElem.mp h
      exact ⟨i, by omega, by rw [getD_zeros, List.getD_eq_getElem _ _ hi, he]⟩
    · exact ⟨l.length, hlt, by rw [getD_zeros, List.getD_eq_default l 0 (le_refl _), h0]⟩

theorem unitRegister_known (hd : Header) (l : List Nat) (s : Sensors) (u : Nat)
    (hs : RegShape hd l s)
    (hu : u ∈ l ∨ (u = 0 ∧ l.length < hd.MAX_UNITS_SUPPORTED)) :
    unitRegister hd u s = s := by
  have := (isUnitRegistered_shape hd l s u hs).mpr hu
  simp [unitRegister, this]

theorem unitRegister_new (hd : Header) (l : List Nat) (s : Sensors) (u : Nat)
    (hs : RegShape hd l s)
    (hu : u ∉ l) (h0 : u ≠ 0) (h256 : u < 256) (hlt : l.length < hd.MAX_UNITS_SUPPORTED) :
    unitRegister hd u s =
      { s with
        units_registered :=
          (l ++ [u]) ++ List.replicate (hd.MAX_UNITS_SUPPORTED - (l ++ [u]).length) 0
        units_registered_count := (l ++ [u]).length } := by
  have hn : ¬ (isUnitRegistered hd s u = true) := by
    rw [isUnitRegistered_shape hd l s u hs]
    rintro (h | ⟨h, -⟩)
    · exact hu h
    · exact h0 h
  obtain ⟨ha, hc, -⟩ := hs
  have e : hd.MAX_UNITS_SUPPORTED - l.length = (hd.MAX_UNITS_SUPPORTED - (l ++ [u]).length) + 1 := by
    simp; omega
  simp only [unitRegister, hn, if_false, Bool.false_eq_true]
  rw [ha, hc, e, set_zeros, Nat.mod_eq_of_lt h256]
  simp

theorem length_le_card (V : Finset Nat) (l : List Nat) (hn : l.Nodup) (hv : ∀ x ∈ l, x ∈ V) :
    l.length ≤ V.card := by
  rw [← List.toFinset_card_of_nodup hn]
  apply Finset.card_le_card
  intro x hx
  exact hv x (List.mem_toFinset.mp hx)

theorem regInv_reset (hd : Header) (V : Finset Nat) (s : Sensors) :
    RegInv hd V (resetUnitsRegister hd s) :=
  ⟨[], regShape_reset hd s, List.nodup_nil, by simp⟩

theorem regInv_unitRegister (hd : Header) (V : Finset Nat) (s : Sensors) (u : Nat)
    (h256 : ∀ v ∈ V, v < 256) (hcard : V.card ≤ hd.MAX_UNITS_SUPPORTED) (hu : u ∈ V)
    (hi : RegInv hd V s) :
    RegInv hd V (unitRegister hd u s) ∧ isUnitRegistered hd (unitRegister hd u s) u = true := by
  obtain ⟨l, hs, hn, hv⟩ := hi
  by_cases hk : u ∈ l ∨ (u = 0 ∧ l.length < hd.MAX_UNITS_SUPPORTED)
  · rw [unitRegister_known hd l s u hs hk]
    exact ⟨⟨l, hs, hn, hv⟩, (isUnitRegistered_shape hd l s u hs).mpr hk⟩
  · have hul : u ∉ l := fun h => hk (Or.inl h)
    have hn2 : (l ++ [u]).Nodup := by
      rw [List.nodup_append]
      refine ⟨hn, List.nodup_singleton u, ?_⟩
      intro a ha hb
      rw [List.mem_singleton] at hb
      exact hul (hb ▸ ha)
    have hv2 : ∀ x ∈ l ++ [u], x ∈ V := by
      intro x hx
      rcases List.mem_append.mp hx with h | h
      · exact (hv x h).2
      · rw [List.mem_singleton] at h
        exact h ▸ hu
    have hlen := length_le_card V (l ++ [u]) hn2 hv2
    have hlt : l.length < hd.MAX_UNITS_SUPPORTED := by
      simp at hlen; omega
    have h0 : u ≠ 0 := fun h => hk (Or.inr ⟨h, hlt⟩)
    have e := unitRegister_new hd l s u hs hul h0 (h256 u hu) hlt
    have hs2 : RegShape hd (l ++ [u]) (unitRegister hd u s) := by
      rw [e]
      exact ⟨rfl, rfl, by simp; omega⟩
    refine ⟨⟨l ++ [u], hs2, hn2, ?_⟩, ?_⟩
    · intro x hx
      rcases List.mem_append.mp hx with h | h
      · exact hv x h
      · rw [List.mem_singleton] at h
        exact h ▸ ⟨h0, hu⟩
    · exact (isUnitRegistered_shape hd (l ++ [u]) _ u hs2).mpr (Or.inl (by simp))

theorem regInv_registerAll (hd : Header) (V : Finset Nat) (us : List Nat)
    (h256 : ∀ v ∈ V, v < 256) (hcard : V.card ≤ hd.MAX_UNITS_SUPPORTED)
    (hus : ∀ u ∈ us, u ∈ V) (s : Sensors) (hi : RegInv hd V s) :
    RegInv hd V (registerAll hd us s) := by
  induction us generalizing s with
  | nil => exact hi
  | cons u t ih =>
    simp only [registerAll, List.foldl_cons]
    apply ih (fun x hx => hus x (List.mem_cons_of_mem _ hx))
    exact (regInv_unitRegister hd V s u h256 hcard (hus u (List.mem_cons_self _ _)) hi).1

theorem take_shape (hd : Header) (l : List Nat) (s : Sensors) (hs : RegShape hd l s) :
    s.units_registered.take s.units_registered_count = l := by
  obtain ⟨ha, hc, -⟩ := hs
  rw [ha, hc]
  simp

theorem unitRegister_twice (hd : Header) (s : Sensors) (u : Nat)
    (h : isUnitRegistered hd (unitRegister hd u s) u = true) :
    unitRegister hd u (unitRegister hd u s) = unitRegister hd u s := by
  generalize unitRegister hd u s = t at h
  simp [unitRegister, h]

theorem registerAll_distinct (hd : Header) (us l : List Nat) (s : Sensors)
    (hs : RegShape hd l s) (hn : (l ++ us).Nodup) (hz : ∀ u ∈ us, u ≠ 0 ∧ u < 256)
    (hlen : (l ++ us).length ≤ hd.MAX_UNITS_SUPPORTED) :
    registerAll hd us s =
      { s with
        units_registered :=
          (l ++ us) ++ List.replicate (hd.MAX_UNITS_SUPPORTED - (l ++ us).length) 0
        units_registered_count := (l ++ us).length } := by
  induction us generalizing l s with
  | nil =>
    obtain ⟨ha, hc, -⟩ := hs
    simp only [registerAll, List.foldl_nil, List.append_nil]
    rw [← ha, ← hc]
  | cons u t ih =>
    have hul : u ∉ l := by
      intro h
      have := (List.nodup_append.mp hn).2.2
      exact this h (List.mem_cons_self _ _)
    have hlt : l.length < hd.MAX_UNITS_SUPPORTED := by
      simp at hlen; omega
    have hu := hz u (List.mem_cons_self _ _)
    have e := unitRegister_new hd l s u hs hul hu.1 hu.2 hlt
    have hs2 : RegShape hd (l ++ [u]) (unitRegister hd u s) := by
      rw [e]
      exact ⟨rfl, rfl, by simp; omega⟩
    have hn2 : ((l ++ [u]) ++ t).Nodup := by simpa using hn
    have hlen2 : ((l ++ [u]) ++ t).length ≤ hd.MAX_UNITS_SUPPORTED := by simpa using hlen
    have := ih (l ++ [u]) (unitRegister hd u s) hs2 hn2
      (fun x hx => hz x (List.mem_cons_of_mem _ hx)) hlen2
    simp only [registerAll, List.foldl_cons] at this ⊢
    rw [this, e]
    simp

theorem getNextUnitScan_none (arr : List Nat) (n i : Nat)
    (h : ∀ j, i ≤ j → arr.getD j 0 = 0) : getNextUnitScan arr n i = none := by
  induction n generalizing i with
  | zero => rfl
  | succ n ih =>
    simp only [getNextUnitScan, h i (le_refl _)]
    exact ih (i + 1) (fun j hj => h j (by omega))

theorem getNextUnit_at (hd : Header) (l : List Nat) (s : Sensors) (hs : RegShape hd l s)
    (hz : ∀ x ∈ l, x ≠ 0) (k : Nat) (hk : k < l.length) (hc : s.current_unit = k) :
    getNextUnit hd s = (l.getD k 0, { s with current_unit := k + 1 }) := by
  obtain ⟨ha, -, hle⟩ := hs
  have hv : s.units_registered.getD k 0 = l.getD k 0 := by rw [ha, getD_zeros]
  have hne : l.getD k 0 ≠ 0 := by
    rw [List.getD_eq_getElem _ _ hk]
    exact hz _ (List.getElem_mem hk)
  obtain ⟨m, hm⟩ : ∃ m, hd.MAX_UNITS_SUPPORTED - k = m + 1 := ⟨hd.MAX_UNITS_SUPPORTED - k - 1, by omega⟩
  simp only [getNextUnit, hc, hm, getNextUnitScan, hv, bne_iff_ne, ne_eq, hne,
    not_false_eq_true, if_true]

theorem getNextUnit_end (hd : Header) (l : List Nat) (s : Sensors) (hs : RegShape hd l s)
    (hc : s.current_unit = l.length) :
    getNextUnit hd s = (0, { s with current_unit := 0 }) := by
  obtain ⟨ha, -, -⟩ := hs
  have : getNextUnitScan s.units_registered (hd.MAX_UNITS_SUPPORTED - s.current_unit)
      s.current_unit = none := by
    apply getNextUnitScan_none
    intro j hj
    rw [ha, getD_zeros, List.getD_eq_default l 0 (by omega)]
  simp [getNextUnit, this]

theorem getNextUnits_from (hd : Header) (l : List Nat) (hz : ∀ x ∈ l, x ≠ 0) (n : Nat)
    (s : Sensors) (hs : RegShape hd l s) (hn : s.current_unit + n = l.length) :
    getNextUnits hd n s = (l.drop s.current_unit, { s with current_unit := l.length }) := by
  induction n generalizing s with
  | zero =>
    have : s.current_unit = l.length := by omega
    simp only [getNextUnits, this, List.drop_length]
    rw [← this]
  | succ n ih =>
    have hk : s.current_unit < l.length := by omega
    have e := getNextUnit_at hd l s hs hz s.current_unit hk rfl
    have hs2 : RegShape hd l { s with current_unit := s.current_unit + 1 } := hs
    have := ih { s with current_unit := s.current_unit + 1 } hs2 (by simp; omega)
    simp only [getNextUnits, e, this]
    rw [List.getD_eq_getElem _ _ hk, List.drop_eq_getElem_cons hk]

/-! ## The unit registry: idempotence, iteration, bound, reset -/

/-- C2: in a state reached in a cycle (a reset, then registrations of units of the
enumeration), registering `u` a second time right after registering it changes
nothing: the count, the array and every other member stay as they are. -/
theorem unitRegister_idempotent (hd : Header) (V : Finset Nat) (us : List Nat) (u : Nat)
    (s0 : Sensors) (h256 : ∀ v ∈ V, v < 256) (hcard : V.card ≤ hd.MAX_UNITS_SUPPORTED)
    (hus : ∀ x ∈ us, x ∈ V) (hu : u ∈ V) :
    unitRegister hd u (unitRegister hd u (registerAll hd us (resetUnitsRegister hd s0))) =
      unitRegister hd u (registerAll hd us (resetUnitsRegister hd s0)) := by
  apply unitRegister_twice
  exact (regInv_unitRegister hd V _ u h256 hcard hu
    (regInv_registerAll hd V us h256 hcard hus _ (regInv_reset hd V s0))).2

theorem unitRegister_idempotent_witness :
    (∀ v ∈ Finset.range 13, v < 256) ∧
      (Finset.range 13).card ≤ Header.sample.MAX_UNITS_SUPPORTED ∧
      (∀ x ∈ [2, 5], x ∈ Finset.range 13) ∧ 2 ∈ Finset.range 13 ∧
      unitRegister Header.sample 2 (unitRegister Header.sample 2
          (registerAll Header.sample [2, 5] (resetUnitsRegister Header.sample (Sensors.fresh 20)))) =
        unitRegister Header.sample 2
          (registerAll Header.sample [2, 5] (resetUnitsRegister Header.sample (Sensors.fresh 20))) :=
  ⟨by decide, by decide, by decide, by decide,
    unitRegister_idempotent Header.sample (Finset.range 13) [2, 5] 2 (Sensors.fresh 20)
      (by decide) (by decide) (by decide) (by decide)⟩

/-- C3: from a reset registry with the cursor at 0, after registering distinct non-zero
units `us` (no more than the array holds), `us.length` calls of `getNextUnit` return `us`
in order, the next call returns 0 and leaves the object as it was before the first call,
cursor at 0, and the following `us.length` calls return `us` again. -/
theorem getNextUnit_iterates (hd : Header) (us : List Nat) (s0 : Sensors)
    (hc : s0.current_unit = 0) (hn : us.Nodup) (hz : ∀ u ∈ us, u ≠ 0 ∧ u < 256)
    (hlen : us.length ≤ hd.MAX_UNITS_SUPPORTED) :
    (getNextUnits hd us.length (registerAll hd us (resetUnitsRegister hd s0))).1 = us ∧
      getNextUnit hd
          (getNextUnits hd us.length (registerAll hd us (resetUnitsRegister hd s0))).2 =
        (0, registerAll hd us (resetUnitsRegister hd s0)) ∧
      (registerAll hd us (resetUnitsRegister hd s0)).current_unit = 0 ∧
      (getNextUnits hd us.length
          (getNextUnit hd
            (getNextUnits hd us.length
              (registerAll hd us (resetUnitsRegister hd s0))).2).2).1 = us := by
  have e := registerAll_distinct hd us [] (resetUnitsRegister hd s0) (regShape_reset hd s0)
    (by simpa using hn) hz (by simpa using hlen)
  simp only [List.nil_append] at e
  generalize registerAll hd us (resetUnitsRegister hd s0) = s at e ⊢
  have hs : RegShape hd us s := by
    rw [e]
    exact ⟨rfl, rfl, hlen⟩
  have hcur : s.current_unit = 0 := by
    rw [e]
    exact hc
  have hz0 : ∀ x ∈ us, x ≠ 0 := fun x hx => (hz x hx).1
  have h1 := getNextUnits_from hd us hz0 us.length s hs (by omega)
  rw [hcur] at h1
  have hs2 : RegShape hd us { s with current_unit := us.length } := hs
  have h2 := getNextUnit_end hd us { s with current_unit := us.length } hs2 rfl
  have hback : ({ s with current_unit := 0 } : Sensors) = s := by
    rw [← hcur]
  rw [h1]
  simp only [List.drop_zero]
  rw [h2]
  simp only [hback]
  refine ⟨trivial, trivial, hcur, ?_⟩
  have h3 := getNextUnits_from hd us hz0 us.length s hs (by omega)
  rw [h3, hcur]
  rfl

theorem getNextUnit_iterates_witness :
    (getNextUnits Header.sample 3
        (registerAll Header.sample
          [Header.sample.PM25, Header.sample.CO2, Header.sample.TEMP]
          (resetUnitsRegister Header.sample (Sensors.fresh 20)))).1 =
      [Header.sample.PM25, Header.sample.CO2, Header.sample.TEMP] :=
  (getNextUnit_iterates Header.sample
    [Header.sample.PM25, Header.sample.CO2, Header.sample.TEMP]
    (Sensors.fresh 20) rfl (by decide) (by decide) (by decide)).1

/-- C4: in every state reached from `resetUnitsRegister` by registering units of an
enumeration `V` whose ordinals fit a slot and that has no more variants than the array
has slots, the count is at most the number of variants, hence within the array, and the
first `units_registered_count` slots hold no value twice. -/
theorem registry_bounded_nodup (hd : Header) (V : Finset Nat) (us : List Nat) (s0 : Sensors)
    (h256 : ∀ v ∈ V, v < 256) (hcard : V.card ≤ hd.MAX_UNITS_SUPPORTED)
    (hus : ∀ x ∈ us, x ∈ V) :
    (registerAll hd us (resetUnitsRegister hd s0)).units_registered_count ≤ V.card ∧
      (registerAll hd us (resetUnitsRegister hd s0)).units_registered_count ≤
        hd.MAX_UNITS_SUPPORTED ∧
      (registerAll hd us (resetUnitsRegister hd s0)).units_registered.length =
        hd.MAX_UNITS_SUPPORTED ∧
      ((registerAll hd us (resetUnitsRegister hd s0)).units_registered.take
        (registerAll hd us (resetUnitsRegister hd s0)).units_registered_count).Nodup := by
  obtain ⟨l, hs, hn, hv⟩ :=
    regInv_registerAll hd V us h256 hcard hus _ (regInv_reset hd V s0)
  have hl := length_le_card V l hn (fun x hx => (hv x hx).2)
  rw [take_shape hd l _ hs]
  obtain ⟨ha, hc, hle⟩ := hs
  rw [hc, ha]
  refine ⟨hl, hle, ?_, hn⟩
  simp
  omega

theorem registry_bounded_nodup_witness :
    (registerAll Header.sample [2, 5, 2, 8, 5]
        (resetUnitsRegister Header.sample (Sensors.fresh 20))).units_registered_count ≤
      (Finset.range 13).card :=
  (registry_bounded_nodup Header.sample (Finset.range 13) [2, 5, 2, 8, 5] (Sensors.fresh 20)
    (by decide) (by decide) (by decide)).1

/-- C5: whatever the registry holds and whatever is registered next, after
`resetUnitsRegister` the count is 0, `getUnitsRegisteredCount` answers 0, and the array
has its `MAX_UNITS_SUPPORTED` slots all equal to 0. -/
theorem resetUnitsRegister_clears (hd : Header) (us : List Nat) (s : Sensors) :
    getUnitsRegisteredCount (resetUnitsRegister hd (registerAll hd us s)) = 0 ∧
      (resetUnitsRegister hd (registerAll hd us s)).units_registered_count = 0 ∧
      (resetUnitsRegister hd (registerAll hd us s)).units_registered.length =
        hd.MAX_UNITS_SUPPORTED ∧
      ∀ i, (resetUnitsRegister hd (registerAll hd us s)).units_registered.getD i 0 = 0 := by
  refine ⟨rfl, rfl, by simp [resetUnitsRegister], ?_⟩
  intro i
  simp [resetUnitsRegister]

/-! ## Frames and detection: lemmas -/

theorem unitRegister_frame (hd : Header) (u : Nat) (s : Sensors) :
    unitRegister hd u s =
      { s with
        units_registered := (unitRegister hd u s).units_registered
        units_registered_count := (unitRegister hd u s).units_registered_count } := by
  unfold unitRegister
  split <;> rfl

theorem onSensorError_frame (msg : String) (s : Sensors) :
    onSensorError msg s = { s with errors := (onSensorError msg s).errors } := by
  unfold onSensorError
  split <;> rfl

theorem charAt_unsigned (hd : Header) (hc : hd.char_signed = false) (f : List Byte) (i : Nat) :
    charAt hd f i = (byteAt f i : Int) := by
  simp [charAt, hc]

theorem byteAt_lt (f : List Byte) (i : Nat) : byteAt f i < 256 :=
  (f.getD i 0).isLt

theorem charAt_eq_iff (hd : Header) (f : List Byte) (i b : Nat) (hb : b < 128) :
    charAt hd f i = (b : Int) ↔ byteAt f i = b := by
  have hlt := byteAt_lt f i
  unfold charAt
  split
  · rename_i h
    simp only [Bool.and_eq_true, decide_eq_true_eq] at h
    constructor
    · intro e
      omega
    · intro e
      omega
  · constructor
    · intro e
      omega
    · intro e
      omega

theorem toUInt16_pair (a b : Nat) (ha : a < 256) (hb : b < 256) :
    toUInt16 ((a : Int) * 256 + (b : Int)) = a * 256 + b := by
  unfold toUInt16
  omega

theorem isUnitRegistered_mono (hd : Header) (V : Finset Nat) (s : Sensors) (u v : Nat)
    (h256 : ∀ x ∈ V, x < 256) (hcard : V.card ≤ hd.MAX_UNITS_SUPPORTED) (hu : u ∈ V)
    (hv : v ∈ V) (hi : RegInv hd V s) (hr : isUnitRegistered hd s u = true) :
    isUnitRegistered hd (unitRegister hd v s) u = true := by
  obtain ⟨l, hs, hn, hl⟩ := hi
  by_cases hk : v ∈ l ∨ (v = 0 ∧ l.length < hd.MAX_UNITS_SUPPORTED)
  · rw [unitRegister_known hd l s v hs hk]
    exact hr
  · have hvl : v ∉ l := fun h => hk (Or.inl h)
    have hn2 : (l ++ [v]).Nodup := by
      rw [List.nodup_append]
      refine ⟨hn, List.nodup_singleton v, ?_⟩
      intro a ha hb
      rw [List.mem_singleton] at hb
      exact hvl (hb ▸ ha)
    have hv2 : ∀ x ∈ l ++ [v], x ∈ V := by
      intro x hx
      rcases List.mem_append.mp hx with h | h
      · exact (hl x h).2
      · rw [List.mem_singleton] at h
        exact h ▸ hv
    have hlen := length_le_card V (l ++ [v]) hn2 hv2
    have hlt : l.length < hd.MAX_UNITS_SUPPORTED := by
      simp at hlen; omega
    have h0 : v ≠ 0 := fun h => hk (Or.inr ⟨h, hlt⟩)
    have e := unitRegister_new hd l s v hs hvl h0 (h256 v hv) hlt
    have hs2 : RegShape hd (l ++ [v]) (unitRegister hd v s) := by
      rw [e]
      exact ⟨rfl, rfl, by simp; omega⟩
    rw [isUnitRegistered_shape hd (l ++ [v]) _ u hs2]
    rcases (isUnitRegistered_shape hd l s u hs).mp hr with h | ⟨hz, -⟩
    · exact Or.inl (List.mem_append_left _ h)
    · right
      refine ⟨hz, ?_⟩
      have hn3 : (0 :: (l ++ [v])).Nodup := by
        rw [List.nodup_cons]
        refine ⟨?_, hn2⟩
        intro hm
        rcases List.mem_append.mp hm with h | h
        · exact (hl 0 h).1 rfl
        · rw [List.mem_singleton] at h
          exact h0 h.symm
      have hv3 : ∀ x ∈ 0 :: (l ++ [v]), x ∈ V := by
        intro x hx
        rcases List.mem_cons.mp hx with h | h
        · rw [h, ← hz]
          exact hu
        · exact hv2 x h
      have := length_le_card V _ hn3 hv3
      simp at this ⊢
      omega

theorem pmGenericRead_nomatch (hd : Header) (s : Sensors)
    (h : byteAt (hwSerialRead hd 32 s).1 0 ≠ 0x42) :
    pmGenericRead hd s = (false, (hwSerialRead hd 32 s).2) := by
  have c : ¬ charAt hd (hwSerialRead hd 32 s).1 0 = 66 := fun e =>
    h ((charAt_eq_iff hd _ 0 66 (by decide)).mp e)
  simp only [pmGenericRead, c, if_false]

theorem pmPanasonicRead_nomatch (hd : Header) (s : Sensors)
    (h : byteAt (hwSerialRead hd 32 s).1 0 ≠ 0x02) :
    pmPanasonicRead hd s =
      (false, onSensorError "[E][SLIB] PANASONIC invalid sensor header!"
        (hwSerialRead hd 32 s).2) := by
  have c : ¬ charAt hd (hwSerialRead hd 32 s).1 0 = 2 := fun e =>
    h ((charAt_eq_iff hd _ 0 2 (by decide)).mp e)
  simp only [pmPanasonicRead, c, if_false]

theorem pmSensorAutoDetect_cascade (hd : Header) (pms_type : Int) (s : Sensors)
    (h : pms_type ≤ Panasonic) :
    pmSensorAutoDetect hd pms_type s =
      if (pmGenericRead hd (delay 1000 s)).1 then
        (true, { (pmGenericRead hd (delay 1000 s)).2 with
          device_selected := "GENERIC", dev_uart_type := Auto })
      else if (pmPanasonicRead hd (delay 1000 (pmGenericRead hd (delay 1000 s)).2)).1 then
        (true, { (pmPanasonicRead hd (delay 1000 (pmGenericRead hd (delay 1000 s)).2)).2 with
          device_selected := "PANASONIC", dev_uart_type := Panasonic })
      else (false, (pmPanasonicRead hd (delay 1000 (pmGenericRead hd (delay 1000 s)).2)).2) := by
  have h1 : ¬ pms_type = SSPS30 := by unfold SSPS30; unfold Panasonic at h; omega
  have h2 : ¬ pms_type = SDS011 := by unfold SDS011; unfold Panasonic at h; omega
  have h3 : ¬ pms_type = Mhz19 := by unfold Mhz19; unfold Panasonic at h; omega
  have h4 : ¬ pms_type = CM1106 := by unfold CM1106; unfold Panasonic at h; omega
  have h5 : ¬ pms_type = SENSEAIRS8 := by unfold SENSEAIRS8; unfold Panasonic at h; omega
  simp only [pmSensorAutoDetect, h1, h2, h3, h4, h5, h, if_false, if_true, Bool.false_eq_true]

theorem pmSensorAutoDetect_unmatched (hd : Header) (s : Sensors)
    (hg : byteAt (hwSerialReadRaw hd 32 s.serial).1 0 ≠ 0x42)
    (hp : byteAt (hwSerialReadRaw hd 32 (hwSerialReadRaw hd 32 s.serial).2.2).1 0 ≠ 0x02) :
    (pmSensorAutoDetect hd Auto s).1 = false ∧
      (pmSensorAutoDetect hd Auto s).2.serial =
        (hwSerialReadRaw hd 32 (hwSerialReadRaw hd 32 s.serial).2.2).2.2 ∧
      (pmSensorAutoDetect hd Auto s).2.dev_uart_type = s.dev_uart_type ∧
      (pmSensorAutoDetect hd Auto s).2.device_selected = s.device_selected ∧
      (pmSensorAutoDetect hd Auto s).2.delay_ms = s.delay_ms + 2000 := by
  have eg := pmGenericRead_nomatch hd (delay 1000 s) hg
  have ep := pmPanasonicRead_nomatch hd (delay 1000 (hwSerialRead hd 32 (delay 1000 s)).2) hp
  rw [pmSensorAutoDetect_cascade hd Auto s (by decide), eg]
  simp only [Bool.false_eq_true, if_false]
  rw [ep]
  simp only [Bool.false_eq_true, if_false]
  rw [onSensorError_frame]
  refine ⟨trivial, rfl, rfl, rfl, ?_⟩
  show s.delay_ms + 1000 + 1000 = s.delay_ms + 2000
  omega

theorem sensorSerialInitLoop_unmatched (hd : Header) (s : Sensors)
    (hf : ∀ f ∈ framesRead hd 32 6 s.serial, byteAt f 0 ≠ 0x42 ∧ byteAt f 0 ≠ 0x02) :
    (sensorSerialInitLoop hd Auto 3 0 s).1 = 3 ∧
      (sensorSerialInitLoop hd Auto 3 0 s).2.dev_uart_type = s.dev_uart_type ∧
      (sensorSerialInitLoop hd Auto 3 0 s).2.device_selected = s.device_selected ∧
      (sensorSerialInitLoop hd Auto 3 0 s).2.delay_ms = s.delay_ms + 6000 := by
  simp only [framesRead, List.mem_cons, forall_eq_or_imp, List.not_mem_nil, false_imp_iff,
    implies_true, and_true] at hf
  obtain ⟨⟨g1, -⟩, ⟨-, p1⟩, ⟨g2, -⟩, ⟨-, p2⟩, ⟨g3, -⟩, ⟨-, p3⟩⟩ := hf
  obtain ⟨a1, b1, c1, d1, e1⟩ := pmSensorAutoDetect_unmatched hd s g1 p1
  rw [← b1] at g2 p2 g3 p3
  obtain ⟨a2, b2, c2, d2, e2⟩ := pmSensorAutoDetect_unmatched hd _ g2 p2
  rw [← b2] at g3 p3
  obtain ⟨a3, -, c3, d3, e3⟩ := pmSensorAutoDetect_unmatched hd _ g3 p3
  simp only [sensorSerialInitLoop, a1, a2, a3, Bool.false_eq_true, if_false, if_true,
    Nat.lt_irrefl, Nat.zero_add, Nat.reduceAdd, Nat.reduceLT]
  refine ⟨trivial, by rw [c3, c2, c1], by rw [d3, d2, d1], by rw [e3, e2, e1]⟩

theorem pmSensorAutoDetect_SSPS30 (hd : Header) (s : Sensors) :
    pmSensorAutoDetect hd SSPS30 s =
      if (sps30UARTInit (delay 1000 s)).1 then
        (true, { (sps30UARTInit (delay 1000 s)).2 with
          device_selected := "SENSIRION", dev_uart_type := SSPS30 })
      else (false, (sps30UARTInit (delay 1000 s)).2) := by
  by_cases h : (sps30UARTInit (delay 1000 s)).1 = true <;>
    simp [pmSensorAutoDetect, h, SSPS30, SDS011, Mhz19, CM1106, SENSEAIRS8, Panasonic]

theorem pmSensorAutoDetect_SDS011 (hd : Header) (s : Sensors) :
    pmSensorAutoDetect hd SDS011 s =
      if (pmSDS011Read hd (delay 1000 s)).1 then
        (true, { (pmSDS011Read hd (delay 1000 s)).2 with
          device_selected := "SDS011", dev_uart_type := SDS011 })
      else (false, (pmSDS011Read hd (delay 1000 s)).2) := by
  by_cases h : (pmSDS011Read hd (delay 1000 s)).1 = true <;>
    simp [pmSensorAutoDetect, h, SSPS30, SDS011, Mhz19, CM1106, SENSEAIRS8, Panasonic]

theorem pmSensorAutoDetect_Mhz19 (hd : Header) (s : Sensors) :
    pmSensorAutoDetect hd Mhz19 s =
      (true, { delay 1000 s with device_selected := "MHZ19", dev_uart_type := Mhz19 }) := by
  simp [pmSensorAutoDetect, CO2Mhz19Init, SSPS30, SDS011, Mhz19, CM1106, SENSEAIRS8, Panasonic]

theorem pmSensorAutoDetect_CM1106 (hd : Header) (s : Sensors) :
    pmSensorAutoDetect hd CM1106 s =
      if (CO2CM1106Init (delay 1000 s)).1 then
        (true, { (CO2CM1106Init (delay 1000 s)).2 with
          device_selected := "CM1106", dev_uart_type := CM1106 })
      else (false, (CO2CM1106Init (delay 1000 s)).2) := by
  by_cases h : (CO2CM1106Init (delay 1000 s)).1 = true <;>
    simp [pmSensorAutoDetect, h, SSPS30, SDS011, Mhz19, CM1106, SENSEAIRS8, Panasonic]

theorem pmSensorAutoDetect_SENSEAIRS8 (hd : Header) (s : Sensors) :
    pmSensorAutoDetect hd SENSEAIRS8 s =
      if (senseAirS8Init (delay 1000 s)).1 then
        (true, { (senseAirS8Init (delay 1000 s)).2 with
          device_selected := "SENSEAIRS8", dev_uart_type := SENSEAIRS8 })
      else (false, (senseAirS8Init (delay 1000 s)).2) := by
  by_cases h : (senseAirS8Init (delay 1000 s)).1 = true <;>
    simp [pmSensorAutoDetect, h, SSPS30, SDS011, Mhz19, CM1106, SENSEAIRS8, Panasonic]

theorem hwSerialReadLoop_fuel (hd : Header) (lenght_buffer : Nat) (extra : Nat) :
    ∀ (fuel try_sensor_read : Nat) (txtMsg : List Byte) (ser : List (List Byte)),
      try_sensor_read ≤ hd.SENSOR_RETRY → hd.SENSOR_RETRY + 1 ≤ fuel + try_sensor_read →
      hwSerialReadLoop hd lenght_buffer (fuel + extra) try_sensor_read txtMsg ser =
        hwSerialReadLoop hd lenght_buffer fuel try_sensor_read txtMsg ser := by
  intro fuel
  induction fuel with
  | zero =>
    intro t txt ser h1 h2
    omega
  | succ n ih =>
    intro t txt ser h1 h2
    have e : n + 1 + extra = (n + extra) + 1 := by omega
    rw [e]
    simp only [hwSerialReadLoop]
    split
    · split
      · exact ih _ _ _ (by omega) (by omega)
      · rfl
    · rfl

theorem hwSerialReadRaw_fuel (hd : Header) (lenght_buffer extra : Nat)
    (ser : List (List Byte)) :
    hwSerialReadLoop hd lenght_buffer (hd.SENSOR_RETRY + 1 + extra) 0 [] ser =
      hwSerialReadRaw hd lenght_buffer ser :=
  hwSerialReadLoop_fuel hd lenght_buffer extra (hd.SENSOR_RETRY + 1) 0 [] ser
    (Nat.zero_le _) (le_refl _)

theorem sensorSerialInitLoop_fuel (hd : Header) (pms_type : Int) (extra : Nat) :
    ∀ (fuel try_sensor_init : Nat) (s : Sensors),
      try_sensor_init ≤ 2 → 3 ≤ fuel + try_sensor_init →
      sensorSerialInitLoop hd pms_type (fuel + extra) try_sensor_init s =
        sensorSerialInitLoop hd pms_type fuel try_sensor_init s := by
  intro fuel
  induction fuel with
  | zero =>
    intro t s h1 h2
    omega
  | succ n ih =>
    intro t s h1 h2
    have e : n + 1 + extra = (n + extra) + 1 := by omega
    rw [e]
    simp only [sensorSerialInitLoop]
    split
    · rfl
    · split
      · exact ih _ _ (by omega) (by omega)
      · rfl

/-! ## The Generic read -/

/-- C1 (amended): where plain `char` is unsigned and the registry is in a state of a cycle,
for every frame with `f[0] = 0x42` and `f[1] = 0x4D` the read stores
`pm25 = f[6]*256 + f[7]` and `pm10 = f[8]*256 + f[9]`, has PM25 and PM10 registered
afterwards, returns true when both values are at most 1000 and false when both are
above 1000. -/
theorem pmGenericRead_header (hd : Header) (V : Finset Nat) (s : Sensors)
    (hc : hd.char_signed = false) (h256 : ∀ x ∈ V, x < 256)
    (hcard : V.card ≤ hd.MAX_UNITS_SUPPORTED) (h25 : hd.PM25 ∈ V) (h10 : hd.PM10 ∈ V)
    (hi : RegInv hd V s)
    (h0 : byteAt (hwSerialRead hd 32 s).1 0 = 0x42)
    (h1 : byteAt (hwSerialRead hd 32 s).1 1 = 0x4D) :
    (pmGenericRead hd s).2.pm25 =
        byteAt (hwSerialRead hd 32 s).1 6 * 256 + byteAt (hwSerialRead hd 32 s).1 7 ∧
      (pmGenericRead hd s).2.pm10 =
        byteAt (hwSerialRead hd 32 s).1 8 * 256 + byteAt (hwSerialRead hd 32 s).1 9 ∧
      isUnitRegistered hd (pmGenericRead hd s).2 hd.PM25 = true ∧
      isUnitRegistered hd (pmGenericRead hd s).2 hd.PM10 = true ∧
      (byteAt (hwSerialRead hd 32 s).1 6 * 256 + byteAt (hwSerialRead hd 32 s).1 7 ≤ 1000 ∧
          byteAt (hwSerialRead hd 32 s).1 8 * 256 + byteAt (hwSerialRead hd 32 s).1 9 ≤ 1000 →
        (pmGenericRead hd s).1 = true) ∧
      (1000 < byteAt (hwSerialRead hd 32 s).1 6 * 256 + byteAt (hwSerialRead hd 32 s).1 7 ∧
          1000 < byteAt (hwSerialRead hd 32 s).1 8 * 256 + byteAt (hwSerialRead hd 32 s).1 9 →
        (pmGenericRead hd s).1 = false) := by
  have c0 : charAt hd (hwSerialRead hd 32 s).1 0 = 66 :=
    (charAt_eq_iff hd _ 0 66 (by decide)).mpr h0
  have c1 : charAt hd (hwSerialRead hd 32 s).1 1 = 77 :=
    (charAt_eq_iff hd _ 1 77 (by decide)).mpr h1
  generalize hf : (hwSerialRead hd 32 s).1 = f at *
  have e25 : toUInt16 (charAt hd f 6 * 256 + charAt hd f 7) = byteAt f 6 * 256 + byteAt f 7 := by
    rw [charAt_unsigned hd hc, charAt_unsigned hd hc]
    exact toUInt16_pair _ _ (byteAt_lt f 6) (byteAt_lt f 7)
  have e10 : toUInt16 (charAt hd f 8 * 256 + charAt hd f 9) = byteAt f 8 * 256 + byteAt f 9 := by
    rw [charAt_unsigned hd hc, charAt_unsigned hd hc]
    exact toUInt16_pair _ _ (byteAt_lt f 8) (byteAt_lt f 9)
  let s1 : Sensors := { (hwSerialRead hd 32 s).2 with
    pm25 := byteAt f 6 * 256 + byteAt f 7
    pm10 := byteAt f 8 * 256 + byteAt f 9 }
  have hi1 : RegInv hd V s1 := hi
  have r25 := regInv_unitRegister hd V s1 hd.PM25 h256 hcard h25 hi1
  have r10 := regInv_unitRegister hd V _ hd.PM10 h256 hcard h10 r25.1
  have m25 := isUnitRegistered_mono hd V _ hd.PM25 hd.PM10 h256 hcard h25 h10 r25.1 r25.2
  have p25 : (unitRegister hd hd.PM10 (unitRegister hd hd.PM25 s1)).pm25 =
      byteAt f 6 * 256 + byteAt f 7 := by
    rw [unitRegister_frame hd hd.PM10, unitRegister_frame hd hd.PM25]
  have p10 : (unitRegister hd hd.PM10 (unitRegister hd hd.PM25 s1)).pm10 =
      byteAt f 8 * 256 + byteAt f 9 := by
    rw [unitRegister_frame hd hd.PM10, unitRegister_frame hd hd.PM25]
  have hreg : ∀ (m : String) (t : Sensors) (u : Nat),
      isUnitRegistered hd (onSensorError m t) u = isUnitRegistered hd t u := by
    intro m t u
    rw [onSensorError_frame m t]
    rfl
  simp only [pmGenericRead, hf, c0, c1, if_true, e25, e10]
  by_cases hr : 1000 < byteAt f 6 * 256 + byteAt f 7 ∧ 1000 < byteAt f 8 * 256 + byteAt f 9
  · have hr2 : (unitRegister hd hd.PM10 (unitRegister hd hd.PM25 s1)).pm25 > 1000 ∧
        (unitRegister hd hd.PM10 (unitRegister hd hd.PM25 s1)).pm10 > 1000 := by
      rw [p25, p10]
      exact hr
    rw [if_pos hr2]
    refine ⟨?_, ?_, ?_, ?_, ?_, ?_⟩
    · rw [onSensorError_frame]
      exact p25
    · rw [onSensorError_frame]
      exact p10
    · rw [hreg]
      exact m25
    · rw [hreg]
      exact r10.2
    · intro hle
      omega
    · intro _
      rfl
  · have hr2 : ¬ ((unitRegister hd hd.PM10 (unitRegister hd hd.PM25 s1)).pm25 > 1000 ∧
        (unitRegister hd hd.PM10 (unitRegister hd hd.PM25 s1)).pm10 > 1000) := by
      rw [p25, p10]
      exact hr
    rw [if_neg hr2]
    exact ⟨p25, p10, m25, r10.2, fun _ => rfl, fun h => absurd h hr⟩

theorem pmGenericRead_header_witness :
    (pmGenericRead Header.sample
        (Sensors.onUart 20 [genericFrame 0x01 0xF4 0x00 0x64])).2.pm25 = 500 ∧
      (pmGenericRead Header.sample
        (Sensors.onUart 20 [genericFrame 0x01 0xF4 0x00 0x64])).2.pm10 = 100 ∧
      isUnitRegistered Header.sample
        (pmGenericRead Header.sample
          (Sensors.onUart 20 [genericFrame 0x01 0xF4 0x00 0x64])).2 Header.sample.PM25 = true ∧
      isUnitRegistered Header.sample
        (pmGenericRead Header.sample
          (Sensors.onUart 20 [genericFrame 0x01 0xF4 0x00 0x64])).2 Header.sample.PM10 = true ∧
      (pmGenericRead Header.sample
        (Sensors.onUart 20 [genericFrame 0x01 0xF4 0x00 0x64])).1 = true := by
  have h := pmGenericRead_header Header.sample (Finset.range 13)
    (Sensors.onUart 20 [genericFrame 0x01 0xF4 0x00 0x64]) rfl (by decide) (by decide)
    (by decide) (by decide) ⟨[], ⟨rfl, rfl, by decide⟩, List.nodup_nil, by simp⟩
    (by decide) (by decide)
  exact ⟨h.1.trans (by decide), h.2.1.trans (by decide), h.2.2.1, h.2.2.2.1,
    h.2.2.2.2.1 (by decide)⟩

/-- C1, the claim as stated fails: a frame with the header `0x42 0x4D` whose two values
are both 1024 is decoded and rejected, the read returns false. -/
theorem pmGenericRead_header_rejected :
    byteAt (hwSerialRead Header.sample 32
        (Sensors.onUart 20 [genericFrame 0x04 0x00 0x04 0x00])).1 0 = 0x42 ∧
      byteAt (hwSerialRead Header.sample 32
        (Sensors.onUart 20 [genericFrame 0x04 0x00 0x04 0x00])).1 1 = 0x4D ∧
      (pmGenericRead Header.sample
        (Sensors.onUart 20 [genericFrame 0x04 0x00 0x04 0x00])).2.pm25 = 1024 ∧
      (pmGenericRead Header.sample
        (Sensors.onUart 20 [genericFrame 0x04 0x00 0x04 0x00])).2.pm10 = 1024 ∧
      (pmGenericRead Header.sample
        (Sensors.onUart 20 [genericFrame 0x04 0x00 0x04 0x00])).1 = false := by
  decide

/-- On a target where plain `char` is signed, the bytes `0x01 0xF4` at offsets 6 and 7
are decoded as `1 * 256 - 12`. -/
theorem pmGenericRead_signed_char :
    (pmGenericRead Header.sampleAvr
        (Sensors.onUart 20 [genericFrame 0x01 0xF4 0x00 0x64])).2.pm25 = 244 ∧
      (pmGenericRead Header.sampleAvr
        (Sensors.onUart 20 [genericFrame 0x01 0xF4 0x00 0x64])).1 = true := by
  decide

/-! ## Detection of the UART device -/

/-- C8: an `Auto` request on an object with `dev_uart_type < 0`, when none of the six
frames that detection reads starts with `0x42` or `0x02`: `sensorSerialInit` returns
false, `dev_uart_type` stays as it was, negative, and `device_selected` is unchanged;
once the port has opened, the loop ends with `try_sensor_init = 3`, after three
detections of two probes each (6000 ms of settle delays behind the 10 ms of the port). -/
theorem sensorSerialInit_unmatched (hd : Header) (pms_rx pms_tx : Int) (s : Sensors)
    (hneg : s.dev_uart_type < 0)
    (hf : ∀ f ∈ framesRead hd 32 6 s.serial, byteAt f 0 ≠ 0x42 ∧ byteAt f 0 ≠ 0x02) :
    (sensorSerialInit hd Auto pms_rx pms_tx s).1 = false ∧
      (sensorSerialInit hd Auto pms_rx pms_tx s).2.dev_uart_type = s.dev_uart_type ∧
      (sensorSerialInit hd Auto pms_rx pms_tx s).2.dev_uart_type < 0 ∧
      (sensorSerialInit hd Auto pms_rx pms_tx s).2.device_selected = s.device_selected ∧
      ((sensorSerialInitPort hd Auto pms_rx pms_tx s).1 = true →
        (sensorSerialInitLoop hd Auto 3 0 (sensorSerialInitPort hd Auto pms_rx pms_tx s).2).1 = 3 ∧
          (sensorSerialInit hd Auto pms_rx pms_tx s).2.delay_ms = s.delay_ms + 6010) := by
  have hport : sensorSerialInitPort hd Auto pms_rx pms_tx s =
      if serialInitSwitch hd pms_rx pms_tx then (true, delay 10 s) else (false, s) := by
    simp only [sensorSerialInitPort, serialInit, if_true]
  by_cases hsw : serialInitSwitch hd pms_rx pms_tx = true
  · rw [if_pos hsw] at hport
    obtain ⟨a, c, d, e⟩ := sensorSerialInitLoop_unmatched hd (delay 10 s) hf
    have hc : (sensorSerialInitLoop hd Auto 3 0 (delay 10 s)).2.dev_uart_type < 0 := by
      rw [c]
      exact hneg
    simp only [sensorSerialInit, hport, if_true]
    refine ⟨?_, c, hc, d, fun _ => ⟨a, ?_⟩⟩
    · exact decide_eq_false (by omega)
    · rw [e]
      show s.delay_ms + 10 + 6000 = s.delay_ms + 6010
      omega
  · rw [if_neg hsw] at hport
    simp only [sensorSerialInit, hport, Bool.false_eq_true, if_false]
    exact ⟨trivial, trivial, hneg, trivial, fun h => absurd h (by simp)⟩

theorem sensorSerialInit_unmatched_witness :
    (sensorSerialInit Header.sample Auto 16 17
        (Sensors.onUart 20 (List.replicate 6 (List.replicate 32 0)))).1 = false ∧
      (sensorSerialInit Header.sample Auto 16 17
        (Sensors.onUart 20 (List.replicate 6 (List.replicate 32 0)))).2.dev_uart_type = -1 ∧
      (sensorSerialInit Header.sample Auto 16 17
        (Sensors.onUart 20 (List.replicate 6 (List.replicate 32 0)))).2.device_selected = "" ∧
      (sensorSerialInit Header.sample Auto 16 17
        (Sensors.onUart 20 (List.replicate 6 (List.replicate 32 0)))).2.delay_ms = 6010 := by
  have h := sensorSerialInit_unmatched Header.sample 16 17
    (Sensors.onUart 20 (List.replicate 6 (List.replicate 32 0))) (by decide) (by decide)
  exact ⟨h.1, h.2.1, h.2.2.2.1, (h.2.2.2.2 (by decide)).2⟩

/-- C9 (amended): a request for SSPS30, SDS011, Mhz19, CM1106 or SENSEAIRS8 runs the probe
of that kind and nothing else, and a true return leaves `dev_uart_type` equal to the
request and `device_selected` equal to its name; a request for Panasonic probes the
Generic header first and the Panasonic header second, so a true return selects GENERIC
(`Auto`) when the Generic probe passed and PANASONIC when it failed. -/
theorem pmSensorAutoDetect_concrete (hd : Header) (s : Sensors) :
    (pmSensorAutoDetect hd SSPS30 s =
        if (sps30UARTInit (delay 1000 s)).1 then
          (true, { (sps30UARTInit (delay 1000 s)).2 with
            device_selected := "SENSIRION", dev_uart_type := SSPS30 })
        else (false, (sps30UARTInit (delay 1000 s)).2)) ∧
      (pmSensorAutoDetect hd SDS011 s =
        if (pmSDS011Read hd (delay 1000 s)).1 then
          (true, { (pmSDS011Read hd (delay 1000 s)).2 with
            device_selected := "SDS011", dev_uart_type := SDS011 })
        else (false, (pmSDS011Read hd (delay 1000 s)).2)) ∧
      (pmSensorAutoDetect hd Mhz19 s =
        (true, { delay 1000 s with device_selected := "MHZ19", dev_uart_type := Mhz19 })) ∧
      (pmSensorAutoDetect hd CM1106 s =
        if (CO2CM1106Init (delay 1000 s)).1 then
          (true, { (CO2CM1106Init (delay 1000 s)).2 with
            device_selected := "CM1106", dev_uart_type := CM1106 })
        else (false, (CO2CM1106Init (delay 1000 s)).2)) ∧
      (pmSensorAutoDetect hd SENSEAIRS8 s =
        if (senseAirS8Init (delay 1000 s)).1 then
          (true, { (senseAirS8Init (delay 1000 s)).2 with
            device_selected := "SENSEAIRS8", dev_uart_type := SENSEAIRS8 })
        else (false, (senseAirS8Init (delay 1000 s)).2)) ∧
      (∀ p ∈ [(SSPS30, "SENSIRION"), (SDS011, "SDS011"), (Mhz19, "MHZ19"),
          (CM1106, "CM1106"), (SENSEAIRS8, "SENSEAIRS8")],
        (pmSensorAutoDetect hd p.1 s).1 = true →
          (pmSensorAutoDetect hd p.1 s).2.dev_uart_type = p.1 ∧
            (pmSensorAutoDetect hd p.1 s).2.device_selected = p.2) ∧
      ((pmSensorAutoDetect hd Panasonic s).1 = true →
        ((pmGenericRead hd (delay 1000 s)).1 = true ∧
            (pmSensorAutoDetect hd Panasonic s).2.dev_uart_type = Auto ∧
            (pmSensorAutoDetect hd Panasonic s).2.device_selected = "GENERIC") ∨
          ((pmGenericRead hd (delay 1000 s)).1 = false ∧
            (pmSensorAutoDetect hd Panasonic s).2.dev_uart_type = Panasonic ∧
            (pmSensorAutoDetect hd Panasonic s).2.device_selected = "PANASONIC")) := by
  refine ⟨pmSensorAutoDetect_SSPS30 hd s, pmSensorAutoDetect_SDS011 hd s,
    pmSensorAutoDetect_Mhz19 hd s, pmSensorAutoDetect_CM1106 hd s,
    pmSensorAutoDetect_SENSEAIRS8 hd s, ?_, ?_⟩
  · intro p hp
    simp only [List.mem_cons, List.not_mem_nil, or_false] at hp
    rcases hp with rfl | rfl | rfl | rfl | rfl
    · show (pmSensorAutoDetect hd SSPS30 s).1 = true → _
      rw [pmSensorAutoDetect_SSPS30]
      split
      · exact fun _ => ⟨rfl, rfl⟩
      · exact fun h => absurd h (by simp)
    · show (pmSensorAutoDetect hd SDS011 s).1 = true → _
      rw [pmSensorAutoDetect_SDS011]
      split
      · exact fun _ => ⟨rfl, rfl⟩
      · exact fun h => absurd h (by simp)
    · show (pmSensorAutoDetect hd Mhz19 s).1 = true → _
      rw [pmSensorAutoDetect_Mhz19]
      exact fun _ => ⟨rfl, rfl⟩
    · show (pmSensorAutoDetect hd CM1106 s).1 = true → _
      rw [pmSensorAutoDetect_CM1106]
      split
      · exact fun _ => ⟨rfl, rfl⟩
      · exact fun h => absurd h (by simp)
    · show (pmSensorAutoDetect hd SENSEAIRS8 s).1 = true → _
      rw [pmSensorAutoDetect_SENSEAIRS8]
      split
      · exact fun _ => ⟨rfl, rfl⟩
      · exact fun h => absurd h (by simp)
  · rw [pmSensorAutoDetect_cascade hd Panasonic s (le_refl _)]
    by_cases hg : (pmGenericRead hd (delay 1000 s)).1 = true
    · rw [if_pos hg]
      exact fun _ => Or.inl ⟨hg, rfl, rfl⟩
    · rw [if_neg hg]
      split
      · exact fun _ => Or.inr ⟨by simpa using hg, rfl, rfl⟩
      · exact fun h => absurd h (by simp)

theorem pmSensorAutoDetect_concrete_witness :
    (pmSensorAutoDetect Header.sample SDS011
        (Sensors.onUart 20 [sds011Frame 0x7B 0x00 0xC8 0x00])).2.dev_uart_type = SDS011 ∧
      (pmSensorAutoDetect Header.sample SDS011
        (Sensors.onUart 20 [sds011Frame 0x7B 0x00 0xC8 0x00])).2.device_selected = "SDS011" :=
  (pmSensorAutoDetect_concrete Header.sample
    (Sensors.onUart 20 [sds011Frame 0x7B 0x00 0xC8 0x00])).2.2.2.2.2.1
    (SDS011, "SDS011") (by simp) (by decide)

/-- C9, the claim as stated fails for Panasonic: with a Honeywell/Plantower frame on the
line, a Panasonic request returns true with `dev_uart_type == Auto` and the name
GENERIC. -/
theorem pmSensorAutoDetect_panasonic_selects_generic :
    (pmSensorAutoDetect Header.sample Panasonic
        (Sensors.onUart 20 [genericFrame 0x00 0x0A 0x00 0x14])).1 = true ∧
      (pmSensorAutoDetect Header.sample Panasonic
        (Sensors.onUart 20 [genericFrame 0x00 0x0A 0x00 0x14])).2.dev_uart_type = Auto ∧
      (pmSensorAutoDetect Header.sample Panasonic
        (Sensors.onUart 20 [genericFrame 0x00 0x0A 0x00 0x14])).2.dev_uart_type ≠ Panasonic ∧
      (pmSensorAutoDetect Header.sample Panasonic
        (Sensors.onUart 20 [genericFrame 0x00 0x0A 0x00 0x14])).2.device_selected = "GENERIC" := by
  decide

/-- C10: for an `Auto` request the Generic header is probed first, the Panasonic header
second.  If the Generic probe passes the answer is true with GENERIC and `Auto` selected,
and the object is the one the Generic read left (no further frame is read); a true answer
with PANASONIC selected means that the Generic probe failed and the Panasonic probe then
passed; if both probes fail the answer is false. -/
theorem pmSensorAutoDetect_auto_order (hd : Header) (s : Sensors) :
    (pmSensorAutoDetect hd Auto s =
        if (pmGenericRead hd (delay 1000 s)).1 then
          (true, { (pmGenericRead hd (delay 1000 s)).2 with
            device_selected := "GENERIC", dev_uart_type := Auto })
        else if (pmPanasonicRead hd (delay 1000 (pmGenericRead hd (delay 1000 s)).2)).1 then
          (true, { (pmPanasonicRead hd (delay 1000 (pmGenericRead hd (delay 1000 s)).2)).2 with
            device_selected := "PANASONIC", dev_uart_type := Panasonic })
        else (false, (pmPanasonicRead hd (delay 1000 (pmGenericRead hd (delay 1000 s)).2)).2)) ∧
      ((pmGenericRead hd (delay 1000 s)).1 = true →
        (pmSensorAutoDetect hd Auto s).1 = true ∧
          (pmSensorAutoDetect hd Auto s).2.device_selected = "GENERIC" ∧
          (pmSensorAutoDetect hd Auto s).2.dev_uart_type = Auto ∧
          (pmSensorAutoDetect hd Auto s).2.serial = (pmGenericRead hd (delay 1000 s)).2.serial ∧
          (pmSensorAutoDetect hd Auto s).2.errors = (pmGenericRead hd (delay 1000 s)).2.errors) ∧
      ((pmSensorAutoDetect hd Auto s).1 = true →
        (pmSensorAutoDetect hd Auto s).2.device_selected = "PANASONIC" ∨
            (pmSensorAutoDetect hd Auto s).2.dev_uart_type = Panasonic →
          (pmGenericRead hd (delay 1000 s)).1 = false ∧
            (pmPanasonicRead hd (delay 1000 (pmGenericRead hd (delay 1000 s)).2)).1 = true) ∧
      ((pmGenericRead hd (delay 1000 s)).1 = false →
        (pmPanasonicRead hd (delay 1000 (pmGenericRead hd (delay 1000 s)).2)).1 = false →
          (pmSensorAutoDetect hd Auto s).1 = false) := by
  have e := pmSensorAutoDetect_cascade hd Auto s (by decide)
  refine ⟨e, ?_, ?_, ?_⟩
  · intro hg
    rw [e, if_pos hg]
    exact ⟨rfl, rfl, rfl, rfl, rfl⟩
  · rw [e]
    by_cases hg : (pmGenericRead hd (delay 1000 s)).1 = true
    · rw [if_pos hg]
      intro _ h
      rcases h with h | h
      · exact absurd (show "GENERIC" = "PANASONIC" from h) (by decide)
      · exact absurd (show Auto = Panasonic from h) (by decide)
    · rw [if_neg hg]
      by_cases hp : (pmPanasonicRead hd (delay 1000 (pmGenericRead hd (delay 1000 s)).2)).1 = true
      · rw [if_pos hp]
        exact fun _ _ => ⟨by simpa using hg, hp⟩
      · rw [if_neg hp]
        exact fun h => absurd h (by simp)
  · intro hg hp
    rw [e, hg, hp]
    rfl

theorem pmSensorAutoDetect_auto_order_witness :
    (pmSensorAutoDetect Header.sample Auto
        (Sensors.onUart 20 [genericFrame 0x00 0x0A 0x00 0x14])).1 = true ∧
      (pmSensorAutoDetect Header.sample Auto
        (Sensors.onUart 20 [genericFrame 0x00 0x0A 0x00 0x14])).2.device_selected = "GENERIC" ∧
      (pmSensorAutoDetect Header.sample Auto
        (Sensors.onUart 20 [genericFrame 0x00 0x0A 0x00 0x14])).2.dev_uart_type = Auto :=
  have h := (pmSensorAutoDetect_auto_order Header.sample
    (Sensors.onUart 20 [genericFrame 0x00 0x0A 0x00 0x14])).2.1 (by decide)
  ⟨h.1, h.2.1, h.2.2.1⟩

/-! ## The frame reader: a short frame -/

theorem hwSerialReadLoop_short (hd : Header) (lenght_buffer : Nat) :
    ∀ (fuel try_sensor_read : Nat) (txtMsg : List Byte) (ser : List (List Byte)),
      fuel + try_sensor_read = hd.SENSOR_RETRY + 1 → try_sensor_read ≤ hd.SENSOR_RETRY →
      (txtMsg ++ (ser.take (hd.SENSOR_RETRY - try_sensor_read)).flatten).length <
        lenght_buffer →
      hwSerialReadLoop hd lenght_buffer fuel try_sensor_read txtMsg ser =
        (txtMsg ++ (ser.take (hd.SENSOR_RETRY - try_sensor_read)).flatten,
          hd.SENSOR_RETRY + 1, ser.drop (hd.SENSOR_RETRY - try_sensor_read)) := by
  intro fuel
  induction fuel with
  | zero =>
    intro t txt ser h1 h2
    omega
  | succ n ih =>
    intro t txt ser h1 h2 h3
    have hlen : txt.length < lenght_buffer := by
      simp only [List.length_append] at h3
      omega
    simp only [hwSerialReadLoop, hlen, if_true]
    by_cases ht : t < hd.SENSOR_RETRY
    · rw [if_pos ht]
      obtain ⟨m, hm⟩ : ∃ m, hd.SENSOR_RETRY - t = m + 1 := ⟨hd.SENSOR_RETRY - t - 1, by omega⟩
      have hm' : hd.SENSOR_RETRY - (t + 1) = m := by omega
      rw [hm] at h3 ⊢
      cases ser with
      | nil =>
        have := ih (t + 1) (txt ++ []) [] (by omega) (by omega)
          (by rw [hm']; simpa using h3)
        simpa [hm'] using this
      | cons a r =>
        have := ih (t + 1) (txt ++ a) r (by omega) (by omega)
          (by rw [hm']; simpa [List.append_assoc] using h3)
        simpa [hm', List.append_assoc] using this
    · rw [if_neg ht]
      have e : hd.SENSOR_RETRY - t = 0 := by omega
      have e2 : t = hd.SENSOR_RETRY := by omega
      simp [e, e2]

/-- C11: when the bytes that arrive during the `SENSOR_RETRY` polls are fewer than
`lenght_buffer`, `k` of them, `hwSerialRead` returns exactly these `k` bytes in the order
of arrival, has drained the UART `SENSOR_RETRY` times, and ends with
`try_sensor_read = SENSOR_RETRY + 1`, so that its test `try_sensor_read > SENSOR_RETRY`
holds. -/
theorem hwSerialRead_truncated (hd : Header) (lenght_buffer k : Nat) (ser : List (List Byte))
    (hk : ((ser.take hd.SENSOR_RETRY).flatten).length = k) (hlt : k < lenght_buffer) :
    (hwSerialReadRaw hd lenght_buffer ser).1 = (ser.take hd.SENSOR_RETRY).flatten ∧
      (hwSerialReadRaw hd lenght_buffer ser).1.length = k ∧
      (hwSerialReadRaw hd lenght_buffer ser).2.1 = hd.SENSOR_RETRY + 1 ∧
      hd.SENSOR_RETRY < (hwSerialReadRaw hd lenght_buffer ser).2.1 ∧
      (hwSerialReadRaw hd lenght_buffer ser).2.2 = ser.drop hd.SENSOR_RETRY := by
  have h := hwSerialReadLoop_short hd lenght_buffer (hd.SENSOR_RETRY + 1) 0 [] ser rfl
    (Nat.zero_le _) (by simpa [hk] using hlt)
  simp only [Nat.sub_zero, List.nil_append] at h
  unfold hwSerialReadRaw
  rw [h]
  exact ⟨rfl, hk, rfl, Nat.lt_succ_self _, rfl⟩

theorem hwSerialRead_truncated_witness :
    (hwSerialReadRaw Header.sample 32 [[0x42, 0x4D, 0, 0, 0], [], [0, 0x01, 0xF4, 0x00, 0x64]]).1 =
        [0x42, 0x4D, 0, 0, 0, 0, 0x01, 0xF4, 0x00, 0x64] ∧
      (hwSerialReadRaw Header.sample 32
        [[0x42, 0x4D, 0, 0, 0], [], [0, 0x01, 0xF4, 0x00, 0x64]]).1.length = 10 ∧
      (hwSerialReadRaw Header.sample 32
        [[0x42, 0x4D, 0, 0, 0], [], [0, 0x01, 0xF4, 0x00, 0x64]]).2.1 =
          Header.sample.SENSOR_RETRY + 1 :=
  have h := hwSerialRead_truncated Header.sample 32 10
    [[0x42, 0x4D, 0, 0, 0], [], [0, 0x01, 0xF4, 0x00, 0x64]] (by decide) (by decide)
  ⟨h.1.trans (by decide), h.2.1, h.2.2.1⟩

/-! ## The PM reads: rejection and range guard -/

theorem byteAt_of_charAt (hd : Header) (f : List Byte) (i b : Nat)
    (h : charAt hd f i = (b : Int)) : byteAt f i = b := by
  have hlt := byteAt_lt f i
  unfold charAt at h
  split at h
  · omega
  · omega

theorem byteAt_short (f : List Byte) (i : Nat) (h : f.length ≤ i) : byteAt f i = 0 := by
  unfold byteAt
  rw [List.getD_eq_default f 0 h]
  rfl

theorem pmGenericRead_no_header (hd : Header) (s : Sensors)
    (h : byteAt (hwSerialRead hd 32 s).1 0 ≠ 0x42 ∨ byteAt (hwSerialRead hd 32 s).1 1 ≠ 0x4D) :
    (pmGenericRead hd s).1 = false ∧ PmKept s (pmGenericRead hd s).2 ∧
      RegistryKept s (pmGenericRead hd s).2 := by
  unfold pmGenericRead
  simp only
  split
  · rename_i h0
    split
    · rename_i h1
      rcases h with h | h
      · exact absurd (byteAt_of_charAt hd _ 0 66 h0) h
      · exact absurd (byteAt_of_charAt hd _ 1 77 h1) h
    · rw [onSensorError_frame]
      exact ⟨rfl, ⟨rfl, rfl, rfl, rfl⟩, rfl, rfl⟩
  · exact ⟨rfl, ⟨rfl, rfl, rfl, rfl⟩, rfl, rfl⟩

theorem pmPanasonicRead_no_header (hd : Header) (s : Sensors)
    (h : byteAt (hwSerialRead hd 32 s).1 0 ≠ 0x02) :
    (pmPanasonicRead hd s).1 = false ∧ PmKept s (pmPanasonicRead hd s).2 ∧
      RegistryKept s (pmPanasonicRead hd s).2 := by
  rw [pmPanasonicRead_nomatch hd s h, onSensorError_frame]
  exact ⟨rfl, ⟨rfl, rfl, rfl, rfl⟩, rfl, rfl⟩

theorem pmSDS011Read_no_header (hd : Header) (s : Sensors)
    (h : byteAt (hwSerialRead hd 10 s).1 0 ≠ 0xAA ∨ byteAt (hwSerialRead hd 10 s).1 1 ≠ 0xC0) :
    (pmSDS011Read hd s).1 = false ∧ PmKept s (pmSDS011Read hd s).2 ∧
      RegistryKept s (pmSDS011Read hd s).2 := by
  unfold pmSDS011Read
  simp only
  split
  · rename_i h0
    split
    · rename_i h1
      rcases h with h | h
      · exact absurd (byteAt_of_charAt hd _ 0 170 h0) h
      · exact absurd (byteAt_of_charAt hd _ 1 192 h1) h
    · rw [onSensorError_frame]
      exact ⟨rfl, ⟨rfl, rfl, rfl, rfl⟩, rfl, rfl⟩
  · exact ⟨rfl, ⟨rfl, rfl, rfl, rfl⟩, rfl, rfl⟩

/-- C12 (amended): a read rejects a frame, returning false and storing no PM value, when
the frame does not carry the header the read tests, whatever its length: `0x42 0x4D` for
`pmGenericRead`, `0x02` for `pmPanasonicRead`, `0xAA 0xC0` for `pmSDS011Read`.  Among the
short frames these are at least the frames of fewer than 2 bytes for the Generic and the
SDS011 read and the empty frame for the Panasonic read. -/
theorem pm_reads_reject_no_header (hd : Header) (s : Sensors) :
    ((byteAt (hwSerialRead hd 32 s).1 0 ≠ 0x42 ∨ byteAt (hwSerialRead hd 32 s).1 1 ≠ 0x4D →
        (pmGenericRead hd s).1 = false ∧ PmKept s (pmGenericRead hd s).2) ∧
      (byteAt (hwSerialRead hd 32 s).1 0 ≠ 0x02 →
        (pmPanasonicRead hd s).1 = false ∧ PmKept s (pmPanasonicRead hd s).2) ∧
      (byteAt (hwSerialRead hd 10 s).1 0 ≠ 0xAA ∨ byteAt (hwSerialRead hd 10 s).1 1 ≠ 0xC0 →
        (pmSDS011Read hd s).1 = false ∧ PmKept s (pmSDS011Read hd s).2)) ∧
      ((hwSerialRead hd 32 s).1.length < 2 →
        (pmGenericRead hd s).1 = false ∧ PmKept s (pmGenericRead hd s).2) ∧
      ((hwSerialRead hd 32 s).1.length = 0 →
        (pmPanasonicRead hd s).1 = false ∧ PmKept s (pmPanasonicRead hd s).2) ∧
      ((hwSerialRead hd 10 s).1.length < 2 →
        (pmSDS011Read hd s).1 = false ∧ PmKept s (pmSDS011Read hd s).2) := by
  refine ⟨⟨?_, ?_, ?_⟩, ?_, ?_, ?_⟩
  · intro h
    exact ⟨(pmGenericRead_no_header hd s h).1, (pmGenericRead_no_header hd s h).2.1⟩
  · intro h
    exact ⟨(pmPanasonicRead_no_header hd s h).1, (pmPanasonicRead_no_header hd s h).2.1⟩
  · intro h
    exact ⟨(pmSDS011Read_no_header hd s h).1, (pmSDS011Read_no_header hd s h).2.1⟩
  · intro h
    have h1 : byteAt (hwSerialRead hd 32 s).1 1 ≠ 0x4D := by
      rw [byteAt_short _ 1 (by omega)]
      decide
    exact ⟨(pmGenericRead_no_header hd s (Or.inr h1)).1,
      (pmGenericRead_no_header hd s (Or.inr h1)).2.1⟩
  · intro h
    have h0 : byteAt (hwSerialRead hd 32 s).1 0 ≠ 0x02 := by
      rw [byteAt_short _ 0 (by omega)]
      decide
    exact ⟨(pmPanasonicRead_no_header hd s h0).1, (pmPanasonicRead_no_header hd s h0).2.1⟩
  · intro h
    have h1 : byteAt (hwSerialRead hd 10 s).1 1 ≠ 0xC0 := by
      rw [byteAt_short _ 1 (by omega)]
      decide
    exact ⟨(pmSDS011Read_no_header hd s (Or.inr h1)).1,
      (pmSDS011Read_no_header hd s (Or.inr h1)).2.1⟩

set_option maxRecDepth 100000 in
theorem pm_reads_reject_no_header_witness :
    (pmGenericRead Header.sample (Sensors.onUart 20 [[0x42]])).1 = false ∧
      PmKept (Sensors.onUart 20 [[0x42]])
        (pmGenericRead Header.sample (Sensors.onUart 20 [[0x42]])).2 :=
  (pm_reads_reject_no_header Header.sample (Sensors.onUart 20 [[0x42]])).2.1 (by decide)

set_option maxRecDepth 100000 in
/-- C12, the claim as stated fails: the 10-byte frame `42 4D 00 00 00 00 01 F4 00 64`,
which is all the UART delivers, is accepted by `pmGenericRead`, which stores 500 and 100
and returns true. -/
theorem pmGenericRead_accepts_short_frame :
    (hwSerialRead Header.sample 32
        (Sensors.onUart 20 [[0x42, 0x4D, 0, 0, 0, 0, 0x01, 0xF4, 0x00, 0x64]])).1.length = 10 ∧
      (pmGenericRead Header.sample
        (Sensors.onUart 20 [[0x42, 0x4D, 0, 0, 0, 0, 0x01, 0xF4, 0x00, 0x64]])).1 = true ∧
      (pmGenericRead Header.sample
        (Sensors.onUart 20 [[0x42, 0x4D, 0, 0, 0, 0, 0x01, 0xF4, 0x00, 0x64]])).2.pm25 = 500 ∧
      (pmGenericRead Header.sample
        (Sensors.onUart 20 [[0x42, 0x4D, 0, 0, 0, 0, 0x01, 0xF4, 0x00, 0x64]])).2.pm10 = 100 := by
  decide

/-! ## Reads and the loop: lemmas -/

@[simp] theorem unitRegister_pm1 (hd : Header) (u : Nat) (s : Sensors) :
    (unitRegister hd u s).pm1 = s.pm1 := by
  rw [unitRegister_frame]

@[simp] theorem unitRegister_pm25 (hd : Header) (u : Nat) (s : Sensors) :
    (unitRegister hd u s).pm25 = s.pm25 := by
  rw [unitRegister_frame]

@[simp] theorem unitRegister_pm4 (hd : Header) (u : Nat) (s : Sensors) :
    (unitRegister hd u s).pm4 = s.pm4 := by
  rw [unitRegister_frame]

@[simp] theorem unitRegister_pm10 (hd : Header) (u : Nat) (s : Sensors) :
    (unitRegister hd u s).pm10 = s.pm10 := by
  rw [unitRegister_frame]

@[simp] theorem unitRegister_dataReady (hd : Header) (u : Nat) (s : Sensors) :
    (unitRegister hd u s).dataReady = s.dataReady := by
  rw [unitRegister_frame]

@[simp] theorem unitRegister_dev_uart_type (hd : Header) (u : Nat) (s : Sensors) :
    (unitRegister hd u s).dev_uart_type = s.dev_uart_type := by
  rw [unitRegister_frame]

@[simp] theorem unitRegister_device_selected (hd : Header) (u : Nat) (s : Sensors) :
    (unitRegister hd u s).device_selected = s.device_selected := by
  rw [unitRegister_frame]

@[simp] theorem unitRegister_current_unit (hd : Header) (u : Nat) (s : Sensors) :
    (unitRegister hd u s).current_unit = s.current_unit := by
  rw [unitRegister_frame]

@[simp] theorem unitRegister_onErrorCb (hd : Header) (u : Nat) (s : Sensors) :
    (unitRegister hd u s).onErrorCb = s.onErrorCb := by
  rw [unitRegister_frame]

@[simp] theorem unitRegister_errors (hd : Header) (u : Nat) (s : Sensors) :
    (unitRegister hd u s).errors = s.errors := by
  rw [unitRegister_frame]

@[simp] theorem unitRegister_serial (hd : Header) (u : Nat) (s : Sensors) :
    (unitRegister hd u s).serial = s.serial := by
  rw [unitRegister_frame]

@[simp] theorem unitRegister_sps30_init (hd : Header) (u : Nat) (s : Sensors) :
    (unitRegister hd u s).sps30_init = s.sps30_init := by
  rw [unitRegister_frame]

@[simp] theorem unitRegister_cm1106_init (hd : Header) (u : Nat) (s : Sensors) :
    (unitRegister hd u s).cm1106_init = s.cm1106_init := by
  rw [unitRegister_frame]

@[simp] theorem unitRegister_s8_init (hd : Header) (u : Nat) (s : Sensors) :
    (unitRegister hd u s).s8_init = s.s8_init := by
  rw [unitRegister_frame]

@[simp] theorem unitRegister_delay_ms (hd : Header) (u : Nat) (s : Sensors) :
    (unitRegister hd u s).delay_ms = s.delay_ms := by
  rw [unitRegister_frame]

@[simp] theorem unitRegister_CO2humi (hd : Header) (u : Nat) (s : Sensors) :
    (unitRegister hd u s).CO2humi = s.CO2humi := by
  rw [unitRegister_frame]

@[simp] theorem unitRegister_CO2temp (hd : Header) (u : Nat) (s : Sensors) :
    (unitRegister hd u s).CO2temp = s.CO2temp := by
  rw [unitRegister_frame]

@[simp] theorem unitRegister_humi (hd : Header) (u : Nat) (s : Sensors) :
    (unitRegister hd u s).humi = s.humi := by
  rw [unitRegister_frame]

@[simp] theorem unitRegister_temp (hd : Header) (u : Nat) (s : Sensors) :
    (unitRegister hd u s).temp = s.temp := by
  rw [unitRegister_frame]

@[simp] theorem unitRegister_pres (hd : Header) (u : Nat) (s : Sensors) :
    (unitRegister hd u s).pres = s.pres := by
  rw [unitRegister_frame]

@[simp] theorem unitRegister_alt (hd : Header) (u : Nat) (s : Sensors) :
    (unitRegister hd u s).alt = s.alt := by
  rw [unitRegister_frame]

@[simp] theorem unitRegister_gas (hd : Header) (u : Nat) (s : Sensors) :
    (unitRegister hd u s).gas = s.gas := by
  rw [unitRegister_frame]

@[simp] theorem unitRegister_toffset (hd : Header) (u : Nat) (s : Sensors) :
    (unitRegister hd u s).toffset = s.toffset := by
  rw [unitRegister_frame]

@[simp] theorem unitRegister_altoffset (hd : Header) (u : Nat) (s : Sensors) :
    (unitRegister hd u s).altoffset = s.altoffset := by
  rw [unitRegister_frame]

@[simp] theorem unitRegister_hpa (hd : Header) (u : Nat) (s : Sensors) :
    (unitRegister hd u s).hpa = s.hpa := by
  rw [unitRegister_frame]

@[simp] theorem unitRegister_dhttemp (hd : Header) (u : Nat) (s : Sensors) :
    (unitRegister hd u s).dhttemp = s.dhttemp := by
  rw [unitRegister_frame]

@[simp] theorem unitRegister_dhthumi (hd : Header) (u : Nat) (s : Sensors) :
    (unitRegister hd u s).dhthumi = s.dhthumi := by
  rw [unitRegister_frame]

@[simp] theorem unitRegister_i2conly (hd : Header) (u : Nat) (s : Sensors) :
    (unitRegister hd u s).i2conly = s.i2conly := by
  rw [unitRegister_frame]

@[simp] theorem unitRegister_sample_time (hd : Header) (u : Nat) (s : Sensors) :
    (unitRegister hd u s).sample_time = s.sample_time := by
  rw [unitRegister_frame]

@[simp] theorem unitRegister_onDataCb (hd : Header) (u : Nat) (s : Sensors) :
    (unitRegister hd u s).onDataCb = s.onDataCb := by
  rw [unitRegister_frame]

@[simp] theorem unitRegister_data_calls (hd : Header) (u : Nat) (s : Sensors) :
    (unitRegister hd u s).data_calls = s.data_calls := by
  rw [unitRegister_frame]

@[simp] theorem unitRegister_pmLoopTimeStamp (hd : Header) (u : Nat) (s : Sensors) :
    (unitRegister hd u s).pmLoopTimeStamp = s.pmLoopTimeStamp := by
  rw [unitRegister_frame]

@[simp] theorem unitRegister_measurement_timestamp (hd : Header) (u : Nat) (s : Sensors) :
    (unitRegister hd u s).measurement_timestamp = s.measurement_timestamp := by
  rw [unitRegister_frame]

@[simp] theorem unitRegister_millis (hd : Header) (u : Nat) (s : Sensors) :
    (unitRegister hd u s).millis = s.millis := by
  rw [unitRegister_frame]

@[simp] theorem unitRegister_sps30_start (hd : Header) (u : Nat) (s : Sensors) :
    (unitRegister hd u s).sps30_start = s.sps30_start := by
  rw [unitRegister_frame]

@[simp] theorem unitRegister_sps30 (hd : Header) (u : Nat) (s : Sensors) :
    (unitRegister hd u s).sps30 = s.sps30 := by
  rw [unitRegister_frame]

@[simp] theorem unitRegister_mhz19 (hd : Header) (u : Nat) (s : Sensors) :
    (unitRegister hd u s).mhz19 = s.mhz19 := by
  rw [unitRegister_frame]

@[simp] theorem unitRegister_cm1106 (hd : Header) (u : Nat) (s : Sensors) :
    (unitRegister hd u s).cm1106 = s.cm1106 := by
  rw [unitRegister_frame]

@[simp] theorem unitRegister_s8 (hd : Header) (u : Nat) (s : Sensors) :
    (unitRegister hd u s).s8 = s.s8 := by
  rw [unitRegister_frame]

@[simp] theorem unitRegister_dht_sensor (hd : Header) (u : Nat) (s : Sensors) :
    (unitRegister hd u s).dht_sensor = s.dht_sensor := by
  rw [unitRegister_frame]

@[simp] theorem unitRegister_am2320 (hd : Header) (u : Nat) (s : Sensors) :
    (unitRegister hd u s).am2320 = s.am2320 := by
  rw [unitRegister_frame]

@[simp] theorem unitRegister_bme280 (hd : Header) (u : Nat) (s : Sensors) :
    (unitRegister hd u s).bme280 = s.bme280 := by
  rw [unitRegister_frame]

@[simp] theorem unitRegister_bmp280 (hd : Header) (u : Nat) (s : Sensors) :
    (unitRegister hd u s).bmp280 = s.bmp280 := by
  rw [unitRegister_frame]

@[simp] theorem unitRegister_bme680 (hd : Header) (u : Nat) (s : Sensors) :
    (unitRegister hd u s).bme680 = s.bme680 := by
  rw [unitRegister_frame]

@[simp] theorem unitRegister_aht10 (hd : Header) (u : Nat) (s : Sensors) :
    (unitRegister hd u s).aht10 = s.aht10 := by
  rw [unitRegister_frame]

@[simp] theorem unitRegister_sht31 (hd : Header) (u : Nat) (s : Sensors) :
    (unitRegister hd u s).sht31 = s.sht31 := by
  rw [unitRegister_frame]

@[simp] theorem unitRegister_scd30 (hd : Header) (u : Nat) (s : Sensors) :
    (unitRegister hd u s).scd30 = s.scd30 := by
  rw [unitRegister_frame]

@[simp] theorem unitRegister_scd4x (hd : Header) (u : Nat) (s : Sensors) :
    (unitRegister hd u s).scd4x = s.scd4x := by
  rw [unitRegister_frame]

@[simp] theorem unitRegister_pmGCJA5 (hd : Header) (u : Nat) (s : Sensors) :
    (unitRegister hd u s).pmGCJA5 = s.pmGCJA5 := by
  rw [unitRegister_frame]

@[simp] theorem onSensorError_pm1 (msg : String) (s : Sensors) :
    (onSensorError msg s).pm1 = s.pm1 := by
  rw [onSensorError_frame]

@[simp] theorem onSensorError_pm25 (msg : String) (s : Sensors) :
    (onSensorError msg s).pm25 = s.pm25 := by
  rw [onSensorError_frame]

@[simp] theorem onSensorError_pm4 (msg : String) (s : Sensors) :
    (onSensorError msg s).pm4 = s.pm4 := by
  rw [onSensorError_frame]

@[simp] theorem onSensorError_pm10 (msg : String) (s : Sensors) :
    (onSensorError msg s).pm10 = s.pm10 := by
  rw [onSensorError_frame]

@[simp] theorem onSensorError_CO2Val (msg : String) (s : Sensors) :
    (onSensorError msg s).CO2Val = s.CO2Val := by
  rw [onSensorError_frame]

@[simp] theorem onSensorError_dataReady (msg : String) (s : Sensors) :
    (onSensorError msg s).dataReady = s.dataReady := by
  rw [onSensorError_frame]

@[simp] theorem onSensorError_dev_uart_type (msg : String) (s : Sensors) :
    (onSensorError msg s).dev_uart_type = s.dev_uart_type := by
  rw [onSensorError_frame]

@[simp] theorem onSensorError_device_selected (msg : String) (s : Sensors) :
    (onSensorError msg s).device_selected = s.device_selected := by
  rw [onSensorError_frame]

@[simp] theorem onSensorError_current_unit (msg : String) (s : Sensors) :
    (onSensorError msg s).current_unit = s.current_unit := by
  rw [onSensorError_frame]

@[simp] theorem onSensorError_onErrorCb (msg : String) (s : Sensors) :
    (onSensorError msg s).onErrorCb = s.onErrorCb := by
  rw [onSensorError_frame]

@[simp] theorem onSensorError_serial (msg : String) (s : Sensors) :
    (onSensorError msg s).serial = s.serial := by
  rw [onSensorError_frame]

@[simp] theorem onSensorError_sps30_init (msg : String) (s : Sensors) :
    (onSensorError msg s).sps30_init = s.sps30_init := by
  rw [onSensorError_frame]

@[simp] theorem onSensorError_cm1106_init (msg : String) (s : Sensors) :
    (onSensorError msg s).cm1106_init = s.cm1106_init := by
  rw [onSensorError_frame]

@[simp] theorem onSensorError_s8_init (msg : String) (s : Sensors) :
    (onSensorError msg s).s8_init = s.s8_init := by
  rw [onSensorError_frame]

@[simp] theorem onSensorError_delay_ms (msg : String) (s : Sensors) :
    (onSensorError msg s).delay_ms = s.delay_ms := by
  rw [onSensorError_frame]

@[simp] theorem onSensorError_CO2humi (msg : String) (s : Sensors) :
    (onSensorError msg s).CO2humi = s.CO2humi := by
  rw [onSensorError_frame]

@[simp] theorem onSensorError_CO2temp (msg : String) (s : Sensors) :
    (onSensorError msg s).CO2temp = s.CO2temp := by
  rw [onSensorError_frame]

@[simp] theorem onSensorError_humi (msg : String) (s : Sensors) :
    (onSensorError msg s).humi = s.humi := by
  rw [onSensorError_frame]

@[simp] theorem onSensorError_temp (msg : String) (s : Sensors) :
    (onSensorError msg s).temp = s.temp := by
  rw [onSensorError_frame]

@[simp] theorem onSensorError_pres (msg : String) (s : Sensors) :
    (onSensorError msg s).pres = s.pres := by
  rw [onSensorError_frame]

@[simp] theorem onSensorError_alt (msg : String) (s : Sensors) :
    (onSensorError msg s).alt = s.alt := by
  rw [onSensorError_frame]

@[simp] theorem onSensorError_gas (msg : String) (s : Sensors) :
    (onSensorError msg s).gas = s.gas := by
  rw [onSensorError_frame]

@[simp] theorem onSensorError_toffset (msg : String) (s : Sensors) :
    (onSensorError msg s).toffset = s.toffset := by
  rw [onSensorError_frame]

@[simp] theorem onSensorError_altoffset (msg : String) (s : Sensors) :
    (onSensorError msg s).altoffset = s.altoffset := by
  rw [onSensorError_frame]

@[simp] theorem onSensorError_hpa (msg : String) (s : Sensors) :
    (onSensorError msg s).hpa = s.hpa := by
  rw [onSensorError_frame]

@[simp] theorem onSensorError_dhttemp (msg : String) (s : Sensors) :
    (onSensorError msg s).dhttemp = s.dhttemp := by
  rw [onSensorError_frame]

@[simp] theorem onSensorError_dhthumi (msg : String) (s : Sensors) :
    (onSensorError msg s).dhthumi = s.dhthumi := by
  rw [onSensorError_frame]

@[simp] theorem onSensorError_i2conly (msg : String) (s : Sensors) :
    (onSensorError msg s).i2conly = s.i2conly := by
  rw [onSensorError_frame]

@[simp] theorem onSensorError_sample_time (msg : String) (s : Sensors) :
    (onSensorError msg s).sample_time = s.sample_time := by
  rw [onSensorError_frame]

@[simp] theorem onSensorError_onDataCb (msg : String) (s : Sensors) :
    (onSensorError msg s).onDataCb = s.onDataCb := by
  rw [onSensorError_frame]

@[simp] theorem onSensorError_data_calls (msg : String) (s : Sensors) :
    (onSensorError msg s).data_calls = s.data_calls := by
  rw [onSensorError_frame]

@[simp] theorem onSensorError_pmLoopTimeStamp (msg : String) (s : Sensors) :
    (onSensorError msg s).pmLoopTimeStamp = s.pmLoopTimeStamp := by
  rw [onSensorError_frame]

@[simp] theorem onSensorError_measurement_timestamp (msg : String) (s : Sensors) :
    (onSensorError msg s).measurement_timestamp = s.measurement_timestamp := by
  rw [onSensorError_frame]

@[simp] theorem onSensorError_millis (msg : String) (s : Sensors) :
    (onSensorError msg s).millis = s.millis := by
  rw [onSensorError_frame]

@[simp] theorem onSensorError_sps30_start (msg : String) (s : Sensors) :
    (onSensorError msg s).sps30_start = s.sps30_start := by
  rw [onSensorError_frame]

@[simp] theorem onSensorError_sps30 (msg : String) (s : Sensors) :
    (onSensorError msg s).sps30 = s.sps30 := by
  rw [onSensorError_frame]

@[simp] theorem onSensorError_mhz19 (msg : String) (s : Sensors) :
    (onSensorError msg s).mhz19 = s.mhz19 := by
  rw [onSensorError_frame]

@[simp] theorem onSensorError_cm1106 (msg : String) (s : Sensors) :
    (onSensorError msg s).cm1106 = s.cm1106 := by
  rw [onSensorError_frame]

@[simp] theorem onSensorError_s8 (msg : String) (s : Sensors) :
    (onSensorError msg s).s8 = s.s8 := by
  rw [onSensorError_frame]

@[simp] theorem onSensorError_dht_sensor (msg : String) (s : Sensors) :
    (onSensorError msg s).dht_sensor = s.dht_sensor := by
  rw [onSensorError_frame]

@[simp] theorem onSensorError_am2320 (msg : String) (s : Sensors) :
    (onSensorError msg s).am2320 = s.am2320 := by
  rw [onSensorError_frame]

@[simp] theorem onSensorError_bme280 (msg : String) (s : Sensors) :
    (onSensorError msg s).bme280 = s.bme280 := by
  rw [onSensorError_frame]

@[simp] theorem onSensorError_bmp280 (msg : String) (s : Sensors) :
    (onSensorError msg s).bmp280 = s.bmp280 := by
  rw [onSensorError_frame]

@[simp] theorem onSensorError_bme680 (msg : String) (s : Sensors) :
    (onSensorError msg s).bme680 = s.bme680 := by
  rw [onSensorError_frame]

@[simp] theorem onSensorError_aht10 (msg : String) (s : Sensors) :
    (onSensorError msg s).aht10 = s.aht10 := by
  rw [onSensorError_frame]

@[simp] theorem onSensorError_sht31 (msg : String) (s : Sensors) :
    (onSensorError msg s).sht31 = s.sht31 := by
  rw [onSensorError_frame]

@[simp] theorem onSensorError_scd30 (msg : String) (s : Sensors) :
    (onSensorError msg s).scd30 = s.scd30 := by
  rw [onSensorError_frame]

@[simp] theorem onSensorError_scd4x (msg : String) (s : Sensors) :
    (onSensorError msg s).scd4x = s.scd4x := by
  rw [onSensorError_frame]

@[simp] theorem onSensorError_pmGCJA5 (msg : String) (s : Sensors) :
    (onSensorError msg s).pmGCJA5 = s.pmGCJA5 := by
  rw [onSensorError_frame]

@[simp] theorem onSensorError_units_registered (msg : String) (s : Sensors) :
    (onSensorError msg s).units_registered = s.units_registered := by
  rw [onSensorError_frame]

@[simp] theorem onSensorError_units_registered_count (msg : String) (s : Sensors) :
    (onSensorError msg s).units_registered_count = s.units_registered_count := by
  rw [onSensorError_frame]

theorem onSensorError_errors (msg : String) (s : Sensors) :
    (onSensorError msg s).errors = if s.onErrorCb then s.errors ++ [msg] else s.errors := by
  unfold onSensorError
  split <;> rfl

theorem RegistryKept.refl_registry (s : Sensors) : RegistryKept s s :=
  ⟨rfl, rfl⟩

theorem RegistryKept.trans_registry {s t u : Sensors} (h1 : RegistryKept s t) (h2 : RegistryKept t u) :
    RegistryKept s u :=
  ⟨h2.1.trans h1.1, h2.2.trans h1.2⟩

theorem RegistryKept.unitRegister (hd : Header) (u : Nat) {s t : Sensors}
    (h : RegistryKept s t) : RegistryKept (unitRegister hd u s) (unitRegister hd u t) := by
  obtain ⟨h1, h2⟩ := h
  have hr : isUnitRegistered hd t u = isUnitRegistered hd s u := by
    unfold isUnitRegistered
    rw [h1]
  unfold CanAirIO.unitRegister
  rw [hr]
  split
  · exact ⟨h1, h2⟩
  · exact ⟨by simp only [h1, h2], by simp only [h2]⟩

theorem RegistryKept.registerAll (hd : Header) (us : List Nat) {s t : Sensors}
    (h : RegistryKept s t) : RegistryKept (registerAll hd us s) (registerAll hd us t) := by
  induction us generalizing s t with
  | nil => exact h
  | cons u r ih => exact ih (RegistryKept.unitRegister hd u h)

theorem pmGenericRead_decoded (hd : Header) (s : Sensors)
    (h0 : charAt hd (hwSerialRead hd 32 s).1 0 = 66)
    (h1 : charAt hd (hwSerialRead hd 32 s).1 1 = 77) :
    pmGenericRead hd s =
      if 1000 < toUInt16 (charAt hd (hwSerialRead hd 32 s).1 6 * 256 +
            charAt hd (hwSerialRead hd 32 s).1 7) ∧
          1000 < toUInt16 (charAt hd (hwSerialRead hd 32 s).1 8 * 256 +
            charAt hd (hwSerialRead hd 32 s).1 9) then
        (false, onSensorError "[E][SLIB] UART PMGENERIC out of range pm25 > 1000"
          (registerAll hd [hd.PM25, hd.PM10]
            { (hwSerialRead hd 32 s).2 with
              pm25 := toUInt16 (charAt hd (hwSerialRead hd 32 s).1 6 * 256 +
                charAt hd (hwSerialRead hd 32 s).1 7)
              pm10 := toUInt16 (charAt hd (hwSerialRead hd 32 s).1 8 * 256 +
                charAt hd (hwSerialRead hd 32 s).1 9) }))
      else
        (true, registerAll hd [hd.PM25, hd.PM10]
          { (hwSerialRead hd 32 s).2 with
            pm25 := toUInt16 (charAt hd (hwSerialRead hd 32 s).1 6 * 256 +
              charAt hd (hwSerialRead hd 32 s).1 7)
            pm10 := toUInt16 (charAt hd (hwSerialRead hd 32 s).1 8 * 256 +
              charAt hd (hwSerialRead hd 32 s).1 9) }) := by
  simp only [pmGenericRead, h0, h1, if_true, unitRegister_pm25, unitRegister_pm10, gt_iff_lt,
    registerAll, List.foldl_cons, List.foldl_nil]

theorem pmPanasonicRead_decoded (hd : Header) (s : Sensors)
    (h0 : charAt hd (hwSerialRead hd 32 s).1 0 = 2) :
    pmPanasonicRead hd s =
      if 2000 < toUInt16 (charAt hd (hwSerialRead hd 32 s).1 6 * 256 +
            charAt hd (hwSerialRead hd 32 s).1 5) ∧
          2000 < toUInt16 (charAt hd (hwSerialRead hd 32 s).1 10 * 256 +
            charAt hd (hwSerialRead hd 32 s).1 9) then
        (false, onSensorError "[E][SLIB] PANASONIC out of range pm25 > 2000"
          (registerAll hd [hd.PM1, hd.PM25, hd.PM10]
            { (hwSerialRead hd 32 s).2 with
              pm1 := toUInt16 (charAt hd (hwSerialRead hd 32 s).1 2 * 256 +
                charAt hd (hwSerialRead hd 32 s).1 1)
              pm25 := toUInt16 (charAt hd (hwSerialRead hd 32 s).1 6 * 256 +
                charAt hd (hwSerialRead hd 32 s).1 5)
              pm10 := toUInt16 (charAt hd (hwSerialRead hd 32 s).1 10 * 256 +
                charAt hd (hwSerialRead hd 32 s).1 9) }))
      else
        (true, registerAll hd [hd.PM1, hd.PM25, hd.PM10]
          { (hwSerialRead hd 32 s).2 with
            pm1 := toUInt16 (charAt hd (hwSerialRead hd 32 s).1 2 * 256 +
              charAt hd (hwSerialRead hd 32 s).1 1)
            pm25 := toUInt16 (charAt hd (hwSerialRead hd 32 s).1 6 * 256 +
              charAt hd (hwSerialRead hd 32 s).1 5)
            pm10 := toUInt16 (charAt hd (hwSerialRead hd 32 s).1 10 * 256 +
              charAt hd (hwSerialRead hd 32 s).1 9) }) := by
  simp only [pmPanasonicRead, h0, if_true, unitRegister_pm25, unitRegister_pm10, gt_iff_lt,
    registerAll, List.foldl_cons, List.foldl_nil]

theorem pmSDS011Read_decoded (hd : Header) (s : Sensors)
    (h0 : charAt hd (hwSerialRead hd 10 s).1 0 = 170)
    (h1 : charAt hd (hwSerialRead hd 10 s).1 1 = 192) :
    pmSDS011Read hd s =
      if 1000 < toUInt16 ((charAt hd (hwSerialRead hd 10 s).1 3 * 256 +
            charAt hd (hwSerialRead hd 10 s).1 2).tdiv 10) ∧
          1000 < toUInt16 ((charAt hd (hwSerialRead hd 10 s).1 5 * 256 +
            charAt hd (hwSerialRead hd 10 s).1 4).tdiv 10) then
        (false, onSensorError "[E][SLIB] SDS011 out of range pm25 > 1000"
          (registerAll hd [hd.PM25, hd.PM10]
            { (hwSerialRead hd 10 s).2 with
              pm25 := toUInt16 ((charAt hd (hwSerialRead hd 10 s).1 3 * 256 +
                charAt hd (hwSerialRead hd 10 s).1 2).tdiv 10)
              pm10 := toUInt16 ((charAt hd (hwSerialRead hd 10 s).1 5 * 256 +
                charAt hd (hwSerialRead hd 10 s).1 4).tdiv 10) }))
      else
        (true, registerAll hd [hd.PM25, hd.PM10]
          { (hwSerialRead hd 10 s).2 with
            pm25 := toUInt16 ((charAt hd (hwSerialRead hd 10 s).1 3 * 256 +
              charAt hd (hwSerialRead hd 10 s).1 2).tdiv 10)
            pm10 := toUInt16 ((charAt hd (hwSerialRead hd 10 s).1 5 * 256 +
              charAt hd (hwSerialRead hd 10 s).1 4).tdiv 10) }) := by
  simp only [pmSDS011Read, h0, h1, if_true, unitRegister_pm25, unitRegister_pm10, gt_iff_lt,
    registerAll, List.foldl_cons, List.foldl_nil]

@[simp] theorem registerAll_nil (hd : Header) (s : Sensors) : registerAll hd [] s = s :=
  rfl

@[simp] theorem registerAll_cons (hd : Header) (u : Nat) (us : List Nat) (s : Sensors) :
    registerAll hd (u :: us) s = registerAll hd us (unitRegister hd u s) :=
  rfl

theorem registerAll_frame (hd : Header) (us : List Nat) (s : Sensors) :
    registerAll hd us s =
      { s with
        units_registered := (registerAll hd us s).units_registered
        units_registered_count := (registerAll hd us s).units_registered_count } := by
  induction us generalizing s with
  | nil => rfl
  | cons u r ih =>
    rw [registerAll_cons, ih (unitRegister hd u s)]
    rw [unitRegister_frame hd u s]

@[simp] theorem registerAll_pm1 (hd : Header) (us : List Nat) (s : Sensors) :
    (registerAll hd us s).pm1 = s.pm1 := by
  rw [registerAll_frame]

@[simp] theorem registerAll_pm25 (hd : Header) (us : List Nat) (s : Sensors) :
    (registerAll hd us s).pm25 = s.pm25 := by
  rw [registerAll_frame]

@[simp] theorem registerAll_pm4 (hd : Header) (us : List Nat) (s : Sensors) :
    (registerAll hd us s).pm4 = s.pm4 := by
  rw [registerAll_frame]

@[simp] theorem registerAll_pm10 (hd : Header) (us : List Nat) (s : Sensors) :
    (registerAll hd us s).pm10 = s.pm10 := by
  rw [registerAll_frame]

@[simp] theorem registerAll_CO2Val (hd : Header) (us : List Nat) (s : Sensors) :
    (registerAll hd us s).CO2Val = s.CO2Val := by
  rw [registerAll_frame]

@[simp] theorem registerAll_dataReady (hd : Header) (us : List Nat) (s : Sensors) :
    (registerAll hd us s).dataReady = s.dataReady := by
  rw [registerAll_frame]

@[simp] theorem registerAll_dev_uart_type (hd : Header) (us : List Nat) (s : Sensors) :
    (registerAll hd us s).dev_uart_type = s.dev_uart_type := by
  rw [registerAll_frame]

@[simp] theorem registerAll_device_selected (hd : Header) (us : List Nat) (s : Sensors) :
    (registerAll hd us s).device_selected = s.device_selected := by
  rw [registerAll_frame]

@[simp] theorem registerAll_current_unit (hd : Header) (us : List Nat) (s : Sensors) :
    (registerAll hd us s).current_unit = s.current_unit := by
  rw [registerAll_frame]

@[simp] theorem registerAll_onErrorCb (hd : Header) (us : List Nat) (s : Sensors) :
    (registerAll hd us s).onErrorCb = s.onErrorCb := by
  rw [registerAll_frame]

@[simp] theorem registerAll_errors (hd : Header) (us : List Nat) (s : Sensors) :
    (registerAll hd us s).errors = s.errors := by
  rw [registerAll_frame]

@[simp] theorem registerAll_serial (hd : Header) (us : List Nat) (s : Sensors) :
    (registerAll hd us s).serial = s.serial := by
  rw [registerAll_frame]

@[simp] theorem registerAll_sps30_init (hd : Header) (us : List Nat) (s : Sensors) :
    (registerAll hd us s).sps30_init = s.sps30_init := by
  rw [registerAll_frame]

@[simp] theorem registerAll_cm1106_init (hd : Header) (us : List Nat) (s : Sensors) :
    (registerAll hd us s).cm1106_init = s.cm1106_init := by
  rw [registerAll_frame]

@[simp] theorem registerAll_s8_init (hd : Header) (us : List Nat) (s : Sensors) :
    (registerAll hd us s).s8_init = s.s8_init := by
  rw [registerAll_frame]

@[simp] theorem registerAll_delay_ms (hd : Header) (us : List Nat) (s : Sensors) :
    (registerAll hd us s).delay_ms = s.delay_ms := by
  rw [registerAll_frame]

@[simp] theorem registerAll_CO2humi (hd : Header) (us : List Nat) (s : Sensors) :
    (registerAll hd us s).CO2humi = s.CO2humi := by
  rw [registerAll_frame]

@[simp] theorem registerAll_CO2temp (hd : Header) (us : List Nat) (s : Sensors) :
    (registerAll hd us s).CO2temp = s.CO2temp := by
  rw [registerAll_frame]

@[simp] theorem registerAll_humi (hd : Header) (us : List Nat) (s : Sensors) :
    (registerAll hd us s).humi = s.humi := by
  rw [registerAll_frame]

@[simp] theorem registerAll_temp (hd : Header) (us : List Nat) (s : Sensors) :
    (registerAll hd us s).temp = s.temp := by
  rw [registerAll_frame]

@[simp] theorem registerAll_pres (hd : Header) (us : List Nat) (s : Sensors) :
    (registerAll hd us s).pres = s.pres := by
  rw [registerAll_frame]

@[simp] theorem registerAll_alt (hd : Header) (us : List Nat) (s : Sensors) :
    (registerAll hd us s).alt = s.alt := by
  rw [registerAll_frame]

@[simp] theorem registerAll_gas (hd : Header) (us : List Nat) (s : Sensors) :
    (registerAll hd us s).gas = s.gas := by
  rw [registerAll_frame]

@[simp] theorem registerAll_toffset (hd : Header) (us : List Nat) (s : Sensors) :
    (registerAll hd us s).toffset = s.toffset := by
  rw [registerAll_frame]

@[simp] theorem registerAll_altoffset (hd : Header) (us : List Nat) (s : Sensors) :
    (registerAll hd us s).altoffset = s.altoffset := by
  rw [registerAll_frame]

@[simp] theorem registerAll_hpa (hd : Header) (us : List Nat) (s : Sensors) :
    (registerAll hd us s).hpa = s.hpa := by
  rw [registerAll_frame]

@[simp] theorem registerAll_dhttemp (hd : Header) (us : List Nat) (s : Sensors) :
    (registerAll hd us s).dhttemp = s.dhttemp := by
  rw [registerAll_frame]

@[simp] theorem registerAll_dhthumi (hd : Header) (us : List Nat) (s : Sensors) :
    (registerAll hd us s).dhthumi = s.dhthumi := by
  rw [registerAll_frame]

@[simp] theorem registerAll_i2conly (hd : Header) (us : List Nat) (s : Sensors) :
    (registerAll hd us s).i2conly = s.i2conly := by
  rw [registerAll_frame]

@[simp] theorem registerAll_sample_time (hd : Header) (us : List Nat) (s : Sensors) :
    (registerAll hd us s).sample_time = s.sample_time := by
  rw [registerAll_frame]

@[simp] theorem registerAll_onDataCb (hd : Header) (us : List Nat) (s : Sensors) :
    (registerAll hd us s).onDataCb = s.onDataCb := by
  rw [registerAll_frame]

@[simp] theorem registerAll_data_calls (hd : Header) (us : List Nat) (s : Sensors) :
    (registerAll hd us s).data_calls = s.data_calls := by
  rw [registerAll_frame]

@[simp] theorem registerAll_pmLoopTimeStamp (hd : Header) (us : List Nat) (s : Sensors) :
    (registerAll hd us s).pmLoopTimeStamp = s.pmLoopTimeStamp := by
  rw [registerAll_frame]

@[simp] theorem registerAll_measurement_timestamp (hd : Header) (us : List Nat) (s : Sensors) :
    (registerAll hd us s).measurement_timestamp = s.measurement_timestamp := by
  rw [registerAll_frame]

@[simp] theorem registerAll_millis (hd : Header) (us : List Nat) (s : Sensors) :
    (registerAll hd us s).millis = s.millis := by
  rw [registerAll_frame]

@[simp] theorem registerAll_sps30_start (hd : Header) (us : List Nat) (s : Sensors) :
    (registerAll hd us s).sps30_start = s.sps30_start := by
  rw [registerAll_frame]

@[simp] theorem registerAll_sps30 (hd : Header) (us : List Nat) (s : Sensors) :
    (registerAll hd us s).sps30 = s.sps30 := by
  rw [registerAll_frame]

@[simp] theorem registerAll_mhz19 (hd : Header) (us : List Nat) (s : Sensors) :
    (registerAll hd us s).mhz19 = s.mhz19 := by
  rw [registerAll_frame]

@[simp] theorem registerAll_cm1106 (hd : Header) (us : List Nat) (s : Sensors) :
    (registerAll hd us s).cm1106 = s.cm1106 := by
  rw [registerAll_frame]

@[simp] theorem registerAll_s8 (hd : Header) (us : List Nat) (s : Sensors) :
    (registerAll hd us s).s8 = s.s8 := by
  rw [registerAll_frame]

@[simp] theorem registerAll_dht_sensor (hd : Header) (us : List Nat) (s : Sensors) :
    (registerAll hd us s).dht_sensor = s.dht_sensor := by
  rw [registerAll_frame]

@[simp] theorem registerAll_am2320 (hd : Header) (us : List Nat) (s : Sensors) :
    (registerAll hd us s).am2320 = s.am2320 := by
  rw [registerAll_frame]

@[simp] theorem registerAll_bme280 (hd : Header) (us : List Nat) (s : Sensors) :
    (registerAll hd us s).bme280 = s.bme280 := by
  rw [registerAll_frame]

@[simp] theorem registerAll_bmp280 (hd : Header) (us : List Nat) (s : Sensors) :
    (registerAll hd us s).bmp280 = s.bmp280 := by
  rw [registerAll_frame]

@[simp] theorem registerAll_bme680 (hd : Header) (us : List Nat) (s : Sensors) :
    (registerAll hd us s).bme680 = s.bme680 := by
  rw [registerAll_frame]

@[simp] theorem registerAll_aht10 (hd : Header) (us : List Nat) (s : Sensors) :
    (registerAll hd us s).aht10 = s.aht10 := by
  rw [registerAll_frame]

@[simp] theorem registerAll_sht31 (hd : Header) (us : List Nat) (s : Sensors) :
    (registerAll hd us s).sht31 = s.sht31 := by
  rw [registerAll_frame]

@[simp] theorem registerAll_scd30 (hd : Header) (us : List Nat) (s : Sensors) :
    (registerAll hd us s).scd30 = s.scd30 := by
  rw [registerAll_frame]

@[simp] theorem registerAll_scd4x (hd : Header) (us : List Nat) (s : Sensors) :
    (registerAll hd us s).scd4x = s.scd4x := by
  rw [registerAll_frame]

@[simp] theorem registerAll_pmGCJA5 (hd : Header) (us : List Nat) (s : Sensors) :
    (registerAll hd us s).pmGCJA5 = s.pmGCJA5 := by
  rw [registerAll_frame]

theorem FlagsKept.refl_flags (s : Sensors) : FlagsKept s s :=
  ⟨rfl, rfl, rfl, rfl, rfl, rfl⟩

theorem FlagsKept.trans_flags {s t u : Sensors} (h1 : FlagsKept s t) (h2 : FlagsKept t u) :
    FlagsKept s u :=
  ⟨h2.1.trans h1.1, h2.2.1.trans h1.2.1, h2.2.2.1.trans h1.2.2.1,
    h2.2.2.2.1.trans h1.2.2.2.1, h2.2.2.2.2.1.trans h1.2.2.2.2.1,
    h2.2.2.2.2.2.trans h1.2.2.2.2.2⟩

theorem ErrRel.same {s t : Sensors} (h : t.errors = s.errors) : ErrRel s t :=
  ⟨[], by simp [h], by simp, by simp⟩

theorem ErrRel.onSensorError {s t : Sensors} (msg : String) (h : t.errors = s.errors)
    (hm : msg ≠ "[W][SLIB] No data from any sensor!") : ErrRel s (onSensorError msg t) := by
  rw [ErrRel, onSensorError_errors]
  split
  · exact ⟨[msg], by rw [h], by simp, by simpa using hm.symm⟩
  · exact ⟨[], by simp [h], by simp, by simp⟩

theorem hd_units_mem (hd : Header) :
    hd.PM1 ∈ hd.units ∧ hd.PM25 ∈ hd.units ∧ hd.PM4 ∈ hd.units ∧ hd.PM10 ∈ hd.units ∧
      hd.CO2 ∈ hd.units ∧ hd.CO2TEMP ∈ hd.units ∧ hd.CO2HUM ∈ hd.units ∧
      hd.TEMP ∈ hd.units ∧ hd.HUM ∈ hd.units ∧ hd.PRESS ∈ hd.units ∧ hd.ALT ∈ hd.units ∧
      hd.GAS ∈ hd.units := by
  simp [Header.units]

theorem pmGenericRead_uartStep (hd : Header) (s : Sensors) :
    UartStep hd s (pmGenericRead hd s) := by
  have hu := hd_units_mem hd
  by_cases h0 : charAt hd (hwSerialRead hd 32 s).1 0 = 66
  · by_cases h1 : charAt hd (hwSerialRead hd 32 s).1 1 = 77
    · rw [pmGenericRead_decoded hd s h0 h1]
      split
      · rename_i hr
        refine ⟨by simp [FlagsKept, hwSerialRead], ?_, Or.inr (Or.inl ?_)⟩
        · exact ErrRel.onSensorError _ (by simp [hwSerialRead]) (by decide)
        · refine ⟨rfl, by simp [hwSerialRead], by simpa using hr.1, by simpa using hr.2,
            [hd.PM25, hd.PM10], by simp [hu], ?_⟩
          simp only [RegistryKept, onSensorError_units_registered,
            onSensorError_units_registered_count]
          exact RegistryKept.registerAll hd _ ⟨rfl, rfl⟩
      · refine ⟨by simp [FlagsKept, hwSerialRead], ErrRel.same (by simp [hwSerialRead]),
          Or.inr (Or.inr ⟨rfl, [hd.PM25, hd.PM10], by simp, by simp [hu], ?_⟩)⟩
        exact RegistryKept.registerAll hd _ ⟨rfl, rfl⟩
    · simp only [pmGenericRead, h0, h1, if_true, if_false]
      refine ⟨by simp [FlagsKept, hwSerialRead], ?_, Or.inl ?_⟩
      · exact ErrRel.onSensorError _ (by simp [hwSerialRead]) (by decide)
      · simp [RegistryKept, hwSerialRead]
  · simp only [pmGenericRead, h0, if_false]
    refine ⟨by simp [FlagsKept, hwSerialRead], ErrRel.same (by simp [hwSerialRead]), Or.inl ?_⟩
    simp [RegistryKept, hwSerialRead]

theorem pmPanasonicRead_uartStep (hd : Header) (s : Sensors) :
    UartStep hd s (pmPanasonicRead hd s) := by
  have hu := hd_units_mem hd
  by_cases h0 : charAt hd (hwSerialRead hd 32 s).1 0 = 2
  · rw [pmPanasonicRead_decoded hd s h0]
    split
    · rename_i hr
      refine ⟨by simp [FlagsKept, hwSerialRead], ?_, Or.inr (Or.inl ?_)⟩
      · exact ErrRel.onSensorError _ (by simp [hwSerialRead]) (by decide)
      · refine ⟨rfl, by simp [hwSerialRead], ?_, ?_,
          [hd.PM1, hd.PM25, hd.PM10], by simp [hu], ?_⟩
        · have := hr.1
          simp only [onSensorError_pm25, registerAll_pm25]
          omega
        · have := hr.2
          simp only [onSensorError_pm10, registerAll_pm10]
          omega
        · simp only [RegistryKept, onSensorError_units_registered,
            onSensorError_units_registered_count]
          exact RegistryKept.registerAll hd _ ⟨rfl, rfl⟩
    · refine ⟨by simp [FlagsKept, hwSerialRead], ErrRel.same (by simp [hwSerialRead]),
        Or.inr (Or.inr ⟨rfl, [hd.PM1, hd.PM25, hd.PM10], by simp, by simp [hu], ?_⟩)⟩
      exact RegistryKept.registerAll hd _ ⟨rfl, rfl⟩
  · simp only [pmPanasonicRead, h0, if_false]
    refine ⟨by simp [FlagsKept, hwSerialRead], ?_, Or.inl ?_⟩
    · exact ErrRel.onSensorError _ (by simp [hwSerialRead]) (by decide)
    · simp [RegistryKept, hwSerialRead]

theorem pmSDS011Read_uartStep (hd : Header) (s : Sensors) :
    UartStep hd s (pmSDS011Read hd s) := by
  have hu := hd_units_mem hd
  by_cases h0 : charAt hd (hwSerialRead hd 10 s).1 0 = 170
  · by_cases h1 : charAt hd (hwSerialRead hd 10 s).1 1 = 192
    · rw [pmSDS011Read_decoded hd s h0 h1]
      split
      · rename_i hr
        refine ⟨by simp [FlagsKept, hwSerialRead], ?_, Or.inr (Or.inl ?_)⟩
        · exact ErrRel.onSensorError _ (by simp [hwSerialRead]) (by decide)
        · refine ⟨rfl, by simp [hwSerialRead], by simpa using hr.1, by simpa using hr.2,
            [hd.PM25, hd.PM10], by simp [hu], ?_⟩
          simp only [RegistryKept, onSensorError_units_registered,
            onSensorError_units_registered_count]
          exact RegistryKept.registerAll hd _ ⟨rfl, rfl⟩
      · refine ⟨by simp [FlagsKept, hwSerialRead], ErrRel.same (by simp [hwSerialRead]),
          Or.inr (Or.inr ⟨rfl, [hd.PM25, hd.PM10], by simp, by simp [hu], ?_⟩)⟩
        exact RegistryKept.registerAll hd _ ⟨rfl, rfl⟩
    · simp only [pmSDS011Read, h0, h1, if_true, if_false]
      refine ⟨by simp [FlagsKept, hwSerialRead], ?_, Or.inl ?_⟩
      · exact ErrRel.onSensorError _ (by simp [hwSerialRead]) (by decide)
      · simp [RegistryKept, hwSerialRead]
  · simp only [pmSDS011Read, h0, if_false]
    refine ⟨by simp [FlagsKept, hwSerialRead], ErrRel.same (by simp [hwSerialRead]), Or.inl ?_⟩
    simp [RegistryKept, hwSerialRead]

theorem sps30ReadLoop_frame :
    ∀ (fuel error_cnt : Nat) (s : Sensors),
      (sps30ReadLoop fuel error_cnt s).2 =
        { s with
          sps30 := (sps30ReadLoop fuel error_cnt s).2.sps30
          delay_ms := (sps30ReadLoop fuel error_cnt s).2.delay_ms } := by
  intro fuel
  induction fuel with
  | zero => intro c s; rfl
  | succ n ih =>
    intro c s
    simp only [sps30ReadLoop]
    split
    · rfl
    · split
      · rfl
      · rw [ih]
        rfl
    · rfl

theorem CO2correctionAlt_frame (fp : Fpu) (s : Sensors) :
    CO2correctionAlt fp s = { s with CO2Val := (CO2correctionAlt fp s).CO2Val } :=
  rfl

theorem sps30ReadStart_frame (s : Sensors) :
    (sps30ReadStart s).2 =
      { s with
        delay_ms := (sps30ReadStart s).2.delay_ms
        sps30_start := (sps30ReadStart s).2.sps30_start } := by
  unfold sps30ReadStart
  simp only
  split
  · split <;> rfl
  · rfl

theorem sps30ReadStore_eq (hd : Header) (fp : Fpu) (val : Sps30Values) (s : Sensors) :
    sps30ReadStore hd fp val s =
      if 1000 < toUInt16 (fp.round val.MassPM2) ∧
          1000 < toUInt16 (fp.round val.MassPM10) then
        (false, onSensorError "[E][SLIB] SPS30 Sensirion out of range pm25 > 1000"
          (registerAll hd [hd.PM1, hd.PM25, hd.PM4, hd.PM10]
            { s with
              pm1 := toUInt16 (fp.round val.MassPM1)
              pm25 := toUInt16 (fp.round val.MassPM2)
              pm4 := toUInt16 (fp.round val.MassPM4)
              pm10 := toUInt16 (fp.round val.MassPM10) }))
      else
        (true, { registerAll hd [hd.PM1, hd.PM25, hd.PM4, hd.PM10]
            { s with
              pm1 := toUInt16 (fp.round val.MassPM1)
              pm25 := toUInt16 (fp.round val.MassPM2)
              pm4 := toUInt16 (fp.round val.MassPM4)
              pm10 := toUInt16 (fp.round val.MassPM10) } with dataReady := true }) := by
  simp only [sps30ReadStore, unitRegister_pm25, unitRegister_pm10, gt_iff_lt, registerAll_cons,
    registerAll_nil]

theorem sps30ReadStore_uartStep (hd : Header) (fp : Fpu) (val : Sps30Values) (s x : Sensors)
    (hf : FlagsKept s x) (he : x.errors = s.errors) (hd1 : x.dataReady = s.dataReady)
    (hr : RegistryKept s x) :
    UartStep hd s (sps30ReadStore hd fp val x) ∧
      ((sps30ReadStore hd fp val x).1 = true → (sps30ReadStore hd fp val x).2.dataReady = true) := by
  have hu := hd_units_mem hd
  obtain ⟨f1, f2, f3, f4, f5, f6⟩ := hf
  rw [sps30ReadStore_eq]
  split
  · rename_i h
    refine ⟨⟨by simp [FlagsKept, f1, f2, f3, f4, f5, f6], ?_, Or.inr (Or.inl ?_)⟩,
      fun h => absurd h (by simp)⟩
    · exact ErrRel.onSensorError _ (by simp [he]) (by decide)
    · refine ⟨rfl, by simp [hd1], by simpa using h.1, by simpa using h.2,
        [hd.PM1, hd.PM25, hd.PM4, hd.PM10], by simp [hu], ?_⟩
      simp only [RegistryKept, onSensorError_units_registered,
        onSensorError_units_registered_count]
      exact RegistryKept.registerAll hd _ ⟨hr.1, hr.2⟩
  · refine ⟨⟨by simp [FlagsKept, f1, f2, f3, f4, f5, f6], ErrRel.same (by simp [he]),
      Or.inr (Or.inr ⟨rfl, [hd.PM1, hd.PM25, hd.PM4, hd.PM10], by simp, by simp [hu], ?_⟩)⟩,
      fun _ => rfl⟩
    exact RegistryKept.registerAll hd _ ⟨hr.1, hr.2⟩

theorem sps30Read_uartStep (hd : Header) (fp : Fpu) (s : Sensors) :
    UartStep hd s (sps30Read hd fp s) ∧
      ((sps30Read hd fp s).1 = true → (sps30Read hd fp s).2.dataReady = true) := by
  have h1 := sps30ReadStart_frame s
  have h2 := sps30ReadLoop_frame 5 0 (sps30ReadStart s).2
  unfold sps30Read
  simp only
  split
  · rcases hr : sps30ReadLoop 5 0 (sps30ReadStart s).2 with ⟨_ | val, s2⟩
    · rw [hr] at h2
      simp only at h2 ⊢
      refine ⟨⟨?_, ErrRel.same ?_, Or.inl ⟨rfl, ?_, ⟨?_, ?_⟩, ?_, ?_⟩⟩, fun h => absurd h (by simp)⟩
      all_goals rw [h2, h1]
      exact FlagsKept.refl_flags s
    · rw [hr] at h2
      simp only at h2 ⊢
      apply sps30ReadStore_uartStep
      all_goals rw [h2, h1]
      · exact FlagsKept.refl_flags s
      · exact RegistryKept.refl_registry s
  · refine ⟨⟨?_, ErrRel.same ?_, Or.inl ⟨rfl, ?_, ⟨?_, ?_⟩, ?_, ?_⟩⟩, fun h => absurd h (by simp)⟩
    all_goals rw [h1]
    exact FlagsKept.refl_flags s

theorem CO2Mhz19Read_uartStep (hd : Header) (fp : Fpu) (s : Sensors) :
    UartStep hd s (CO2Mhz19Read hd fp s) := by
  have hu := hd_units_mem hd
  unfold CO2Mhz19Read
  simp only
  split
  · refine ⟨?_, ErrRel.same ?_, Or.inr (Or.inr ⟨rfl, [hd.CO2, hd.CO2TEMP], by simp,
      by simp [hu], ?_⟩)⟩
    · split <;> simp [FlagsKept, CO2correctionAlt]
    · split <;> simp [CO2correctionAlt]
    · simp only [registerAll_cons, registerAll_nil]
      apply RegistryKept.unitRegister
      apply RegistryKept.unitRegister
      split <;> exact ⟨rfl, rfl⟩
  · exact ⟨FlagsKept.refl_flags s, ErrRel.same rfl, Or.inl ⟨rfl, rfl, ⟨rfl, rfl⟩, rfl, rfl⟩⟩

theorem CO2CM1106Read_uartStep (hd : Header) (fp : Fpu) (s : Sensors) :
    UartStep hd s (CO2CM1106Read hd fp s) := by
  have hu := hd_units_mem hd
  unfold CO2CM1106Read
  simp only
  split
  · refine ⟨?_, ErrRel.same ?_, Or.inr (Or.inr ⟨rfl, [hd.CO2], by simp, by simp [hu], ?_⟩)⟩
    · split <;> simp [FlagsKept, CO2correctionAlt]
    · split <;> simp [CO2correctionAlt]
    · simp only [registerAll_cons, registerAll_nil]
      apply RegistryKept.unitRegister
      split <;> exact ⟨rfl, rfl⟩
  · exact ⟨FlagsKept.refl_flags s, ErrRel.same rfl, Or.inl ⟨rfl, rfl, ⟨rfl, rfl⟩, rfl, rfl⟩⟩

theorem senseAirS8Read_uartStep (hd : Header) (fp : Fpu) (s : Sensors) :
    UartStep hd s (senseAirS8Read hd fp s) := by
  have hu := hd_units_mem hd
  unfold senseAirS8Read
  simp only
  split
  · refine ⟨?_, ErrRel.same ?_, Or.inr (Or.inr ⟨rfl, [hd.CO2], by simp, by simp [hu], ?_⟩)⟩
    · split <;> simp [FlagsKept, CO2correctionAlt]
    · split <;> simp [CO2correctionAlt]
    · simp only [registerAll_cons, registerAll_nil]
      apply RegistryKept.unitRegister
      split <;> exact ⟨rfl, rfl⟩
  · exact ⟨FlagsKept.refl_flags s, ErrRel.same rfl, Or.inl ⟨rfl, rfl, ⟨rfl, rfl⟩, rfl, rfl⟩⟩

theorem pmSensorRead_uartStep (hd : Header) (fp : Fpu) (s : Sensors) :
    UartStep hd s (pmSensorRead hd fp s) := by
  unfold pmSensorRead
  split
  · exact pmGenericRead_uartStep hd s
  · split
    · exact pmPanasonicRead_uartStep hd s
    · split
      · exact (sps30Read_uartStep hd fp s).1
      · split
        · exact pmSDS011Read_uartStep hd s
        · split
          · exact CO2Mhz19Read_uartStep hd fp s
          · split
            · exact CO2CM1106Read_uartStep hd fp s
            · split
              · exact senseAirS8Read_uartStep hd fp s
              · exact ⟨FlagsKept.refl_flags s, ErrRel.same rfl,
                  Or.inl ⟨rfl, rfl, ⟨rfl, rfl⟩, rfl, rfl⟩⟩

/-! ## The I2C reads and one cycle of the loop: lemmas -/

theorem dhtFrame_trans {s t u : Sensors}
    (h1 : ∃ (a : Option Nat) (b : List Nat) (c : List (Option (Flt × Flt))) (d e : Flt),
      t = { s with
          measurement_timestamp := a
          millis := b
          dht_sensor := c
          dhttemp := d
          dhthumi := e })
    (h2 : ∃ (a : Option Nat) (b : List Nat) (c : List (Option (Flt × Flt))) (d e : Flt),
      u = { t with
          measurement_timestamp := a
          millis := b
          dht_sensor := c
          dhttemp := d
          dhthumi := e }) :
    ∃ (a : Option Nat) (b : List Nat) (c : List (Option (Flt × Flt))) (d e : Flt),
      u = { s with
          measurement_timestamp := a
          millis := b
          dht_sensor := c
          dhttemp := d
          dhthumi := e } := by
  obtain ⟨a, b, c, d, e, rfl⟩ := h1
  obtain ⟨a2, b2, c2, d2, e2, rfl⟩ := h2
  exact ⟨a2, b2, c2, d2, e2, rfl⟩

theorem dhtTimestamp_frame (s : Sensors) :
    ∃ (a : Option Nat) (b : List Nat) (c : List (Option (Flt × Flt))) (d e : Flt),
      (dhtTimestamp s).2 =
        { s with
          measurement_timestamp := a
          millis := b
          dht_sensor := c
          dhttemp := d
          dhthumi := e } := by
  unfold dhtTimestamp
  split
  · rename_i t ht
    exact ⟨some t, s.millis, s.dht_sensor, s.dhttemp, s.dhthumi, by rw [← ht]⟩
  · exact ⟨_, s.millis.tail, s.dht_sensor, s.dhttemp, s.dhthumi, rfl⟩

theorem millis_frame (s : Sensors) :
    ∃ (a : Option Nat) (b : List Nat) (c : List (Option (Flt × Flt))) (d e : Flt),
      (millis s).2 =
        { s with
          measurement_timestamp := a
          millis := b
          dht_sensor := c
          dhttemp := d
          dhthumi := e } :=
  ⟨s.measurement_timestamp, s.millis.tail, s.dht_sensor, s.dhttemp, s.dhthumi, rfl⟩

theorem dhtMeasure_frame (s : Sensors) :
    ∃ (a : Option Nat) (b : List Nat) (c : List (Option (Flt × Flt))) (d e : Flt),
      (dhtMeasure s).2 =
        { s with
          measurement_timestamp := a
          millis := b
          dht_sensor := c
          dhttemp := d
          dhthumi := e } := by
  unfold dhtMeasure
  split
  · exact ⟨_, s.millis.tail, s.dht_sensor.tail, _, _, rfl⟩
  · exact ⟨s.measurement_timestamp, s.millis, s.dht_sensor.tail, s.dhttemp, s.dhthumi, rfl⟩

theorem dhtIsReady_frame (s : Sensors) :
    ∃ (a : Option Nat) (b : List Nat) (c : List (Option (Flt × Flt))) (d e : Flt),
      (dhtIsReady s).2 =
        { s with
          measurement_timestamp := a
          millis := b
          dht_sensor := c
          dhttemp := d
          dhthumi := e } := by
  have h1 := dhtFrame_trans (dhtTimestamp_frame s) (millis_frame (dhtTimestamp s).2)
  unfold dhtIsReady
  simp only
  split
  · exact dhtFrame_trans h1 (dhtMeasure_frame _)
  · exact h1

theorem I2cStep.idle {hd : Header} {s t : Sensors} (hf : FlagsKept s t)
    (he : t.errors = s.errors) (hr : RegistryKept s t) (hd1 : t.dataReady = s.dataReady)
    (h25 : t.pm25 = s.pm25) (h10 : t.pm10 = s.pm10) : I2cStep hd s t :=
  ⟨hf, he, Or.inl ⟨hr, hd1, h25, h10⟩⟩

theorem I2cStep.acted {hd : Header} {s x : Sensors} (us : List Nat) (hne : us ≠ [])
    (hus : ∀ u ∈ us, u ∈ hd.units) (hf : FlagsKept s x) (he : x.errors = s.errors)
    (hr : RegistryKept s x) (hd1 : x.dataReady = true) :
    I2cStep hd s (registerAll hd us x) := by
  obtain ⟨f1, f2, f3, f4, f5, f6⟩ := hf
  refine ⟨by simp [FlagsKept, f1, f2, f3, f4, f5, f6], by simp [he],
    Or.inr ⟨by simp [hd1], us, hne, hus, RegistryKept.registerAll hd us hr⟩⟩

theorem dhtRead_i2cStep (hd : Header) (fp : Fpu) (s : Sensors) :
    I2cStep hd s (dhtRead hd fp s) := by
  have hu := hd_units_mem hd
  obtain ⟨a, b, c, d, e, hf⟩ := dhtIsReady_frame s
  unfold dhtRead
  simp only
  split
  · refine I2cStep.acted [hd.TEMP, hd.HUM] (by simp) (by simp [hu]) ?_ ?_ ?_ rfl
    · rw [hf]; exact FlagsKept.refl_flags s
    · rw [hf]
    · rw [hf]; exact RegistryKept.refl_registry s
  · refine I2cStep.idle ?_ ?_ ?_ ?_ ?_ ?_
    all_goals rw [hf]
    · exact FlagsKept.refl_flags s
    · exact RegistryKept.refl_registry s

theorem am2320Read_i2cStep (hd : Header) (fp : Fpu) (s : Sensors) :
    I2cStep hd s (am2320Read hd fp s) := by
  have hu := hd_units_mem hd
  unfold am2320Read
  simp only
  split
  · split
    · split
      · exact I2cStep.idle (FlagsKept.refl_flags s) rfl (RegistryKept.refl_registry s) rfl rfl rfl
      · exact I2cStep.idle (FlagsKept.refl_flags s) rfl (RegistryKept.refl_registry s) rfl rfl rfl
    · refine I2cStep.acted [hd.TEMP, hd.HUM] (by simp) (by simp [hu]) ?_ ?_ ?_ rfl
      · split <;> exact FlagsKept.refl_flags s
      · split <;> rfl
      · split <;> exact RegistryKept.refl_registry s
  · exact I2cStep.idle (FlagsKept.refl_flags s) rfl (RegistryKept.refl_registry s) rfl rfl rfl

theorem bme280Read_i2cStep (hd : Header) (fp : Fpu) (s : Sensors) :
    I2cStep hd s (bme280Read hd fp s) := by
  have hu := hd_units_mem hd
  unfold bme280Read
  simp only
  split
  · exact I2cStep.idle (FlagsKept.refl_flags s) rfl (RegistryKept.refl_registry s) rfl rfl rfl
  · exact I2cStep.acted [hd.TEMP, hd.HUM] (by simp) (by simp [hu]) (FlagsKept.refl_flags s) rfl
      (RegistryKept.refl_registry s) rfl

theorem bmp280Read_i2cStep (hd : Header) (fp : Fpu) (s : Sensors) :
    I2cStep hd s (bmp280Read hd fp s) := by
  have hu := hd_units_mem hd
  unfold bmp280Read
  simp only
  split
  · exact I2cStep.idle (FlagsKept.refl_flags s) rfl (RegistryKept.refl_registry s) rfl rfl rfl
  · exact I2cStep.acted [hd.TEMP, hd.PRESS, hd.ALT] (by simp) (by simp [hu]) (FlagsKept.refl_flags s)
      rfl (RegistryKept.refl_registry s) rfl

theorem bme680Read_i2cStep (hd : Header) (fp : Fpu) (s : Sensors) :
    I2cStep hd s (bme680Read hd fp s) := by
  have hu := hd_units_mem hd
  unfold bme680Read
  simp only
  split
  · exact I2cStep.idle (FlagsKept.refl_flags s) rfl (RegistryKept.refl_registry s) rfl rfl rfl
  · split
    · split
      · exact I2cStep.idle (FlagsKept.refl_flags s) rfl (RegistryKept.refl_registry s) rfl rfl rfl
      · exact I2cStep.acted [hd.TEMP, hd.HUM, hd.PRESS, hd.GAS] (by simp) (by simp [hu])
          (FlagsKept.refl_flags s) rfl (RegistryKept.refl_registry s) rfl
    · exact I2cStep.idle (FlagsKept.refl_flags s) rfl (RegistryKept.refl_registry s) rfl rfl rfl

theorem aht10Read_i2cStep (hd : Header) (fp : Fpu) (s : Sensors) :
    I2cStep hd s (aht10Read hd fp s) := by
  have hu := hd_units_mem hd
  unfold aht10Read
  simp only
  split
  · split <;> exact I2cStep.idle (FlagsKept.refl_flags s) rfl (RegistryKept.refl_registry s) rfl rfl rfl
  · refine I2cStep.acted [hd.TEMP, hd.HUM] (by simp) (by simp [hu]) ?_ ?_ ?_ rfl
    · split <;> exact FlagsKept.refl_flags s
    · split <;> rfl
    · split <;> exact RegistryKept.refl_registry s

theorem sht31Read_i2cStep (hd : Header) (fp : Fpu) (s : Sensors) :
    I2cStep hd s (sht31Read hd fp s) := by
  have hu := hd_units_mem hd
  unfold sht31Read
  simp only
  split
  · split <;> exact I2cStep.idle (FlagsKept.refl_flags s) rfl (RegistryKept.refl_registry s) rfl rfl rfl
  · refine I2cStep.acted [hd.TEMP, hd.HUM] (by simp) (by simp [hu]) ?_ ?_ ?_ rfl
    · split <;> exact FlagsKept.refl_flags s
    · split <;> rfl
    · split <;> exact RegistryKept.refl_registry s

theorem CO2scd30Read_i2cStep (hd : Header) (s : Sensors) :
    I2cStep hd s (CO2scd30Read hd s) := by
  have hu := hd_units_mem hd
  unfold CO2scd30Read
  simp only
  split
  · exact I2cStep.acted [hd.CO2, hd.CO2TEMP, hd.CO2HUM] (by simp) (by simp [hu])
      (FlagsKept.refl_flags s) rfl (RegistryKept.refl_registry s) rfl
  · exact I2cStep.idle (FlagsKept.refl_flags s) rfl (RegistryKept.refl_registry s) rfl rfl rfl

theorem CO2scd4xRead_i2cStep (hd : Header) (s : Sensors) :
    I2cStep hd s (CO2scd4xRead hd s) := by
  have hu := hd_units_mem hd
  unfold CO2scd4xRead
  split
  · simp only
    split
    · exact I2cStep.acted [hd.CO2, hd.CO2TEMP, hd.CO2HUM] (by simp) (by simp [hu])
        (FlagsKept.refl_flags s) rfl (RegistryKept.refl_registry s) rfl
    · exact I2cStep.idle (FlagsKept.refl_flags s) rfl (RegistryKept.refl_registry s) rfl rfl rfl
  · exact I2cStep.idle (FlagsKept.refl_flags s) rfl (RegistryKept.refl_registry s) rfl rfl rfl

theorem PMGCJA5Read_i2cStep (hd : Header) (s : Sensors) :
    I2cStep hd s (PMGCJA5Read hd s) := by
  have hu := hd_units_mem hd
  unfold PMGCJA5Read
  split
  · exact I2cStep.acted [hd.PM1, hd.PM25, hd.PM10] (by simp) (by simp [hu])
      (FlagsKept.refl_flags s) rfl (RegistryKept.refl_registry s) rfl
  · exact I2cStep.idle (FlagsKept.refl_flags s) rfl (RegistryKept.refl_registry s) rfl rfl rfl

theorem registerAll_append (hd : Header) (us vs : List Nat) (s : Sensors) :
    registerAll hd (us ++ vs) s = registerAll hd vs (registerAll hd us s) := by
  unfold registerAll
  rw [List.foldl_append]

theorem I2cStep.trans_i2c {hd : Header} {s t u : Sensors} (h1 : I2cStep hd s t)
    (h2 : I2cStep hd t u) : I2cStep hd s u := by
  obtain ⟨f1, e1, c1⟩ := h1
  obtain ⟨f2, e2, c2⟩ := h2
  refine ⟨f1.trans_flags f2, e2.trans e1, ?_⟩
  rcases c1 with ⟨r1, d1, p1, q1⟩ | ⟨d1, us, hne, hus, r1⟩
  · rcases c2 with ⟨r2, d2, p2, q2⟩ | ⟨d2, vs, hne2, hvs, r2⟩
    · exact Or.inl ⟨r1.trans_registry r2, d2.trans d1, p2.trans p1, q2.trans q1⟩
    · exact Or.inr ⟨d2, vs, hne2, hvs, (RegistryKept.registerAll hd vs r1).trans_registry r2⟩
  · rcases c2 with ⟨r2, d2, p2, q2⟩ | ⟨d2, vs, hne2, hvs, r2⟩
    · exact Or.inr ⟨d2.trans d1, us, hne, hus, r1.trans_registry r2⟩
    · refine Or.inr ⟨d2, us ++ vs, by simp [hne], ?_, ?_⟩
      · intro x hx
        rcases List.mem_append.mp hx with h | h
        · exact hus x h
        · exact hvs x h
      · rw [registerAll_append]
        exact (RegistryKept.registerAll hd vs r1).trans_registry r2

theorem loopI2C_i2cStep (hd : Header) (fp : Fpu) (s : Sensors) :
    I2cStep hd s (loopI2C hd fp s) := by
  unfold loopI2C
  exact (((((((((dhtRead_i2cStep hd fp s).trans_i2c (am2320Read_i2cStep hd fp _)).trans_i2c
    (bme280Read_i2cStep hd fp _)).trans_i2c (bmp280Read_i2cStep hd fp _)).trans_i2c
    (bme680Read_i2cStep hd fp _)).trans_i2c (aht10Read_i2cStep hd fp _)).trans_i2c
    (sht31Read_i2cStep hd fp _)).trans_i2c (CO2scd30Read_i2cStep hd _)).trans_i2c
    (CO2scd4xRead_i2cStep hd _)).trans_i2c (PMGCJA5Read_i2cStep hd _)

theorem CycleRel.refl_cycle (hd : Header) (s : Sensors) : CycleRel hd s s :=
  ⟨[], by simp, RegistryKept.refl_registry s, fun h => Or.inl h, fun _ => Or.inl rfl⟩

theorem CycleRel.uart {hd : Header} {s : Sensors} {r : Bool × Sensors}
    (h : UartStep hd s r) : CycleRel hd s { r.2 with dataReady := r.1 } := by
  obtain ⟨-, -, c⟩ := h
  rcases c with ⟨h1, -, hr, -, -⟩ | ⟨h1, -, h25, h10, us, hus, hr⟩ | ⟨h1, us, hne, hus, hr⟩
  · exact ⟨[], by simp, hr, fun h => absurd (h1.symm.trans h) (by simp), fun _ => Or.inl rfl⟩
  · exact ⟨us, hus, hr, fun h => absurd (h1.symm.trans h) (by simp),
      fun _ => Or.inr ⟨h25, h10⟩⟩
  · exact ⟨us, hus, hr, fun _ => Or.inr hne, fun h => absurd (h1.symm.trans h) (by simp)⟩

theorem CycleRel.i2c {hd : Header} {s t u : Sensors} (h1 : CycleRel hd s t)
    (h2 : I2cStep hd t u) : CycleRel hd s u := by
  obtain ⟨us, hus, hr, ht, hf⟩ := h1
  obtain ⟨-, -, c⟩ := h2
  rcases c with ⟨r2, d2, p2, q2⟩ | ⟨d2, vs, hne, hvs, r2⟩
  · refine ⟨us, hus, hr.trans_registry r2, fun h => ht (d2 ▸ h), fun h => ?_⟩
    rw [p2, q2]
    exact hf (d2 ▸ h)
  · refine ⟨us ++ vs, ?_, ?_, fun _ => Or.inr (by simp [hne]),
      fun h => absurd (d2.symm.trans h) (by simp)⟩
    · intro x hx
      rcases List.mem_append.mp hx with h | h
      · exact hus x h
      · exact hvs x h
    · rw [registerAll_append]
      exact (RegistryKept.registerAll hd vs hr).trans_registry r2

theorem CycleRel.sps {hd : Header} {s t : Sensors} {r : Bool × Sensors}
    (h1 : CycleRel hd s t) (h2 : UartStep hd t r) (h3 : r.1 = true → r.2.dataReady = true) :
    CycleRel hd s r.2 := by
  obtain ⟨us, hus, hr, ht, hf⟩ := h1
  obtain ⟨-, -, c⟩ := h2
  rcases c with ⟨b1, d2, r2, p2, q2⟩ | ⟨b1, d2, h25, h10, vs, hvs, r2⟩ | ⟨b1, vs, hne, hvs, r2⟩
  · refine ⟨us, hus, hr.trans_registry r2, fun h => ht (d2 ▸ h), fun h => ?_⟩
    rw [p2, q2]
    exact hf (d2 ▸ h)
  · refine ⟨us ++ vs, ?_, ?_, fun h => ?_, fun _ => Or.inr ⟨h25, h10⟩⟩
    · intro x hx
      rcases List.mem_append.mp hx with h | h
      · exact hus x h
      · exact hvs x h
    · rw [registerAll_append]
      exact (RegistryKept.registerAll hd vs hr).trans_registry r2
    · rcases ht (d2 ▸ h) with h | h
      · exact Or.inl h
      · exact Or.inr (by simp [h])
  · refine ⟨us ++ vs, ?_, ?_, fun _ => Or.inr (by simp [hne]),
      fun h => absurd ((h3 b1).symm.trans h) (by simp)⟩
    · intro x hx
      rcases List.mem_append.mp hx with h | h
      · exact hus x h
      · exact hvs x h
    · rw [registerAll_append]
      exact (RegistryKept.registerAll hd vs hr).trans_registry r2

theorem loopStart_facts (hd : Header) (s : Sensors) :
    FlagsKept s (loopStart hd s) ∧ (loopStart hd s).errors = s.errors ∧
      (loopStart hd s).dataReady = false ∧ RegShape hd [] (loopStart hd s) ∧
      PmKept s (loopStart hd s) :=
  ⟨⟨rfl, rfl, rfl, rfl, rfl, rfl⟩, rfl, rfl, regShape_reset hd _, ⟨rfl, rfl, rfl, rfl⟩⟩

theorem ErrRel.flags {s t u : Sensors} (h : ErrRel s t) (he : u.errors = t.errors) :
    ErrRel s u := by
  obtain ⟨e, h1, h2, h3⟩ := h
  exact ⟨e, he.trans h1, h2, h3⟩

theorem loopReads_rel (hd : Header) (fp : Fpu) (s : Sensors) :
    CycleRel hd (loopStart hd s) (loopReads hd fp s) ∧ FlagsKept s (loopReads hd fp s) ∧
      ErrRel s (loopReads hd fp s) := by
  obtain ⟨f0, e0, -, -, -⟩ := loopStart_facts hd s
  unfold loopReads loopUart
  by_cases hi : (loopStart hd s).i2conly = true
  · rw [if_pos hi]
    have hs := loopI2C_i2cStep hd fp (loopStart hd s)
    have hc := CycleRel.i2c (CycleRel.refl_cycle hd (loopStart hd s)) hs
    obtain ⟨f1, e1, -⟩ := hs
    unfold loopSps30
    split
    · have hu := sps30Read_uartStep hd fp (loopI2C hd fp (loopStart hd s))
      refine ⟨CycleRel.sps hc hu.1 hu.2, (f0.trans_flags f1).trans_flags hu.1.1, ?_⟩
      obtain ⟨e, h1, h2, h3⟩ := hu.1.2.1
      exact ⟨e, by rw [h1, e1, e0], h2, h3⟩
    · exact ⟨hc, f0.trans_flags f1, ErrRel.same (e1.trans e0)⟩
  · rw [if_neg hi]
    have hu := pmSensorRead_uartStep hd fp (loopStart hd s)
    have hc0 := CycleRel.uart hu
    have hs := loopI2C_i2cStep hd fp
      { (pmSensorRead hd fp (loopStart hd s)).2 with
        dataReady := (pmSensorRead hd fp (loopStart hd s)).1 }
    have hc := CycleRel.i2c hc0 hs
    obtain ⟨f1, e1, -⟩ := hs
    have f2 : FlagsKept s { (pmSensorRead hd fp (loopStart hd s)).2 with
        dataReady := (pmSensorRead hd fp (loopStart hd s)).1 } := f0.trans_flags hu.1
    have hi2 : ¬ ((loopI2C hd fp { (pmSensorRead hd fp (loopStart hd s)).2 with
        dataReady := (pmSensorRead hd fp (loopStart hd s)).1 }).i2conly = true ∧
        (loopI2C hd fp { (pmSensorRead hd fp (loopStart hd s)).2 with
          dataReady := (pmSensorRead hd fp (loopStart hd s)).1 }).dev_uart_type = SSPS30) := by
      intro h
      apply hi
      have := (f2.trans_flags f1).2.2.2.1
      rw [f0.2.2.2.1, ← this]
      exact h.1
    unfold loopSps30
    rw [if_neg hi2]
    refine ⟨hc, f2.trans_flags f1, ?_⟩
    obtain ⟨e, h1, h2, h3⟩ := hu.2.1
    exact ⟨e, by rw [e1]; show (pmSensorRead hd fp (loopStart hd s)).2.errors = _; rw [h1, e0],
      h2, h3⟩

/-! ## One cycle of the loop: the count at the dispatch -/

theorem isUnitRegistered_registerAll (hd : Header) (V : Finset Nat) (vs : List Nat) (u : Nat)
    (h256 : ∀ x ∈ V, x < 256) (hcard : V.card ≤ hd.MAX_UNITS_SUPPORTED) (hu : u ∈ V)
    (hvs : ∀ v ∈ vs, v ∈ V) (s : Sensors) (hi : RegInv hd V s)
    (hr : isUnitRegistered hd s u = true) :
    isUnitRegistered hd (registerAll hd vs s) u = true := by
  induction vs generalizing s with
  | nil => exact hr
  | cons v t ih =>
    rw [registerAll_cons]
    have hv := hvs v (List.mem_cons_self _ _)
    exact ih (fun x hx => hvs x (List.mem_cons_of_mem _ hx)) _
      (regInv_unitRegister hd V s v h256 hcard hv hi).1
      (isUnitRegistered_mono hd V s u v h256 hcard hu hv hi hr)

theorem registerAll_count_pos (hd : Header) (hok : hd.UnitsOk) (us : List Nat) (hne : us ≠ [])
    (hus : ∀ u ∈ us, u ∈ hd.units) (s : Sensors) (hs : RegShape hd [] s) :
    0 < (registerAll hd us s).units_registered_count := by
  obtain ⟨hz, hlen⟩ := hok
  have h256 : ∀ x ∈ hd.units.toFinset, x < 256 := fun x hx => (hz x (List.mem_toFinset.mp hx)).2
  have hcard : hd.units.toFinset.card ≤ hd.MAX_UNITS_SUPPORTED :=
    le_trans (List.toFinset_card_le _) hlen
  have hV : ∀ u ∈ us, u ∈ hd.units.toFinset := fun u hu => List.mem_toFinset.mpr (hus u hu)
  have hi : RegInv hd hd.units.toFinset s := ⟨[], hs, List.nodup_nil, by simp⟩
  cases us with
  | nil => exact absurd rfl hne
  | cons u t =>
    rw [registerAll_cons]
    have hu := hV u (List.mem_cons_self _ _)
    have h1 := regInv_unitRegister hd _ s u h256 hcard hu hi
    have hr := isUnitRegistered_registerAll hd _ t u h256 hcard hu
      (fun x hx => hV x (List.mem_cons_of_mem _ hx)) _ h1.1 h1.2
    obtain ⟨l, hl, -, -⟩ := regInv_registerAll hd _ t h256 hcard
      (fun x hx => hV x (List.mem_cons_of_mem _ hx)) _ h1.1
    rcases (isUnitRegistered_shape hd l _ u hl).mp hr with h | ⟨h, -⟩
    · rw [hl.2.1]
      exact List.length_pos_of_mem h
    · exact absurd h (hz u (hus u (List.mem_cons_self _ _))).1

theorem loopDispatch_frame (s : Sensors) :
    loopDispatch s =
      { s with data_calls := (loopDispatch s).data_calls, errors := (loopDispatch s).errors } := by
  unfold loopDispatch
  split
  · rfl
  · split <;> rfl

theorem loopReads_count (hd : Header) (fp : Fpu) (s : Sensors) :
    ((loopReads hd fp s).dataReady = true → hd.UnitsOk →
        0 < (loopReads hd fp s).units_registered_count) ∧
      ((loopReads hd fp s).dataReady = false →
        (loopReads hd fp s).units_registered_count = 0 ∨
          (1000 < (loopReads hd fp s).pm25 ∧ 1000 < (loopReads hd fp s).pm10)) := by
  obtain ⟨⟨us, hus, hr, ht, hf⟩, -, -⟩ := loopReads_rel hd fp s
  obtain ⟨-, -, hd0, hs0, -⟩ := loopStart_facts hd s
  constructor
  · intro h hok
    rcases ht h with h1 | h1
    · rw [hd0] at h1
      exact absurd h1 (by simp)
    · rw [hr.2]
      exact registerAll_count_pos hd hok us h1 hus _ hs0
  · intro h
    rcases hf h with h1 | h1
    · left
      rw [hr.2, h1]
      exact hs0.2.1
    · exact Or.inr h1

/-! ## The end of a cycle: the error callback and the count -/

/-- C14 (amended): in a cycle of `loop` that comes to the dispatch with `dataReady` not
set, an error callback being installed, the callback is invoked with
"[W][SLIB] No data from any sensor!" once, as the last invocation of the cycle; before it
the reads of the cycle invoked the callback at most once, with a message of their own; and
the cycle ends with `units_registered_count == 0` unless a PM read left `pm25` and `pm10`
both above 1000. -/
theorem loop_no_data (hd : Header) (fp : Fpu) (s : Sensors) (hcb : s.onErrorCb = true)
    (hnd : (loopReads hd fp s).dataReady = false) :
    (loopCycle hd fp s).errors =
        (loopReads hd fp s).errors ++ ["[W][SLIB] No data from any sensor!"] ∧
      (∃ e : List String, (loopReads hd fp s).errors = s.errors ++ e ∧ e.length ≤ 1 ∧
        "[W][SLIB] No data from any sensor!" ∉ e) ∧
      ((loopCycle hd fp s).units_registered_count = 0 ∨
        (1000 < (loopReads hd fp s).pm25 ∧ 1000 < (loopReads hd fp s).pm10)) := by
  obtain ⟨-, hfl, herr⟩ := loopReads_rel hd fp s
  have hcb2 : (loopReads hd fp s).onErrorCb = true := hfl.1.trans hcb
  have hdisp : loopDispatch (loopReads hd fp s) =
      { loopReads hd fp s with
        errors := (loopReads hd fp s).errors ++ ["[W][SLIB] No data from any sensor!"] } := by
    simp [loopDispatch, hnd, hcb2]
  have hcyc : (loopCycle hd fp s).errors =
      (loopReads hd fp s).errors ++ ["[W][SLIB] No data from any sensor!"] ∧
      (loopCycle hd fp s).units_registered_count =
        (loopReads hd fp s).units_registered_count := by
    unfold loopCycle
    simp only [hdisp]
    split
    · exact ⟨rfl, rfl⟩
    · exact ⟨rfl, rfl⟩
  refine ⟨hcyc.1, herr, ?_⟩
  rw [hcyc.2]
  exact (loopReads_count hd fp s).2 hnd

set_option maxRecDepth 100000 in
theorem loop_no_data_witness :
    (loopCycle Header.sample Fpu.exact (Sensors.detected SDS011 "SDS011" [])).errors =
        (loopReads Header.sample Fpu.exact (Sensors.detected SDS011 "SDS011" [])).errors ++
          ["[W][SLIB] No data from any sensor!"] ∧
      (loopCycle Header.sample Fpu.exact
        (Sensors.detected SDS011 "SDS011" [])).units_registered_count = 0 :=
  have h := loop_no_data Header.sample Fpu.exact (Sensors.detected SDS011 "SDS011" [])
    (by decide) (by decide)
  ⟨h.1, by decide⟩

set_option maxRecDepth 100000 in
/-- C14, the claim as stated fails.  With a Panasonic device selected and a silent UART
every read of the cycle fails and the error callback is invoked twice, by
`pmPanasonicRead` and then by `loop`.  With a Generic device whose frame carries 1024 and
1024 the read fails on its range guard after registering PM25 and PM10: the cycle ends
with a count of 2, and again with two invocations. -/
theorem loop_no_data_two_errors :
    (loopReads Header.sample Fpu.exact (Sensors.detected Panasonic "PANASONIC" [])).dataReady =
        false ∧
      (loopCycle Header.sample Fpu.exact (Sensors.detected Panasonic "PANASONIC" [])).errors =
        ["[E][SLIB] PANASONIC invalid sensor header!", "[W][SLIB] No data from any sensor!"] ∧
      (loopReads Header.sample Fpu.exact
        (Sensors.detected Auto "GENERIC" [genericFrame 4 0 4 0])).dataReady = false ∧
      (loopCycle Header.sample Fpu.exact
        (Sensors.detected Auto "GENERIC" [genericFrame 4 0 4 0])).errors =
        ["[E][SLIB] UART PMGENERIC out of range pm25 > 1000",
          "[W][SLIB] No data from any sensor!"] ∧
      (loopCycle Header.sample Fpu.exact
        (Sensors.detected Auto "GENERIC" [genericFrame 4 0 4 0])).units_registered_count = 2 := by
  decide

/-- C15 (amended): at the point where `loop` dispatches its callbacks, `dataReady` set
implies `units_registered_count > 0` (the twelve units having non-zero ordinals that fit a
slot, and the array a slot for each); and `dataReady` not set implies
`units_registered_count == 0` unless a PM read failed on its range guard, having
registered its units and left `pm25` and `pm10` both above 1000. -/
theorem loop_dataReady_count (hd : Header) (fp : Fpu) (s : Sensors) (hok : hd.UnitsOk) :
    ((loopReads hd fp s).dataReady = true → 0 < (loopReads hd fp s).units_registered_count) ∧
      ((loopReads hd fp s).dataReady = false →
        0 < (loopReads hd fp s).units_registered_count →
          1000 < (loopReads hd fp s).pm25 ∧ 1000 < (loopReads hd fp s).pm10) := by
  refine ⟨fun h => (loopReads_count hd fp s).1 h hok, fun h hpos => ?_⟩
  rcases (loopReads_count hd fp s).2 h with h0 | h1
  · omega
  · exact h1

set_option maxRecDepth 100000 in
theorem loop_dataReady_count_witness :
    (loopReads Header.sample Fpu.exact
        (Sensors.detected Auto "GENERIC" [genericFrame 1 244 0 100])).dataReady = true ∧
      0 < (loopReads Header.sample Fpu.exact
        (Sensors.detected Auto "GENERIC" [genericFrame 1 244 0 100])).units_registered_count :=
  ⟨by decide, (loop_dataReady_count Header.sample Fpu.exact
    (Sensors.detected Auto "GENERIC" [genericFrame 1 244 0 100])
    (by unfold Header.UnitsOk; decide)).1 (by decide)⟩

set_option maxRecDepth 100000 in
/-- C15, the claim as stated fails: an SDS011 frame that carries 10250 and 10250, tenths
of a microgram, is decoded to 1025 and 1025; `pmSDS011Read` registers PM25 and PM10 and
answers false, so that `loop` dispatches with `dataReady` false and a count of 2. -/
theorem loop_dataReady_false_count_two :
    (loopReads Header.sample Fpu.exact
        (Sensors.detected SDS011 "SDS011" [sds011Frame 0x0A 0x28 0x0A 0x28])).dataReady = false ∧
      (loopReads Header.sample Fpu.exact
        (Sensors.detected SDS011 "SDS011"
          [sds011Frame 0x0A 0x28 0x0A 0x28])).units_registered_count = 2 ∧
      (loopReads Header.sample Fpu.exact
        (Sensors.detected SDS011 "SDS011" [sds011Frame 0x0A 0x28 0x0A 0x28])).pm25 = 1025 := by
  decide

/-! ## The UART reads: the range guard and the registry of a failed read -/

theorem pmGenericRead_false (hd : Header) (s : Sensors) (h : (pmGenericRead hd s).1 = false) :
    RegistryKept s (pmGenericRead hd s).2 ∨
      (1000 < (pmGenericRead hd s).2.pm25 ∧ 1000 < (pmGenericRead hd s).2.pm10 ∧
        RegistryKept (registerAll hd [hd.PM25, hd.PM10] s) (pmGenericRead hd s).2) := by
  by_cases h0 : charAt hd (hwSerialRead hd 32 s).1 0 = 66
  · by_cases h1 : charAt hd (hwSerialRead hd 32 s).1 1 = 77
    · rw [pmGenericRead_decoded hd s h0 h1] at h ⊢
      split at h
      · rename_i hr
        rw [if_pos hr]
        refine Or.inr ⟨by simpa using hr.1, by simpa using hr.2, ?_⟩
        simp only [RegistryKept, onSensorError_units_registered,
          onSensorError_units_registered_count]
        exact RegistryKept.registerAll hd _ ⟨rfl, rfl⟩
      · exact absurd h (by simp)
    · left
      simp only [pmGenericRead, h0, h1, if_true, if_false]
      simp [RegistryKept, hwSerialRead]
  · left
    simp only [pmGenericRead, h0, if_false]
    simp [RegistryKept, hwSerialRead]

theorem pmPanasonicRead_false (hd : Header) (s : Sensors)
    (h : (pmPanasonicRead hd s).1 = false) :
    RegistryKept s (pmPanasonicRead hd s).2 ∨
      (2000 < (pmPanasonicRead hd s).2.pm25 ∧ 2000 < (pmPanasonicRead hd s).2.pm10 ∧
        RegistryKept (registerAll hd [hd.PM1, hd.PM25, hd.PM10] s) (pmPanasonicRead hd s).2) := by
  by_cases h0 : charAt hd (hwSerialRead hd 32 s).1 0 = 2
  · rw [pmPanasonicRead_decoded hd s h0] at h ⊢
    split at h
    · rename_i hr
      rw [if_pos hr]
      refine Or.inr ⟨by simpa using hr.1, by simpa using hr.2, ?_⟩
      simp only [RegistryKept, onSensorError_units_registered,
        onSensorError_units_registered_count]
      exact RegistryKept.registerAll hd _ ⟨rfl, rfl⟩
    · exact absurd h (by simp)
  · left
    simp only [pmPanasonicRead, h0, if_false]
    simp [RegistryKept, hwSerialRead]

theorem pmSDS011Read_false (hd : Header) (s : Sensors) (h : (pmSDS011Read hd s).1 = false) :
    RegistryKept s (pmSDS011Read hd s).2 ∨
      (1000 < (pmSDS011Read hd s).2.pm25 ∧ 1000 < (pmSDS011Read hd s).2.pm10 ∧
        RegistryKept (registerAll hd [hd.PM25, hd.PM10] s) (pmSDS011Read hd s).2) := by
  by_cases h0 : charAt hd (hwSerialRead hd 10 s).1 0 = 170
  · by_cases h1 : charAt hd (hwSerialRead hd 10 s).1 1 = 192
    · rw [pmSDS011Read_decoded hd s h0 h1] at h ⊢
      split at h
      · rename_i hr
        rw [if_pos hr]
        refine Or.inr ⟨by simpa using hr.1, by simpa using hr.2, ?_⟩
        simp only [RegistryKept, onSensorError_units_registered,
          onSensorError_units_registered_count]
        exact RegistryKept.registerAll hd _ ⟨rfl, rfl⟩
      · exact absurd h (by simp)
    · left
      simp only [pmSDS011Read, h0, h1, if_true, if_false]
      simp [RegistryKept, hwSerialRead]
  · left
    simp only [pmSDS011Read, h0, if_false]
    simp [RegistryKept, hwSerialRead]

theorem sps30ReadStore_false (hd : Header) (fp : Fpu) (val : Sps30Values) (s x : Sensors)
    (hr : RegistryKept s x) (h : (sps30ReadStore hd fp val x).1 = false) :
    1000 < (sps30ReadStore hd fp val x).2.pm25 ∧ 1000 < (sps30ReadStore hd fp val x).2.pm10 ∧
      RegistryKept (registerAll hd [hd.PM1, hd.PM25, hd.PM4, hd.PM10] s)
        (sps30ReadStore hd fp val x).2 := by
  rw [sps30ReadStore_eq] at h ⊢
  split at h
  · rename_i hg
    rw [if_pos hg]
    refine ⟨by simpa using hg.1, by simpa using hg.2, ?_⟩
    simp only [RegistryKept, onSensorError_units_registered,
      onSensorError_units_registered_count]
    exact RegistryKept.registerAll hd _ ⟨hr.1, hr.2⟩
  · exact absurd h (by simp)

theorem sps30Read_false (hd : Header) (fp : Fpu) (s : Sensors)
    (h : (sps30Read hd fp s).1 = false) :
    RegistryKept s (sps30Read hd fp s).2 ∨
      (1000 < (sps30Read hd fp s).2.pm25 ∧ 1000 < (sps30Read hd fp s).2.pm10 ∧
        RegistryKept (registerAll hd [hd.PM1, hd.PM25, hd.PM4, hd.PM10] s)
          (sps30Read hd fp s).2) := by
  have h1 := sps30ReadStart_frame s
  have h2 := sps30ReadLoop_frame 5 0 (sps30ReadStart s).2
  unfold sps30Read at h ⊢
  simp only at h ⊢
  split
  · rename_i hst
    rw [if_pos hst] at h
    rcases hr : sps30ReadLoop 5 0 (sps30ReadStart s).2 with ⟨_ | val, s2⟩
    · rw [hr] at h2
      simp only at h2 ⊢
      left
      rw [h2, h1]
      exact ⟨rfl, rfl⟩
    · rw [hr] at h2 h
      simp only at h2 h ⊢
      right
      apply sps30ReadStore_false hd fp val s s2 _ h
      rw [h2, h1]
      exact ⟨rfl, rfl⟩
  · left
    simp only
    rw [h1]
    exact ⟨rfl, rfl⟩

/-- C16 (amended): when the header test of a PM read passes, the read stores the values
it decodes in `pm25` and `pm10` before it looks at their range; when both are then above
the ceiling (1000; 2000 for Panasonic) it returns false and hands its out-of-range message
to the error callback, if one is installed, and the decoded values stay in `pm25` and
`pm10`. -/
theorem pm_reads_out_of_range (hd : Header) (s : Sensors) :
    (charAt hd (hwSerialRead hd 32 s).1 0 = 66 → charAt hd (hwSerialRead hd 32 s).1 1 = 77 →
        (pmGenericRead hd s).2.pm25 =
            toUInt16 (charAt hd (hwSerialRead hd 32 s).1 6 * 256 +
              charAt hd (hwSerialRead hd 32 s).1 7) ∧
          (pmGenericRead hd s).2.pm10 =
            toUInt16 (charAt hd (hwSerialRead hd 32 s).1 8 * 256 +
              charAt hd (hwSerialRead hd 32 s).1 9) ∧
          (1000 < (pmGenericRead hd s).2.pm25 → 1000 < (pmGenericRead hd s).2.pm10 →
            (pmGenericRead hd s).1 = false ∧
              (pmGenericRead hd s).2.errors =
                if s.onErrorCb then
                  s.errors ++ ["[E][SLIB] UART PMGENERIC out of range pm25 > 1000"]
                else s.errors)) ∧
      (charAt hd (hwSerialRead hd 32 s).1 0 = 2 →
        (pmPanasonicRead hd s).2.pm25 =
            toUInt16 (charAt hd (hwSerialRead hd 32 s).1 6 * 256 +
              charAt hd (hwSerialRead hd 32 s).1 5) ∧
          (pmPanasonicRead hd s).2.pm10 =
            toUInt16 (charAt hd (hwSerialRead hd 32 s).1 10 * 256 +
              charAt hd (hwSerialRead hd 32 s).1 9) ∧
          (2000 < (pmPanasonicRead hd s).2.pm25 → 2000 < (pmPanasonicRead hd s).2.pm10 →
            (pmPanasonicRead hd s).1 = false ∧
              (pmPanasonicRead hd s).2.errors =
                if s.onErrorCb then
                  s.errors ++ ["[E][SLIB] PANASONIC out of range pm25 > 2000"]
                else s.errors)) ∧
      (charAt hd (hwSerialRead hd 10 s).1 0 = 170 → charAt hd (hwSerialRead hd 10 s).1 1 = 192 →
        (pmSDS011Read hd s).2.pm25 =
            toUInt16 ((charAt hd (hwSerialRead hd 10 s).1 3 * 256 +
              charAt hd (hwSerialRead hd 10 s).1 2).tdiv 10) ∧
          (pmSDS011Read hd s).2.pm10 =
            toUInt16 ((charAt hd (hwSerialRead hd 10 s).1 5 * 256 +
              charAt hd (hwSerialRead hd 10 s).1 4).tdiv 10) ∧
          (1000 < (pmSDS011Read hd s).2.pm25 → 1000 < (pmSDS011Read hd s).2.pm10 →
            (pmSDS011Read hd s).1 = false ∧
              (pmSDS011Read hd s).2.errors =
                if s.onErrorCb then s.errors ++ ["[E][SLIB] SDS011 out of range pm25 > 1000"]
                else s.errors)) := by
  refine ⟨fun h0 h1 => ?_, fun h0 => ?_, fun h0 h1 => ?_⟩
  · rw [pmGenericRead_decoded hd s h0 h1]
    split
    · refine ⟨by simp, by simp, fun _ _ => ⟨rfl, ?_⟩⟩
      rw [onSensorError_errors]
      simp [hwSerialRead]
    · rename_i hg
      refine ⟨by simp, by simp, fun a b => absurd ⟨?_, ?_⟩ hg⟩
      · simpa using a
      · simpa using b
  · rw [pmPanasonicRead_decoded hd s h0]
    split
    · refine ⟨by simp, by simp, fun _ _ => ⟨rfl, ?_⟩⟩
      rw [onSensorError_errors]
      simp [hwSerialRead]
    · rename_i hg
      refine ⟨by simp, by simp, fun a b => absurd ⟨?_, ?_⟩ hg⟩
      · simpa using a
      · simpa using b
  · rw [pmSDS011Read_decoded hd s h0 h1]
    split
    · refine ⟨by simp, by simp, fun _ _ => ⟨rfl, ?_⟩⟩
      rw [onSensorError_errors]
      simp [hwSerialRead]
    · rename_i hg
      refine ⟨by simp, by simp, fun a b => absurd ⟨?_, ?_⟩ hg⟩
      · simpa using a
      · simpa using b

set_option maxRecDepth 100000 in
theorem pm_reads_out_of_range_witness :
    (pmSDS011Read Header.sample
        (Sensors.detected SDS011 "SDS011" [sds011Frame 0x0A 0x28 0x0A 0x28])).1 = false ∧
      (pmSDS011Read Header.sample
        (Sensors.detected SDS011 "SDS011" [sds011Frame 0x0A 0x28 0x0A 0x28])).2.errors =
        ["[E][SLIB] SDS011 out of range pm25 > 1000"] :=
  have h := ((pm_reads_out_of_range Header.sample
    (Sensors.detected SDS011 "SDS011" [sds011Frame 0x0A 0x28 0x0A 0x28])).2.2
      (by decide) (by decide)).2.2 (by decide) (by decide)
  ⟨h.1, h.2.trans (by decide)⟩

set_option maxRecDepth 100000 in
/-- C16, the claim as stated fails: with 12 and 15 stored and an error callback installed,
a Generic frame that carries 1024 and 1024 makes `pmGenericRead` return false and invoke
the callback, and leaves 1024 and 1024 in `pm25` and `pm10`. -/
theorem pmGenericRead_out_of_range_stored :
    (pmGenericRead Header.sample
        { Sensors.detected Auto "GENERIC" [genericFrame 4 0 4 0] with
          pm25 := 12
          pm10 := 15 }).1 = false ∧
      (pmGenericRead Header.sample
        { Sensors.detected Auto "GENERIC" [genericFrame 4 0 4 0] with
          pm25 := 12
          pm10 := 15 }).2.errors = ["[E][SLIB] UART PMGENERIC out of range pm25 > 1000"] ∧
      (pmGenericRead Header.sample
        { Sensors.detected Auto "GENERIC" [genericFrame 4 0 4 0] with
          pm25 := 12
          pm10 := 15 }).2.pm25 = 1024 ∧
      (pmGenericRead Header.sample
        { Sensors.detected Auto "GENERIC" [genericFrame 4 0 4 0] with
          pm25 := 12
          pm10 := 15 }).2.pm10 = 1024 := by
  decide

/-- C17 (amended): when `CO2Mhz19Read`, `CO2CM1106Read` or `senseAirS8Read` returns false
the unit registry, array and count, is as it was before the call.  When `pmGenericRead`,
`pmPanasonicRead`, `pmSDS011Read` or `sps30Read` returns false the registry is as it was
before the call, except when the read failed on its range guard: then `pm25` and `pm10`
are both above the ceiling (1000; 2000 for Panasonic) and the registry is the one before
the call with the units of the read registered. -/
theorem uart_reads_false_registry (hd : Header) (fp : Fpu) (s : Sensors) :
    ((CO2Mhz19Read hd fp s).1 = false → RegistryKept s (CO2Mhz19Read hd fp s).2) ∧
      ((CO2CM1106Read hd fp s).1 = false → RegistryKept s (CO2CM1106Read hd fp s).2) ∧
      ((senseAirS8Read hd fp s).1 = false → RegistryKept s (senseAirS8Read hd fp s).2) ∧
      ((pmGenericRead hd s).1 = false →
        RegistryKept s (pmGenericRead hd s).2 ∨
          (1000 < (pmGenericRead hd s).2.pm25 ∧ 1000 < (pmGenericRead hd s).2.pm10 ∧
            RegistryKept (registerAll hd [hd.PM25, hd.PM10] s) (pmGenericRead hd s).2)) ∧
      ((pmPanasonicRead hd s).1 = false →
        RegistryKept s (pmPanasonicRead hd s).2 ∨
          (2000 < (pmPanasonicRead hd s).2.pm25 ∧ 2000 < (pmPanasonicRead hd s).2.pm10 ∧
            RegistryKept (registerAll hd [hd.PM1, hd.PM25, hd.PM10] s)
              (pmPanasonicRead hd s).2)) ∧
      ((pmSDS011Read hd s).1 = false →
        RegistryKept s (pmSDS011Read hd s).2 ∨
          (1000 < (pmSDS011Read hd s).2.pm25 ∧ 1000 < (pmSDS011Read hd s).2.pm10 ∧
            RegistryKept (registerAll hd [hd.PM25, hd.PM10] s) (pmSDS011Read hd s).2)) ∧
      ((sps30Read hd fp s).1 = false →
        RegistryKept s (sps30Read hd fp s).2 ∨
          (1000 < (sps30Read hd fp s).2.pm25 ∧ 1000 < (sps30Read hd fp s).2.pm10 ∧
            RegistryKept (registerAll hd [hd.PM1, hd.PM25, hd.PM4, hd.PM10] s)
              (sps30Read hd fp s).2)) := by
  refine ⟨fun h => ?_, fun h => ?_, fun h => ?_, pmGenericRead_false hd s,
    pmPanasonicRead_false hd s, pmSDS011Read_false hd s, sps30Read_false hd fp s⟩
  · unfold CO2Mhz19Read at h ⊢
    simp only at h ⊢
    split at h
    · exact absurd h (by simp)
    · rename_i hg
      rw [if_neg hg]
      exact ⟨rfl, rfl⟩
  · unfold CO2CM1106Read at h ⊢
    simp only at h ⊢
    split at h
    · exact absurd h (by simp)
    · rename_i hg
      rw [if_neg hg]
      exact ⟨rfl, rfl⟩
  · unfold senseAirS8Read at h ⊢
    simp only at h ⊢
    split at h
    · exact absurd h (by simp)
    · rename_i hg
      rw [if_neg hg]
      exact ⟨rfl, rfl⟩

set_option maxRecDepth 100000 in
theorem uart_reads_false_registry_witness :
    RegistryKept (Sensors.detected Mhz19 "MHZ19" [])
        (CO2Mhz19Read Header.sample Fpu.exact (Sensors.detected Mhz19 "MHZ19" [])).2 ∧
      RegistryKept (Sensors.detected Auto "GENERIC" [[0x42, 0x00]])
        (pmGenericRead Header.sample (Sensors.detected Auto "GENERIC" [[0x42, 0x00]])).2 :=
  ⟨(uart_reads_false_registry Header.sample Fpu.exact (Sensors.detected Mhz19 "MHZ19" [])).1
      (by decide!),
    ((uart_reads_false_registry Header.sample Fpu.exact
      (Sensors.detected Auto "GENERIC" [[0x42, 0x00]])).2.2.2.1 (by decide)).resolve_right
        (fun h => absurd h.1 (by decide))⟩

set_option maxRecDepth 100000 in
/-- C17, the claim as stated fails: a Panasonic frame that carries 2001 and 2001 makes
`pmPanasonicRead` return false with PM1, PM25 and PM10 registered: the count goes from 0
to 3. -/
theorem pmPanasonicRead_false_registers :
    (Sensors.detected Panasonic "PANASONIC"
        [[0x02, 0, 0, 0, 0, 0xD1, 0x07, 0, 0, 0xD1, 0x07] ++
          List.replicate 21 0]).units_registered_count = 0 ∧
      (pmPanasonicRead Header.sample
        (Sensors.detected Panasonic "PANASONIC"
          [[0x02, 0, 0, 0, 0, 0xD1, 0x07, 0, 0, 0xD1, 0x07] ++ List.replicate 21 0])).1 = false ∧
      (pmPanasonicRead Header.sample
        (Sensors.detected Panasonic "PANASONIC"
          [[0x02, 0, 0, 0, 0, 0xD1, 0x07, 0, 0, 0xD1, 0x07] ++
            List.replicate 21 0])).2.units_registered_count = 3 ∧
      (pmPanasonicRead Header.sample
        (Sensors.detected Panasonic "PANASONIC"
          [[0x02, 0, 0, 0, 0, 0xD1, 0x07, 0, 0, 0xD1, 0x07] ++
            List.replicate 21 0])).2.units_registered.take 3 = [1, 2, 4] := by
  decide

/-! ## The reset at the end of a cycle -/

/-- C13 (defect of the code): when a cycle of `loop` ends with
`units_registered_count == 0`, `resetAllVariables` has set `pm1`, `pm25`, `pm10`, `CO2Val`,
`CO2humi`, `CO2temp`, `humi`, `temp`, `pres`, `alt` and `gas` to zero, and has left `pm4`
as the reads of the cycle left it: `pm4` is the one reading that the reset forgets. -/
theorem loopCycle_reset_keeps_pm4 (hd : Header) (fp : Fpu) (s : Sensors)
    (h : (loopCycle hd fp s).units_registered_count = 0) :
    (loopCycle hd fp s).pm1 = 0 ∧ (loopCycle hd fp s).pm25 = 0 ∧
      (loopCycle hd fp s).pm10 = 0 ∧ (loopCycle hd fp s).CO2Val = 0 ∧
      (loopCycle hd fp s).CO2humi = Flt.val 0 ∧ (loopCycle hd fp s).CO2temp = Flt.val 0 ∧
      (loopCycle hd fp s).humi = Flt.val 0 ∧ (loopCycle hd fp s).temp = Flt.val 0 ∧
      (loopCycle hd fp s).pres = Flt.val 0 ∧ (loopCycle hd fp s).alt = Flt.val 0 ∧
      (loopCycle hd fp s).gas = Flt.val 0 ∧
      (loopCycle hd fp s).pm4 = (loopReads hd fp s).pm4 := by
  have hp : (loopDispatch (loopReads hd fp s)).pm4 = (loopReads hd fp s).pm4 := by
    rw [loopDispatch_frame]
  unfold loopCycle at h ⊢
  simp only at h ⊢
  split
  · exact ⟨rfl, rfl, rfl, rfl, rfl, rfl, rfl, rfl, rfl, rfl, rfl, hp⟩
  · rename_i hn
    rw [if_neg hn] at h
    exact absurd h hn

set_option maxRecDepth 100000 in
theorem loopCycle_reset_keeps_pm4_witness :
    (loopCycle Header.sample Fpu.exact Sensors.withSps30).pm4 = 9 ∧
      (loopCycle Header.sample Fpu.exact
        (loopCycle Header.sample Fpu.exact Sensors.withSps30)).units_registered_count = 0 ∧
      (loopCycle Header.sample Fpu.exact
        (loopCycle Header.sample Fpu.exact Sensors.withSps30)).pm1 = 0 ∧
      (loopCycle Header.sample Fpu.exact
        (loopCycle Header.sample Fpu.exact Sensors.withSps30)).pm4 = 9 :=
  have h := loopCycle_reset_keeps_pm4 Header.sample Fpu.exact
    (loopCycle Header.sample Fpu.exact Sensors.withSps30) (by decide!)
  ⟨by decide!, by decide!, h.1, h.2.2.2.2.2.2.2.2.2.2.2.trans (by decide!)⟩

/-! ## The CO2 reads: a failed read -/

/-- C18 (defect of the code): `CO2Mhz19Read`, `CO2CM1106Read` and `senseAirS8Read` write
the answer of the sensor to `CO2Val` before they test it, so that a read that returns
false has overwritten `CO2Val` with 0 (and `CO2Mhz19Read` has overwritten `CO2temp` with
the temperature it read, less `toffset`); `CO2scd30Read`, which reads into a local
variable first, leaves `CO2Val`, `CO2temp` and `CO2humi` as they were when the sensor
reports 0. -/
theorem co2_reads_failed_overwrite (hd : Header) (fp : Fpu) (s : Sensors) :
    ((CO2Mhz19Read hd fp s).1 = false →
        (CO2Mhz19Read hd fp s).2.CO2Val = 0 ∧
          (CO2Mhz19Read hd fp s).2.CO2temp =
            fp.fsub (s.mhz19.headD Mhz19Answer.absent).temperature s.toffset) ∧
      ((CO2CM1106Read hd fp s).1 = false → (CO2CM1106Read hd fp s).2.CO2Val = 0) ∧
      ((senseAirS8Read hd fp s).1 = false → (senseAirS8Read hd fp s).2.CO2Val = 0) ∧
      ((s.scd30.headD Scd30Answer.absent).co2 % 65536 = 0 →
        (CO2scd30Read hd s).CO2Val = s.CO2Val ∧ (CO2scd30Read hd s).CO2temp = s.CO2temp ∧
          (CO2scd30Read hd s).CO2humi = s.CO2humi) := by
  refine ⟨fun h => ?_, fun h => ?_, fun h => ?_, fun h => ?_⟩
  · unfold CO2Mhz19Read at h ⊢
    simp only at h ⊢
    split at h
    · exact absurd h (by simp)
    · rename_i hg
      rw [if_neg hg]
      exact ⟨by simpa using hg, rfl⟩
  · unfold CO2CM1106Read at h ⊢
    simp only at h ⊢
    split at h
    · exact absurd h (by simp)
    · rename_i hg
      rw [if_neg hg]
      simpa using hg
  · unfold senseAirS8Read at h ⊢
    simp only at h ⊢
    split at h
    · exact absurd h (by simp)
    · rename_i hg
      rw [if_neg hg]
      simpa using hg
  · unfold CO2scd30Read
    simp only
    rw [if_neg (by omega)]
    exact ⟨rfl, rfl, rfl⟩

theorem co2_reads_failed_overwrite_witness :
    ({ Sensors.detected Mhz19 "MHZ19" [] with CO2Val := 600 } : Sensors).CO2Val = 600 ∧
      (CO2Mhz19Read Header.sample Fpu.exact
        { Sensors.detected Mhz19 "MHZ19" [] with CO2Val := 600 }).1 = false ∧
      (CO2Mhz19Read Header.sample Fpu.exact
        { Sensors.detected Mhz19 "MHZ19" [] with CO2Val := 600 }).2.CO2Val = 0 ∧
      (CO2scd30Read Header.sample
        { Sensors.detected Mhz19 "MHZ19" [] with CO2Val := 600 }).CO2Val = 600 :=
  have h := co2_reads_failed_overwrite Header.sample Fpu.exact
    { Sensors.detected Mhz19 "MHZ19" [] with CO2Val := 600 }
  ⟨rfl, by decide, (h.1 (by decide)).1, (h.2.2.2 (by decide)).1⟩
/-! ## The I2C reads: the humidity unit and the temperature offset -/

/-- C19 (amended): `am2320Read`, `sht31Read` and `aht10Read` register TEMP and HUM
together, and exactly when the temperature reading is not the sentinel (NaN; 255 for the
AHT10) and, for the AM2320, the driver reported `AM232X_OK`; otherwise the registry is as
before.  The humidity sentinel guards the store only: `humi` takes the humidity reading
unless it is the sentinel, and keeps its value when it is. -/
theorem hum_registered_with_temp (hd : Header) (fp : Fpu) (s : Sensors) :
    (((s.am2320.headD Am2320Answer.absent).ok = true →
          (s.am2320.headD Am2320Answer.absent).temperature.isnan = false →
          RegistryKept (registerAll hd [hd.TEMP, hd.HUM] s) (am2320Read hd fp s) ∧
            (am2320Read hd fp s).humi =
              if (s.am2320.headD Am2320Answer.absent).humidity.isnan then s.humi
              else (s.am2320.headD Am2320Answer.absent).humidity) ∧
        ((s.am2320.headD Am2320Answer.absent).ok = false ∨
            (s.am2320.headD Am2320Answer.absent).temperature.isnan = true →
          RegistryKept s (am2320Read hd fp s))) ∧
      (((s.sht31.headD HumTempAnswer.absentNan).temperature.isnan = false →
          RegistryKept (registerAll hd [hd.TEMP, hd.HUM] s) (sht31Read hd fp s) ∧
            (sht31Read hd fp s).humi =
              if (s.sht31.headD HumTempAnswer.absentNan).humidity.isnan then s.humi
              else (s.sht31.headD HumTempAnswer.absentNan).humidity) ∧
        ((s.sht31.headD HumTempAnswer.absentNan).temperature.isnan = true →
          RegistryKept s (sht31Read hd fp s))) ∧
      (((s.aht10.headD HumTempAnswer.absent255).temperature.eqNum 255 = false →
          RegistryKept (registerAll hd [hd.TEMP, hd.HUM] s) (aht10Read hd fp s) ∧
            (aht10Read hd fp s).humi =
              if (s.aht10.headD HumTempAnswer.absent255).humidity.eqNum 255 then s.humi
              else (s.aht10.headD HumTempAnswer.absent255).humidity) ∧
        ((s.aht10.headD HumTempAnswer.absent255).temperature.eqNum 255 = true →
          RegistryKept s (aht10Read hd fp s))) := by
  refine ⟨⟨fun hok ht => ?_, fun h => ?_⟩, ⟨fun ht => ?_, fun ht => ?_⟩,
    ⟨fun ht => ?_, fun ht => ?_⟩⟩
  · unfold am2320Read
    simp only [hok, ht, if_true, Bool.false_eq_true, if_false, registerAll_cons,
      registerAll_nil, unitRegister_humi]
    refine ⟨?_, ?_⟩
    · apply RegistryKept.unitRegister
      apply RegistryKept.unitRegister
      split <;> exact ⟨rfl, rfl⟩
    · split <;> rfl
  · unfold am2320Read
    simp only
    rcases h with h | h
    · simp only [h, Bool.false_eq_true, if_false]
      exact ⟨rfl, rfl⟩
    · simp only [h, if_true]
      split
      · split <;> exact ⟨rfl, rfl⟩
      · exact ⟨rfl, rfl⟩
  · unfold sht31Read
    simp only [ht, Bool.false_eq_true, if_false, registerAll_cons, registerAll_nil,
      unitRegister_humi]
    refine ⟨?_, ?_⟩
    · apply RegistryKept.unitRegister
      apply RegistryKept.unitRegister
      split <;> exact ⟨rfl, rfl⟩
    · split <;> rfl
  · unfold sht31Read
    simp only [ht, if_true]
    split <;> exact ⟨rfl, rfl⟩
  · unfold aht10Read
    simp only [ht, Bool.false_eq_true, if_false, registerAll_cons, registerAll_nil,
      unitRegister_humi]
    refine ⟨?_, ?_⟩
    · apply RegistryKept.unitRegister
      apply RegistryKept.unitRegister
      split <;> exact ⟨rfl, rfl⟩
    · split <;> rfl
  · unfold aht10Read
    simp only [ht, if_true]
    split <;> exact ⟨rfl, rfl⟩

theorem hum_registered_with_temp_witness :
    RegistryKept
        (registerAll Header.sample [Header.sample.TEMP, Header.sample.HUM]
          { Sensors.fresh 20 with am2320 := [⟨true, Flt.val 40, Flt.val 21⟩] })
        (am2320Read Header.sample Fpu.exact
          { Sensors.fresh 20 with am2320 := [⟨true, Flt.val 40, Flt.val 21⟩] }) ∧
      (am2320Read Header.sample Fpu.exact
        { Sensors.fresh 20 with am2320 := [⟨true, Flt.val 40, Flt.val 21⟩] }).humi = Flt.val 40 :=
  have h := (hum_registered_with_temp Header.sample Fpu.exact
    { Sensors.fresh 20 with am2320 := [⟨true, Flt.val 40, Flt.val 21⟩] }).1.1
      (by decide) (by decide)
  ⟨h.1, h.2.trans (by decide)⟩

/-- C19, the claim as stated fails: an AM2320 that answers `AM232X_OK` with humidity NaN
and temperature 21 gets HUM registered, `humi` keeping the 33 it held; and so does an
AHT10 that answers humidity 255 and temperature 21. -/
theorem hum_registered_on_sentinel :
    isUnitRegistered Header.sample
        { Sensors.fresh 20 with
          humi := Flt.val 33
          am2320 := [⟨true, Flt.nan, Flt.val 21⟩] } Header.sample.HUM = false ∧
      isUnitRegistered Header.sample
        (am2320Read Header.sample Fpu.exact
          { Sensors.fresh 20 with
            humi := Flt.val 33
            am2320 := [⟨true, Flt.nan, Flt.val 21⟩] }) Header.sample.HUM = true ∧
      (am2320Read Header.sample Fpu.exact
        { Sensors.fresh 20 with
          humi := Flt.val 33
          am2320 := [⟨true, Flt.nan, Flt.val 21⟩] }).humi = Flt.val 33 ∧
      isUnitRegistered Header.sample
        (aht10Read Header.sample Fpu.exact
          { Sensors.fresh 20 with
            humi := Flt.val 33
            aht10 := [⟨Flt.val 255, Flt.val 21⟩] }) Header.sample.HUM = true := by
  decide

theorem dhtIsReady_toffset (s : Sensors) : (dhtIsReady s).2.toffset = s.toffset := by
  obtain ⟨a, b, c, d, e, hf⟩ := dhtIsReady_frame s
  rw [hf]

/-- C20 (amended): a successful `dhtRead`, `am2320Read`, `bme280Read`, `bmp280Read`,
`bme680Read`, `aht10Read` or `sht31Read` stores in `temp` the temperature it read less
`toffset`, and `CO2Mhz19Read` stores in `CO2temp` the temperature it read less `toffset`;
a successful `CO2scd30Read` or `CO2scd4xRead` stores in `CO2temp` the temperature it read,
as it is. -/
theorem temperature_offset (hd : Header) (fp : Fpu) (s : Sensors) :
    ((dhtIsReady s).1 = true →
        (dhtRead hd fp s).temp = fp.fsub (dhtIsReady s).2.dhttemp s.toffset) ∧
      ((s.am2320.headD Am2320Answer.absent).ok = true →
        (s.am2320.headD Am2320Answer.absent).temperature.isnan = false →
        (am2320Read hd fp s).temp =
          fp.fsub (s.am2320.headD Am2320Answer.absent).temperature s.toffset) ∧
      (((s.bme280.headD Bme280Answer.absent).humidity.isnan ||
            (s.bme280.headD Bme280Answer.absent).humidity.eqNum 0 ||
            (s.bme280.headD Bme280Answer.absent).temperature.isnan) = false →
        (bme280Read hd fp s).temp =
          fp.fsub (s.bme280.headD Bme280Answer.absent).temperature s.toffset) ∧
      ((s.bmp280.headD Bmp280Answer.absent).pressure.eqNum 0 = false →
        (bmp280Read hd fp s).temp =
          fp.fsub (s.bmp280.headD Bmp280Answer.absent).temperature s.toffset) ∧
      ((s.bme680.headD Bme680Answer.absent).endTime ≠ 0 →
        (s.bme680.headD Bme680Answer.absent).endReading = true →
        (s.bme680.headD Bme680Answer.absent).temperature.eqNum 0 = false →
        (bme680Read hd fp s).temp =
          fp.fsub (s.bme680.headD Bme680Answer.absent).temperature s.toffset) ∧
      ((s.aht10.headD HumTempAnswer.absent255).temperature.eqNum 255 = false →
        (aht10Read hd fp s).temp =
          fp.fsub (s.aht10.headD HumTempAnswer.absent255).temperature s.toffset) ∧
      ((s.sht31.headD HumTempAnswer.absentNan).temperature.isnan = false →
        (sht31Read hd fp s).temp =
          fp.fsub (s.sht31.headD HumTempAnswer.absentNan).temperature s.toffset) ∧
      (CO2Mhz19Read hd fp s).2.CO2temp =
        fp.fsub (s.mhz19.headD Mhz19Answer.absent).temperature s.toffset ∧
      (0 < (s.scd30.headD Scd30Answer.absent).co2 % 65536 →
        (CO2scd30Read hd s).CO2temp = (s.scd30.headD Scd30Answer.absent).temperature) ∧
      (s.device_selected = "SCD4x" →
        (s.scd4x.headD Scd4xAnswer.absent).error % 65536 = 0 →
        (CO2scd4xRead hd s).CO2temp = (s.scd4x.headD Scd4xAnswer.absent).temperature) := by
  refine ⟨fun h => ?_, fun h1 h2 => ?_, fun h => ?_, fun h => ?_, fun h1 h2 h3 => ?_,
    fun h => ?_, fun h => ?_, ?_, fun h => ?_, fun h1 h2 => ?_⟩
  · unfold dhtRead
    simp only [h, if_true, unitRegister_temp]
    rw [dhtIsReady_toffset]
  · unfold am2320Read
    simp only [h1, h2, if_true, Bool.false_eq_true, if_false, unitRegister_temp]
    split <;> rfl
  · unfold bme280Read
    simp only [h, Bool.false_eq_true, if_false, unitRegister_temp]
  · unfold bmp280Read
    simp only [h, Bool.false_eq_true, if_false, unitRegister_temp]
  · unfold bme680Read
    simp only [h1, h2, h3, if_true, Bool.false_eq_true, if_false, unitRegister_temp]
  · unfold aht10Read
    simp only [h, Bool.false_eq_true, if_false, unitRegister_temp]
    split <;> rfl
  · unfold sht31Read
    simp only [h, Bool.false_eq_true, if_false, unitRegister_temp]
    split <;> rfl
  · unfold CO2Mhz19Read
    simp only
    split
    · simp only [unitRegister_CO2temp]
      split <;> rfl
    · rfl
  · unfold CO2scd30Read
    simp only [gt_iff_lt, h, if_true, unitRegister_CO2temp]
  · unfold CO2scd4xRead
    simp only [h1, h2, if_true, unitRegister_CO2temp]

theorem temperature_offset_witness :
    (bme280Read Header.sample Fpu.exact
        { Sensors.fresh 20 with
          toffset := Flt.val 2
          bme280 := [⟨Flt.val 40, Flt.val 25, Flt.val 1013, Flt.val 120⟩] }).temp = Flt.val 23 :=
  ((temperature_offset Header.sample Fpu.exact
    { Sensors.fresh 20 with
      toffset := Flt.val 2
      bme280 := [⟨Flt.val 40, Flt.val 25, Flt.val 1013, Flt.val 120⟩] }).2.2.1
        (by decide!)).trans (by decide!)

/-- C20, the claim as stated fails: with `toffset` 2, an SCD30 that reports 600 ppm and a
temperature of 25 leaves 25 in `CO2temp`, where the raw temperature less `toffset` is
23. -/
theorem CO2scd30Read_no_offset :
    (CO2scd30Read Header.sample
        { Sensors.fresh 20 with
          toffset := Flt.val 2
          scd30 := [⟨600, Flt.val 40, Flt.val 25⟩] }).CO2temp = Flt.val 25 ∧
      Fpu.exact.fsub (Flt.val 25)
        ({ Sensors.fresh 20 with
          toffset := Flt.val 2
          scd30 := [⟨600, Flt.val 40, Flt.val 25⟩] } : Sensors).toffset = Flt.val 23 ∧
      (CO2scd4xRead Header.sample
        { Sensors.fresh 20 with
          device_selected := "SCD4x"
          toffset := Flt.val 2
          scd4x := [⟨0, 600, Flt.val 25, Flt.val 40⟩] }).CO2temp = Flt.val 25 := by
  decide!

/-! ## The frame reader: the exhausted attempts -/

theorem hwSerialReadLoop_exhausted (hd : Header) (lenght_buffer : Nat) :
    ∀ (fuel try_sensor_read : Nat) (txtMsg : List Byte) (ser : List (List Byte)),
      try_sensor_read ≤ hd.SENSOR_RETRY → hd.SENSOR_RETRY + 1 ≤ fuel + try_sensor_read →
      (hd.SENSOR_RETRY <
          (hwSerialReadLoop hd lenght_buffer fuel try_sensor_read txtMsg ser).2.1 ↔
        (hwSerialReadLoop hd lenght_buffer fuel try_sensor_read txtMsg ser).1.length <
          lenght_buffer) := by
  intro fuel
  induction fuel with
  | zero =>
    intro t txt ser h1 h2
    omega
  | succ n ih =>
    intro t txt ser h1 h2
    simp only [hwSerialReadLoop]
    split
    · rename_i hlen
      split
      · exact ih _ _ _ (by omega) (by omega)
      · simp only
        constructor
        · intro _
          exact hlen
        · intro _
          omega
    · rename_i hlen
      simp only
      constructor
      · intro h
        omega
      · intro h
        exact absurd h hlen

/-- C28: for every `lenght_buffer` and every UART, after the loop of `hwSerialRead` the
test `try_sensor_read > SENSOR_RETRY` holds if and only if the frame returned is shorter
than `lenght_buffer`. -/
theorem hwSerialRead_exhausted_iff_short (hd : Header) (lenght_buffer : Nat)
    (ser : List (List Byte)) :
    hd.SENSOR_RETRY < (hwSerialReadRaw hd lenght_buffer ser).2.1 ↔
      (hwSerialReadRaw hd lenght_buffer ser).1.length < lenght_buffer :=
  hwSerialReadLoop_exhausted hd lenght_buffer (hd.SENSOR_RETRY + 1) 0 [] ser (Nat.zero_le _)
    (le_refl _)

/-! ## The iteration cursor after a reset -/

theorem regShape_cursor (hd : Header) (l : List Nat) (s : Sensors) (c : Nat)
    (hs : RegShape hd l s) : RegShape hd l { s with current_unit := c } :=
  hs

/-- C29 (amended): `resetUnitsRegister` leaves the cursor `current_unit` where it is.
After a reset and the registration of distinct units `us`, with the cursor left at `c`:
when `c` is at most the number of units, the next calls of `getNextUnit` return the
units from the `c`-th on, in insertion order, and then 0, which rewinds the cursor; when
`c` is that number or more, the first call returns 0 and rewinds the cursor.  The
iteration starts from the first registered unit only when `c = 0`. -/
theorem getNextUnit_after_reset (hd : Header) (us : List Nat) (s0 : Sensors) (hn : us.Nodup)
    (hz : ∀ u ∈ us, u ≠ 0 ∧ u < 256) (hlen : us.length ≤ hd.MAX_UNITS_SUPPORTED) :
    (registerAll hd us (resetUnitsRegister hd s0)).current_unit = s0.current_unit ∧
      (s0.current_unit ≤ us.length →
        (getNextUnits hd (us.length - s0.current_unit)
            (registerAll hd us (resetUnitsRegister hd s0))).1 = us.drop s0.current_unit ∧
          (getNextUnit hd
            (getNextUnits hd (us.length - s0.current_unit)
              (registerAll hd us (resetUnitsRegister hd s0))).2).1 = 0 ∧
          (getNextUnit hd
            (getNextUnits hd (us.length - s0.current_unit)
              (registerAll hd us (resetUnitsRegister hd s0))).2).2.current_unit = 0) ∧
      (us.length ≤ s0.current_unit →
        (getNextUnit hd (registerAll hd us (resetUnitsRegister hd s0))).1 = 0 ∧
          (getNextUnit hd (registerAll hd us (resetUnitsRegister hd s0))).2.current_unit = 0) := by
  have e := registerAll_distinct hd us [] (resetUnitsRegister hd s0) (regShape_reset hd s0)
    (by simpa using hn) hz (by simpa using hlen)
  simp only [List.nil_append] at e
  generalize registerAll hd us (resetUnitsRegister hd s0) = s at e ⊢
  have hs : RegShape hd us s := by
    rw [e]
    exact ⟨rfl, rfl, hlen⟩
  have hcur : s.current_unit = s0.current_unit := by
    rw [e]
    rfl
  have hz0 : ∀ x ∈ us, x ≠ 0 := fun x hx => (hz x hx).1
  refine ⟨hcur, fun hc => ?_, fun hc => ?_⟩
  · have h1 := getNextUnits_from hd us hz0 (us.length - s0.current_unit) s hs (by omega)
    have h2 := getNextUnit_end hd us { s with current_unit := us.length }
      (regShape_cursor hd us s _ hs) rfl
    rw [h1, h2, hcur]
    exact ⟨rfl, rfl, rfl⟩
  · obtain ⟨ha, -, -⟩ := hs
    have : getNextUnitScan s.units_registered (hd.MAX_UNITS_SUPPORTED - s.current_unit)
        s.current_unit = none := by
      apply getNextUnitScan_none
      intro j hj
      rw [ha, getD_zeros, List.getD_eq_default us 0 (by omega)]
    simp [getNextUnit, this]

theorem getNextUnit_after_reset_witness :
    (getNextUnits Header.sample 2
        (registerAll Header.sample
          [Header.sample.PM25, Header.sample.PM10, Header.sample.TEMP]
          (resetUnitsRegister Header.sample
            { Sensors.fresh 20 with current_unit := 1 }))).1 =
      [Header.sample.PM10, Header.sample.TEMP] :=
  ((getNextUnit_after_reset Header.sample
    [Header.sample.PM25, Header.sample.PM10, Header.sample.TEMP]
    { Sensors.fresh 20 with current_unit := 1 } (by decide) (by decide) (by decide)).2.1
      (by decide)).1

/-- C29, the claim as stated fails: after a cycle that registered PM25, PM10 and TEMP, one
call of `getNextUnit` returns PM25 and leaves the cursor at 1; after the reset and the
registration of CO2 and TEMP of the next cycle, the first call returns TEMP, the second
unit, and the call after it returns 0: CO2 is skipped. -/
theorem getNextUnit_skips_after_reset :
    (getNextUnit Header.sample
        (registerAll Header.sample
          [Header.sample.PM25, Header.sample.PM10, Header.sample.TEMP]
          (resetUnitsRegister Header.sample (Sensors.fresh 20)))).1 = Header.sample.PM25 ∧
      (getNextUnit Header.sample
        (registerAll Header.sample [Header.sample.CO2, Header.sample.TEMP]
          (resetUnitsRegister Header.sample
            (getNextUnit Header.sample
              (registerAll Header.sample
                [Header.sample.PM25, Header.sample.PM10, Header.sample.TEMP]
                (resetUnitsRegister Header.sample (Sensors.fresh 20)))).2))).1 =
        Header.sample.TEMP ∧
      (getNextUnit Header.sample
        (getNextUnit Header.sample
          (registerAll Header.sample [Header.sample.CO2, Header.sample.TEMP]
            (resetUnitsRegister Header.sample
              (getNextUnit Header.sample
                (registerAll Header.sample
                  [Header.sample.PM25, Header.sample.PM10, Header.sample.TEMP]
                  (resetUnitsRegister Header.sample (Sensors.fresh 20)))).2))).2).1 = 0 := by
  decide

/-! ## The SDS011 read -/

theorem charAt_signed_le (hd : Header) (hc : hd.char_signed = true) (f : List Byte) (i : Nat) :
    charAt hd f i ≤ 127 := by
  have hlt := byteAt_lt f i
  unfold charAt
  simp only [hc, Bool.true_and, decide_eq_true_eq]
  split <;> omega

/-- Where plain `char` is signed the test `txtMsg[0] == 170` never holds, and
`pmSDS011Read` rejects every frame. -/
theorem pmSDS011Read_signed_char_never (hd : Header) (s : Sensors)
    (hc : hd.char_signed = true) :
    (pmSDS011Read hd s).1 = false ∧ (pmSDS011Read hd s).2.pm25 = s.pm25 ∧
      (pmSDS011Read hd s).2.pm10 = s.pm10 ∧ RegistryKept s (pmSDS011Read hd s).2 := by
  have hle := charAt_signed_le hd hc (hwSerialRead hd 10 s).1 0
  have hne : ¬ charAt hd (hwSerialRead hd 10 s).1 0 = 170 := by omega
  unfold pmSDS011Read
  simp only
  rw [if_neg hne]
  exact ⟨rfl, rfl, rfl, rfl, rfl⟩

theorem hwSerialReadLoop_polls (hd : Header) (lenght_buffer : Nat) :
    ∀ (fuel try_sensor_read : Nat) (txtMsg : List Byte) (ser : List (List Byte)),
      try_sensor_read ≤ hd.SENSOR_RETRY → hd.SENSOR_RETRY + 1 ≤ fuel + try_sensor_read →
      ∃ m, try_sensor_read + m ≤ hd.SENSOR_RETRY ∧
        (hwSerialReadLoop hd lenght_buffer fuel try_sensor_read txtMsg ser).1 =
          txtMsg ++ (ser.take m).flatten ∧
        (hwSerialReadLoop hd lenght_buffer fuel try_sensor_read txtMsg ser).2.2 = ser.drop m ∧
        (hwSerialReadLoop hd lenght_buffer fuel try_sensor_read txtMsg ser).2.1 ≤
          hd.SENSOR_RETRY + 1 := by
  intro fuel
  induction fuel with
  | zero =>
    intro t txt ser h1 h2
    omega
  | succ n ih =>
    intro t txt ser h1 h2
    simp only [hwSerialReadLoop]
    split
    · split
      · rename_i ht
        obtain ⟨m, hm, e1, e2, e3⟩ := ih (t + 1) (txt ++ ser.headD []) ser.tail (by omega)
          (by omega)
        refine ⟨m + 1, by omega, ?_, ?_, e3⟩
        · rw [e1]
          cases ser with
          | nil => simp
          | cons a r => simp
        · rw [e2]
          cases ser with
          | nil => simp
          | cons a r => simp
      · exact ⟨0, by omega, by simp, by simp, by simp; omega⟩
    · exact ⟨0, by omega, by simp, by simp, by simp; omega⟩

theorem pmGenericRead_serial (hd : Header) (s : Sensors) :
    (pmGenericRead hd s).2.serial = (hwSerialRead hd 32 s).2.serial := by
  unfold pmGenericRead
  simp only
  split
  · split
    · split
      · simp
      · simp
    · simp
  · rfl

theorem pmPanasonicRead_serial (hd : Header) (s : Sensors) :
    (pmPanasonicRead hd s).2.serial = (hwSerialRead hd 32 s).2.serial := by
  unfold pmPanasonicRead
  simp only
  split
  · split
    · simp
    · simp
  · simp

theorem sensorSerialInitLoop_times (hd : Header) (pms_type : Int) (s : Sensors) :
    ∃ n, 1 ≤ n ∧ n ≤ 3 ∧
      (sensorSerialInitLoop hd pms_type 3 0 s).2 = detectTimes hd pms_type n s ∧
      (sensorSerialInitLoop hd pms_type 3 0 s).1 ≤ 3 := by
  simp only [sensorSerialInitLoop]
  split
  · exact ⟨1, by omega, by omega, rfl, by simp⟩
  · simp only [Nat.zero_lt_succ, Nat.lt_succ_self, if_true, Nat.zero_add, Nat.reduceLT]
    split
    · exact ⟨2, by omega, by omega, rfl, by simp⟩
    · split
      · exact ⟨3, by omega, by omega, rfl, by simp⟩
      · exact ⟨3, by omega, by omega, rfl, by simp⟩

/-- C22: detection terminates.  The loop of `sensorSerialInit` ends after one, two or
three calls of `pmSensorAutoDetect`, and more rounds allowed change nothing; a call of
`pmSensorAutoDetect` for an Auto request leaves the UART as one or as two frame reads
leave it; and a frame read drains the UART `m` times, with `m` at most `SENSOR_RETRY`,
returns what these drains deliver, and ends with `try_sensor_read` at most
`SENSOR_RETRY + 1`, more rounds allowed changing nothing. -/
theorem detection_terminates (hd : Header) (pms_type : Int) (s : Sensors) :
    (∀ extra, sensorSerialInitLoop hd pms_type (3 + extra) 0 s =
        sensorSerialInitLoop hd pms_type 3 0 s) ∧
      (∃ n, 1 ≤ n ∧ n ≤ 3 ∧
        (sensorSerialInitLoop hd pms_type 3 0 s).2 = detectTimes hd pms_type n s ∧
        (sensorSerialInitLoop hd pms_type 3 0 s).1 ≤ 3) ∧
      ((pmSensorAutoDetect hd Auto s).2.serial = (hwSerialRead hd 32 s).2.serial ∨
        (pmSensorAutoDetect hd Auto s).2.serial =
          (hwSerialRead hd 32 (hwSerialRead hd 32 s).2).2.serial) ∧
      (∀ (lenght_buffer extra : Nat) (ser : List (List Byte)),
        hwSerialReadLoop hd lenght_buffer (hd.SENSOR_RETRY + 1 + extra) 0 [] ser =
          hwSerialReadRaw hd lenght_buffer ser) ∧
      (∀ (lenght_buffer : Nat) (ser : List (List Byte)),
        ∃ m, m ≤ hd.SENSOR_RETRY ∧
          (hwSerialReadRaw hd lenght_buffer ser).1 = (ser.take m).flatten ∧
          (hwSerialReadRaw hd lenght_buffer ser).2.2 = ser.drop m ∧
          (hwSerialReadRaw hd lenght_buffer ser).2.1 ≤ hd.SENSOR_RETRY + 1) := by
  refine ⟨fun extra => ?_, sensorSerialInitLoop_times hd pms_type s, ?_,
    fun n extra ser => hwSerialReadRaw_fuel hd n extra ser, fun n ser => ?_⟩
  · exact sensorSerialInitLoop_fuel hd pms_type extra 3 0 s (by omega) (by omega)
  · rw [pmSensorAutoDetect_cascade hd Auto s (by decide)]
    have e1 : (pmGenericRead hd (delay 1000 s)).2.serial = (hwSerialRead hd 32 s).2.serial :=
      pmGenericRead_serial hd (delay 1000 s)
    have e2 : (pmPanasonicRead hd (delay 1000 (pmGenericRead hd (delay 1000 s)).2)).2.serial =
        (hwSerialRead hd 32 (hwSerialRead hd 32 s).2).2.serial := by
      rw [pmPanasonicRead_serial]
      show (hwSerialReadRaw hd 32 (pmGenericRead hd (delay 1000 s)).2.serial).2.2 = _
      rw [e1]
      rfl
    split
    · exact Or.inl e1
    · split
      · exact Or.inr e2
      · exact Or.inr e2
  · obtain ⟨m, hm, e1, e2, e3⟩ := hwSerialReadLoop_polls hd n (hd.SENSOR_RETRY + 1) 0 [] ser
      (Nat.zero_le _) (le_refl _)
    exact ⟨m, by omega, by simpa using e1, e2, e3⟩

/-! ## The timestamp of the loop -/

theorem sps30Read_stamp (hd : Header) (fp : Fpu) (s : Sensors) :
    (sps30Read hd fp s).2.pmLoopTimeStamp = s.pmLoopTimeStamp := by
  have hst := sps30ReadStart_frame s
  have hlp := sps30ReadLoop_frame 5 0 (sps30ReadStart s).2
  unfold sps30Read
  simp only
  split
  · rcases hr : sps30ReadLoop 5 0 (sps30ReadStart s).2 with ⟨_ | val, s2⟩
    · rw [hr] at hlp
      simp only at hlp ⊢
      rw [hlp, hst]
    · rw [hr] at hlp
      simp only at hlp ⊢
      rw [sps30ReadStore_eq]
      split
      · simp only [onSensorError_pmLoopTimeStamp, registerAll_pmLoopTimeStamp]
        rw [hlp, hst]
      · simp only [registerAll_pmLoopTimeStamp]
        rw [hlp, hst]
  · simp only
    rw [hst]

theorem pmSensorRead_stamp (hd : Header) (fp : Fpu) (s : Sensors) :
    (pmSensorRead hd fp s).2.pmLoopTimeStamp = s.pmLoopTimeStamp := by
  unfold pmSensorRead
  split
  · unfold pmGenericRead
    simp only
    split
    · split
      · split <;> simp [hwSerialRead]
      · simp [hwSerialRead]
    · rfl
  · split
    · unfold pmPanasonicRead
      simp only
      split
      · split <;> simp [hwSerialRead]
      · simp [hwSerialRead]
    · split
      · exact sps30Read_stamp hd fp s
      · split
        · unfold pmSDS011Read
          simp only
          split
          · split
            · split <;> simp [hwSerialRead]
            · simp [hwSerialRead]
          · rfl
        · split
          · unfold CO2Mhz19Read
            simp only
            split
            · simp only [unitRegister_pmLoopTimeStamp]
              split <;> rfl
            · rfl
          · split
            · unfold CO2CM1106Read
              simp only
              split
              · simp only [unitRegister_pmLoopTimeStamp]
                split <;> rfl
              · rfl
            · split
              · unfold senseAirS8Read
                simp only
                split
                · simp only [unitRegister_pmLoopTimeStamp]
                  split <;> rfl
                · rfl
              · rfl

theorem dhtRead_stamp (hd : Header) (fp : Fpu) (s : Sensors) :
    (dhtRead hd fp s).pmLoopTimeStamp = s.pmLoopTimeStamp := by
  obtain ⟨a, b, c, d, e, hf⟩ := dhtIsReady_frame s
  unfold dhtRead
  simp only
  split
  · simp only [unitRegister_pmLoopTimeStamp]
    rw [hf]
  · rw [hf]

theorem loopI2C_stamp (hd : Header) (fp : Fpu) (s : Sensors) :
    (loopI2C hd fp s).pmLoopTimeStamp = s.pmLoopTimeStamp := by
  have h1 : ∀ t, (am2320Read hd fp t).pmLoopTimeStamp = t.pmLoopTimeStamp := by
    intro t
    unfold am2320Read
    simp only
    split
    · split
      · split <;> rfl
      · simp only [unitRegister_pmLoopTimeStamp]
        split <;> rfl
    · rfl
  have h2 : ∀ t, (bme280Read hd fp t).pmLoopTimeStamp = t.pmLoopTimeStamp := by
    intro t
    unfold bme280Read
    simp only
    split
    · rfl
    · simp only [unitRegister_pmLoopTimeStamp]
  have h3 : ∀ t, (bmp280Read hd fp t).pmLoopTimeStamp = t.pmLoopTimeStamp := by
    intro t
    unfold bmp280Read
    simp only
    split
    · rfl
    · simp only [unitRegister_pmLoopTimeStamp]
  have h4 : ∀ t, (bme680Read hd fp t).pmLoopTimeStamp = t.pmLoopTimeStamp := by
    intro t
    unfold bme680Read
    simp only
    split
    · rfl
    · split
      · split
        · rfl
        · simp only [unitRegister_pmLoopTimeStamp]
      · rfl
  have h5 : ∀ t, (aht10Read hd fp t).pmLoopTimeStamp = t.pmLoopTimeStamp := by
    intro t
    unfold aht10Read
    simp only
    split
    · split <;> rfl
    · simp only [unitRegister_pmLoopTimeStamp]
      split <;> rfl
  have h6 : ∀ t, (sht31Read hd fp t).pmLoopTimeStamp = t.pmLoopTimeStamp := by
    intro t
    unfold sht31Read
    simp only
    split
    · split <;> rfl
    · simp only [unitRegister_pmLoopTimeStamp]
      split <;> rfl
  have h7 : ∀ t, (CO2scd30Read hd t).pmLoopTimeStamp = t.pmLoopTimeStamp := by
    intro t
    unfold CO2scd30Read
    simp only
    split
    · simp only [unitRegister_pmLoopTimeStamp]
    · rfl
  have h8 : ∀ t, (CO2scd4xRead hd t).pmLoopTimeStamp = t.pmLoopTimeStamp := by
    intro t
    unfold CO2scd4xRead
    split
    · simp only
      split
      · simp only [unitRegister_pmLoopTimeStamp]
      · rfl
    · rfl
  have h9 : ∀ t, (PMGCJA5Read hd t).pmLoopTimeStamp = t.pmLoopTimeStamp := by
    intro t
    unfold PMGCJA5Read
    split
    · simp only [unitRegister_pmLoopTimeStamp]
    · rfl
  unfold loopI2C
  rw [h9, h8, h7, h6, h5, h4, h3, h2, h1, dhtRead_stamp]

theorem loopCycle_stamp (hd : Header) (fp : Fpu) (s : Sensors) :
    (loopCycle hd fp s).pmLoopTimeStamp = (millis s).1 := by
  have h0 : (loopStart hd s).pmLoopTimeStamp = (millis s).1 := rfl
  have h1 : (loopUart hd fp s).pmLoopTimeStamp = (millis s).1 := by
    unfold loopUart
    split
    · exact h0
    · show (pmSensorRead hd fp (loopStart hd s)).2.pmLoopTimeStamp = _
      rw [pmSensorRead_stamp, h0]
  have h2 : (loopReads hd fp s).pmLoopTimeStamp = (millis s).1 := by
    unfold loopReads loopSps30
    split
    · rw [sps30Read_stamp, loopI2C_stamp, h1]
    · rw [loopI2C_stamp, h1]
  have h3 : (loopDispatch (loopReads hd fp s)).pmLoopTimeStamp = (millis s).1 := by
    rw [loopDispatch_frame]
    exact h2
  unfold loopCycle
  simp only
  split
  · exact h3
  · exact h3

/-- C30: `loop` starts a cycle exactly when its 32-bit test holds for the answer of
`millis()`.  When the last cycle started at the true time `T0` and `millis()` now answers
for the true time `T1`, with `T1 - T0` below `2^32` and `sample_time * 1000` in
`0 .. 2^32 - 1`, the test holds if and only if `T1 - T0 > sample_time * 1000`, also when
the clock has wrapped around in between.  A call that starts a cycle leaves in
`pmLoopTimeStamp` what its second call of `millis()` answers; a call that starts none
leaves `pmLoopTimeStamp` as it is. -/
theorem loop_cycle_start (hd : Header) (fp : Fpu) (s : Sensors) :
    (loop hd fp s =
        if loopDue (millis s).1 (millis s).2 then dhtRead hd fp (loopCycle hd fp (millis s).2)
        else dhtRead hd fp (millis s).2) ∧
      (∀ T0 T1 : Nat, T0 ≤ T1 → T1 - T0 < 4294967296 →
        s.pmLoopTimeStamp = T0 % 4294967296 → s.millis.headD 0 = T1 →
        0 ≤ s.sample_time * 1000 → s.sample_time * 1000 < 4294967296 →
        (loopDue (millis s).1 (millis s).2 = true ↔
          s.sample_time * 1000 < ((T1 - T0 : Nat) : Int))) ∧
      (loopDue (millis s).1 (millis s).2 = true →
        (loop hd fp s).pmLoopTimeStamp = (millis (millis s).2).1) ∧
      (loopDue (millis s).1 (millis s).2 = false →
        (loop hd fp s).pmLoopTimeStamp = s.pmLoopTimeStamp) := by
  refine ⟨rfl, fun T0 T1 h01 hlt hts hm h0 h1 => ?_, fun h => ?_, fun h => ?_⟩
  · have e : (millis s).1 = T1 % 4294967296 := by
      unfold millis
      simp only [hm]
    have e2 : (millis s).2.pmLoopTimeStamp = T0 % 4294967296 := hts
    have e3 : (millis s).2.sample_time = s.sample_time := rfl
    simp only [loopDue, e, e2, e3, decide_eq_true_eq, gt_iff_lt]
    have k : (T1 % 4294967296 + 4294967296 - T0 % 4294967296 % 4294967296) % 4294967296 =
        T1 - T0 := by omega
    rw [k, Int.emod_eq_of_lt h0 h1]
    omega
  · unfold loop
    simp only [h, if_true]
    rw [dhtRead_stamp, loopCycle_stamp]
  · unfold loop
    simp only [h, Bool.false_eq_true, if_false]
    rw [dhtRead_stamp]
    rfl

set_option maxRecDepth 100000 in
theorem loop_cycle_start_witness :
    loopDue (millis { Sensors.fresh 20 with
        pmLoopTimeStamp := 4294966296
        millis := [4294971297, 4294971298] }).1
        (millis { Sensors.fresh 20 with
          pmLoopTimeStamp := 4294966296
          millis := [4294971297, 4294971298] }).2 = true ∧
      (loop Header.sample Fpu.exact
        { Sensors.fresh 20 with
          pmLoopTimeStamp := 4294966296
          millis := [4294971297, 4294971298] }).pmLoopTimeStamp = 4002 :=
  have h := loop_cycle_start Header.sample Fpu.exact
    { Sensors.fresh 20 with
      pmLoopTimeStamp := 4294966296
      millis := [4294971297, 4294971298] }
  have hd := (h.2.1 4294966296 4294971297 (by decide) (by decide) (by decide) (by decide)
    (by decide) (by decide)).mpr (by decide)
  ⟨hd, (h.2.2.1 hd).trans (by decide)⟩

/-! ## The altitude correction of the CO2 reads -/

theorem toUInt16_eq_iff (x : Int) : ((toUInt16 x : Nat) : Int) = x ↔ 0 ≤ x ∧ x ≤ 65535 := by
  unfold toUInt16
  omega

theorem CO2correctionAlt_CO2Val (fp : Fpu) (s : Sensors) :
    (CO2correctionAlt fp s).CO2Val = toUInt16 (fp.round (CO2cor fp s.CO2Val s.hpa)) :=
  rfl

/-- C23, the claim as stated fails: with `altoffset` 1000 and the pressure 898.73 that
`hpaCalculation(1000)` gives in exact arithmetic, a SenseAir S8 that reports 1 ppm makes
`senseAirS8Read` return true with `CO2Val == 65464`, where the rounded corrected value is
-72. -/
theorem senseAirS8Read_stores_wrapped :
    (senseAirS8Read Header.sample Fpu.exact
        { Sensors.fresh 20 with
          altoffset := Flt.val 1000
          hpa := hpaCalculation Fpu.exact (Flt.val 1000)
          s8 := [1] }).1 = true ∧
      Fpu.exact.round (CO2cor Fpu.exact 1 (hpaCalculation Fpu.exact (Flt.val 1000))) = -72 ∧
      (senseAirS8Read Header.sample Fpu.exact
        { Sensors.fresh 20 with
          altoffset := Flt.val 1000
          hpa := hpaCalculation Fpu.exact (Flt.val 1000)
          s8 := [1] }).2.CO2Val = 65464 := by
  decide!

/-! ## The range of the corrected CO2 value -/

/-- C25 (amended): `CO2correctionAlt` makes no test of the range.  It stores the rounded
`CO2cor` converted to `uint16_t`, and what it stores is the rounded value itself exactly
when that value lies in `0 .. 65535`; a negative or too large rounded value is stored
reduced modulo 65536. -/
theorem CO2correctionAlt_unchecked (fp : Fpu) (s : Sensors) :
    (CO2correctionAlt fp s).CO2Val = toUInt16 (fp.round (CO2cor fp s.CO2Val s.hpa)) ∧
      ((((CO2correctionAlt fp s).CO2Val : Nat) : Int) = fp.round (CO2cor fp s.CO2Val s.hpa) ↔
        0 ≤ fp.round (CO2cor fp s.CO2Val s.hpa) ∧
          fp.round (CO2cor fp s.CO2Val s.hpa) ≤ 65535) ∧
      (((CO2correctionAlt fp s).CO2Val : Nat) : Int) =
        fp.round (CO2cor fp s.CO2Val s.hpa) % 65536 := by
  refine ⟨rfl, toUInt16_eq_iff _, ?_⟩
  rw [CO2correctionAlt_CO2Val]
  unfold toUInt16
  omega

/-- C25, the claim as stated fails.  In exact arithmetic `hpaCalculation(1000)` is 898.73;
with it a raw reading of 1 gives `CO2cor = -72.109...`, rounded to -72, which is stored
as 65464; and a raw reading of 65535 gives `CO2cor = 77469.8...`, rounded to 77470, which
is stored as 11934. -/
theorem CO2correctionAlt_out_of_range :
    hpaCalculation Fpu.exact (Flt.val 1000) = Flt.val 898.73 ∧
      Fpu.exact.round (CO2cor Fpu.exact 1 (hpaCalculation Fpu.exact (Flt.val 1000))) = -72 ∧
      (CO2correctionAlt Fpu.exact
        { Sensors.fresh 20 with
          CO2Val := 1
          altoffset := Flt.val 1000
          hpa := hpaCalculation Fpu.exact (Flt.val 1000) }).CO2Val = 65464 ∧
      Fpu.exact.round (CO2cor Fpu.exact 65535 (hpaCalculation Fpu.exact (Flt.val 1000))) =
        77470 ∧
      (CO2correctionAlt Fpu.exact
        { Sensors.fresh 20 with
          CO2Val := 65535
          altoffset := Flt.val 1000
          hpa := hpaCalculation Fpu.exact (Flt.val 1000) }).CO2Val = 11934 := by
  decide!

/-! ## The value of a unit -/

/-- C27 (defect of the code): the ordinals of the twelve units being distinct,
`getUnitValue` answers for PM1, PM25, PM10, PM4 and CO2 what the typed getter answers,
and for CO2HUM, CO2TEMP, HUM, TEMP, ALT and GAS the answer of the typed getter cast to
`uint32_t`; for PRESS it answers the member `hpa` cast to `uint32_t`, not the answer
`pres` of `getPressure`. -/
theorem getUnitValue_getters (hd : Header) (fp : Fpu) (s : Sensors) (hn : hd.units.Nodup) :
    getUnitValue hd fp hd.PM1 s = getPM1 s ∧
      getUnitValue hd fp hd.PM25 s = getPM25 s ∧
      getUnitValue hd fp hd.PM10 s = getPM10 s ∧
      getUnitValue hd fp hd.PM4 s = getPM4 s ∧
      getUnitValue hd fp hd.CO2 s = getCO2 s ∧
      getUnitValue hd fp hd.CO2HUM s = fp.toUInt32 (getCO2humi s) ∧
      getUnitValue hd fp hd.CO2TEMP s = fp.toUInt32 (getCO2temp s) ∧
      getUnitValue hd fp hd.HUM s = fp.toUInt32 (getHumidity s) ∧
      getUnitValue hd fp hd.TEMP s = fp.toUInt32 (getTemperature s) ∧
      getUnitValue hd fp hd.ALT s = fp.toUInt32 (getAltitude s) ∧
      getUnitValue hd fp hd.GAS s = fp.toUInt32 (getGas s) ∧
      getUnitValue hd fp hd.PRESS s = fp.toUInt32 s.hpa := by
  simp only [Header.units, List.nodup_cons, List.mem_cons, List.mem_singleton, not_or,
    List.not_mem_nil, not_false_eq_true, List.nodup_nil, and_true] at hn
  obtain ⟨⟨a1, a2, a3, a4, a5, a6, a7, a8, a9, a10, a11⟩,
    ⟨b2, b3, b4, b5, b6, b7, b8, b9, b10, b11⟩, ⟨c3, c4, c5, c6, c7, c8, c9, c10, c11⟩,
    ⟨d4, d5, d6, d7, d8, d9, d10, d11⟩, ⟨e5, e6, e7, e8, e9, e10, e11⟩,
    ⟨f6, f7, f8, f9, f10, f11⟩, ⟨g7, g8, g9, g10, g11⟩, ⟨h8, h9, h10, h11⟩,
    ⟨i9, i10, i11⟩, ⟨j10, j11⟩, k11⟩ := hn
  refine ⟨?_, ?_, ?_, ?_, ?_, ?_, ?_, ?_, ?_, ?_, ?_, ?_⟩
  all_goals
    simp [getUnitValue, getPM1, getPM25, getPM10, getPM4, getCO2, getCO2humi, getCO2temp,
      getHumidity, getTemperature, getAltitude, getGas, *, Ne.symm a1, Ne.symm a2, Ne.symm a3,
      Ne.symm a4, Ne.symm a5, Ne.symm a6, Ne.symm a7, Ne.symm a8, Ne.symm a9, Ne.symm a10,
      Ne.symm a11, Ne.symm b2, Ne.symm b3, Ne.symm b4, Ne.symm b5, Ne.symm b6, Ne.symm b7,
      Ne.symm b8, Ne.symm b9, Ne.symm b10, Ne.symm b11, Ne.symm c3, Ne.symm c4, Ne.symm c5,
      Ne.symm c6, Ne.symm c7, Ne.symm c8, Ne.symm c9, Ne.symm c10, Ne.symm c11, Ne.symm d4,
      Ne.symm d5, Ne.symm d6, Ne.symm d7, Ne.symm d8, Ne.symm d9, Ne.symm d10, Ne.symm d11,
      Ne.symm e5, Ne.symm e6, Ne.symm e7, Ne.symm e8, Ne.symm e9, Ne.symm e10, Ne.symm e11,
      Ne.symm f6, Ne.symm f7, Ne.symm f8, Ne.symm f9, Ne.symm f10, Ne.symm f11, Ne.symm g7,
      Ne.symm g8, Ne.symm g9, Ne.symm g10, Ne.symm g11, Ne.symm h8, Ne.symm h9, Ne.symm h10,
      Ne.symm h11, Ne.symm i9, Ne.symm i10, Ne.symm i11, Ne.symm j10, Ne.symm j11,
      Ne.symm k11]

theorem getUnitValue_getters_witness :
    getUnitValue Header.sample Fpu.exact Header.sample.TEMP
        (bmp280Read Header.sample Fpu.exact
          { Sensors.fresh 20 with
            bmp280 := [⟨Flt.val 21, Flt.val 1013, Flt.val 1013, Flt.val 120⟩] }) = 21 ∧
      Fpu.exact.toUInt32
        (getPressure
          (bmp280Read Header.sample Fpu.exact
            { Sensors.fresh 20 with
              bmp280 := [⟨Flt.val 21, Flt.val 1013, Flt.val 1013, Flt.val 120⟩] })) = 1013 ∧
      isUnitRegistered Header.sample
        (bmp280Read Header.sample Fpu.exact
          { Sensors.fresh 20 with
            bmp280 := [⟨Flt.val 21, Flt.val 1013, Flt.val 1013, Flt.val 120⟩] })
        Header.sample.PRESS = true ∧
      getUnitValue Header.sample Fpu.exact Header.sample.PRESS
        (bmp280Read Header.sample Fpu.exact
          { Sensors.fresh 20 with
            bmp280 := [⟨Flt.val 21, Flt.val 1013, Flt.val 1013, Flt.val 120⟩] }) = 0 :=
  have h := getUnitValue_getters Header.sample Fpu.exact
    (bmp280Read Header.sample Fpu.exact
      { Sensors.fresh 20 with
        bmp280 := [⟨Flt.val 21, Flt.val 1013, Flt.val 1013, Flt.val 120⟩] }) (by decide)
  ⟨h.2.2.2.2.2.2.2.2.1.trans (by decide!), by decide!, by decide,
    h.2.2.2.2.2.2.2.2.2.2.2.trans (by decide!)⟩

/-! ## The strings of the getters -/

theorem digits_length_le_four (n : Nat) : (Nat.digits 10 n).length ≤ 4 ↔ n < 10000 := by
  constructor
  · intro h
    have h1 := Nat.lt_base_pow_length_digits (b := 10) (m := n) (by norm_num)
    have h2 : 10 ^ (Nat.digits 10 n).length ≤ 10 ^ 4 := Nat.pow_le_pow_right (by norm_num) h
    omega
  · intro h
    by_cases h0 : n = 0
    · simp [h0]
    · have h1 := Nat.base_pow_length_digits_le 10 n (by norm_num) h0
      by_contra hc
      have h2 : 10 ^ 5 ≤ 10 ^ (Nat.digits 10 n).length :=
        Nat.pow_le_pow_right (by norm_num) (by omega)
      omega

theorem sprintfZeroPad_length (width n : Nat) :
    (sprintfZeroPad width n).length =
      max width (if n = 0 then 1 else (Nat.digits 10 n).length) := by
  unfold sprintfZeroPad
  split
  · simp
    omega
  · simp
    omega

theorem sprintfZeroPad_fits (width n : Nat) (hw : 3 ≤ width) (hw4 : width ≤ 4) :
    (sprintfZeroPad width n).length + 1 ≤ outputSize ↔ n < 10000 := by
  rw [sprintfZeroPad_length]
  unfold outputSize
  have h := digits_length_le_four n
  split
  · rename_i h0
    constructor
    · intro _
      omega
    · intro _
      omega
  · constructor
    · intro hl
      apply h.mp
      omega
    · intro hn
      have := h.mpr hn
      omega

/-- C26 (defect of the code): the string that `getStringPM1`, `getStringPM25`,
`getStringPM4`, `getStringPM10` or `getStringCO2` has `sprintf` write fits with its
terminator in the 5 bytes of `output` if and only if the value is below 10000; a member
that holds 10000 or more makes `sprintf` write past the end of `output`. -/
theorem getString_fits_iff (s : Sensors) :
    ((getStringPM1 s).length + 1 ≤ outputSize ↔ getPM1 s < 10000) ∧
      ((getStringPM25 s).length + 1 ≤ outputSize ↔ getPM25 s < 10000) ∧
      ((getStringPM4 s).length + 1 ≤ outputSize ↔ getPM4 s < 10000) ∧
      ((getStringPM10 s).length + 1 ≤ outputSize ↔ getPM10 s < 10000) ∧
      ((getStringCO2 s).length + 1 ≤ outputSize ↔ getCO2 s < 10000) :=
  ⟨sprintfZeroPad_fits 3 _ (by decide) (by decide),
    sprintfZeroPad_fits 3 _ (by decide) (by decide),
    sprintfZeroPad_fits 3 _ (by decide) (by decide),
    sprintfZeroPad_fits 3 _ (by decide) (by decide),
    sprintfZeroPad_fits 4 _ (by decide) (by decide)⟩

theorem pmGenericRead_ten_thousand :
    (pmGenericRead Header.sample (Sensors.onUart 20 [genericFrame 0x27 0x10 0x00 0x64])).1 =
        true ∧
      (pmGenericRead Header.sample
        (Sensors.onUart 20 [genericFrame 0x27 0x10 0x00 0x64])).2.pm25 = 10000 := by
  decide

/-- C26, the claim as stated fails: the Generic frame that carries 10000 and 100 is
accepted, `pm25` holds 10000, and `getStringPM25` has `sprintf` write the five
characters `10000` and the terminator, 6 bytes, to the 5 bytes of `output`; with 500 the
string is `500`. -/
theorem getStringPM25_overflows :
    (pmGenericRead Header.sample (Sensors.onUart 20 [genericFrame 0x27 0x10 0x00 0x64])).1 =
        true ∧
      getStringPM25
        (pmGenericRead Header.sample
          (Sensors.onUart 20 [genericFrame 0x27 0x10 0x00 0x64])).2 =
        ['1', '0', '0', '0', '0'] ∧
      outputSize <
        (getStringPM25
          (pmGenericRead Header.sample
            (Sensors.onUart 20 [genericFrame 0x27 0x10 0x00 0x64])).2).length + 1 ∧
      getStringPM25 { Sensors.fresh 20 with pm25 := 500 } = ['5', '0', '0'] ∧
      getStringPM25 { Sensors.fresh 20 with pm25 := 7 } = ['0', '0', '7'] := by
  have h := pmGenericRead_ten_thousand
  have e : getStringPM25
      (pmGenericRead Header.sample
        (Sensors.onUart 20 [genericFrame 0x27 0x10 0x00 0x64])).2 =
      ['1', '0', '0', '0', '0'] := by
    unfold getStringPM25 getPM25
    rw [h.2]
    norm_num [sprintfZeroPad, Nat.digitChar]
  refine ⟨h.1, e, ?_, ?_, ?_⟩
  · rw [e]
    decide
  · norm_num [getStringPM25, getPM25, sprintfZeroPad, Nat.digitChar, Sensors.fresh]
  · norm_num [getStringPM25, getPM25, sprintfZeroPad, Nat.digitChar, Sensors.fresh]
    rfl

/-! ## The selected device through `init` and `loop` -/

theorem DeviceKept.of_flags {s t : Sensors} (h : FlagsKept s t) : DeviceKept s t :=
  ⟨h.2.2.2.2.1, h.2.2.2.2.2⟩

theorem DeviceKept.trans_device {s t u : Sensors} (h1 : DeviceKept s t) (h2 : DeviceKept t u) :
    DeviceKept s u :=
  ⟨h2.1.trans h1.1, h2.2.trans h1.2⟩

theorem loopDispatch_device (s : Sensors) : DeviceKept s (loopDispatch s) := by
  unfold loopDispatch
  split
  · exact ⟨rfl, rfl⟩
  · split <;> exact ⟨rfl, rfl⟩

theorem loopCycle_device (hd : Header) (fp : Fpu) (s : Sensors) :
    DeviceKept s (loopCycle hd fp s) := by
  have h1 : DeviceKept s (loopReads hd fp s) := DeviceKept.of_flags (loopReads_rel hd fp s).2.1
  have h2 : DeviceKept s (loopDispatch (loopReads hd fp s)) :=
    h1.trans_device (loopDispatch_device _)
  unfold loopCycle
  simp only
  generalize loopDispatch (loopReads hd fp s) = t at h2 ⊢
  split
  · exact ⟨h2.1, h2.2⟩
  · exact h2

theorem loop_device (hd : Header) (fp : Fpu) (s : Sensors) : DeviceKept s (loop hd fp s) := by
  unfold loop
  simp only
  split
  · exact (DeviceKept.trans_device (s := s) (t := (millis s).2) ⟨rfl, rfl⟩
      (loopCycle_device hd fp _)).trans_device (DeviceKept.of_flags (dhtRead_i2cStep hd fp _).1)
  · exact DeviceKept.trans_device (s := s) (t := (millis s).2) ⟨rfl, rfl⟩
      (DeviceKept.of_flags (dhtRead_i2cStep hd fp _).1)

theorem loops_device (hd : Header) (fp : Fpu) (n : Nat) (s : Sensors) :
    DeviceKept s (loops hd fp n s) := by
  induction n generalizing s with
  | zero => exact ⟨rfl, rfl⟩
  | succ n ih => exact (loop_device hd fp s).trans_device (ih (loop hd fp s))

theorem CO2scd30Read_device (hd : Header) (s : Sensors) : DeviceKept s (CO2scd30Read hd s) :=
  DeviceKept.of_flags (CO2scd30Read_i2cStep hd s).1

theorem CO2scd4xRead_device (hd : Header) (s : Sensors) : DeviceKept s (CO2scd4xRead hd s) :=
  DeviceKept.of_flags (CO2scd4xRead_i2cStep hd s).1

theorem sps30I2CInit_device (s : Sensors) :
    (s.dev_uart_type = SSPS30 ∨ s.sps30_i2c.headD false = false →
        DeviceKept s (sps30I2CInit s).2) ∧
      (s.dev_uart_type ≠ SSPS30 → s.sps30_i2c.headD false = true →
        (sps30I2CInit s).2.dev_uart_type = SSPS30 ∧
          (sps30I2CInit s).2.device_selected = "SENSIRION") ∧
      (sps30I2CInit s).2.gcja5_begin = s.gcja5_begin ∧
      (sps30I2CInit s).2.scd30_begin = s.scd30_begin ∧
      (sps30I2CInit s).2.scd4x_begin = s.scd4x_begin := by
  unfold sps30I2CInit
  refine ⟨fun h => ?_, fun h1 h2 => ?_, ?_, ?_, ?_⟩
  · split
    · exact ⟨rfl, rfl⟩
    · rename_i hn
      rcases h with h | h
      · exact absurd h hn
      · simp only [h, Bool.false_eq_true, if_false]
        exact ⟨rfl, rfl⟩
  · rw [if_neg h1, if_pos h2]
    exact ⟨rfl, rfl⟩
  · split
    · rfl
    · split <;> rfl
  · split
    · rfl
    · split <;> rfl
  · split
    · rfl
    · split <;> rfl

theorem PMGCJA5Init_device (s : Sensors) :
    (s.dev_uart_type = Panasonic ∨ s.gcja5_begin.headD false = false →
        DeviceKept s (PMGCJA5Init s)) ∧
      (s.dev_uart_type ≠ Panasonic → s.gcja5_begin.headD false = true →
        (PMGCJA5Init s).dev_uart_type = Auto ∧
          (PMGCJA5Init s).device_selected = "PANASONIC_I2C") ∧
      (PMGCJA5Init s).scd30_begin = s.scd30_begin ∧
      (PMGCJA5Init s).scd4x_begin = s.scd4x_begin := by
  unfold PMGCJA5Init
  refine ⟨fun h => ?_, fun h1 h2 => ?_, ?_, ?_⟩
  · split
    · exact ⟨rfl, rfl⟩
    · rename_i hn
      rcases h with h | h
      · exact absurd h hn
      · simp only [h, Bool.false_eq_true, if_false]
        exact ⟨rfl, rfl⟩
  · rw [if_neg h1, if_pos h2]
    exact ⟨rfl, rfl⟩
  · split
    · rfl
    · split <;> rfl
  · split
    · rfl
    · split <;> rfl

theorem CO2scd30Read_scd4x_begin (hd : Header) (s : Sensors) :
    (CO2scd30Read hd s).scd4x_begin = s.scd4x_begin := by
  unfold CO2scd30Read
  simp only
  split
  · rw [unitRegister_frame hd hd.CO2HUM, unitRegister_frame hd hd.CO2TEMP,
      unitRegister_frame hd hd.CO2]
  · rfl

theorem CO2scd30Init_device (hd : Header) (s : Sensors) :
    (CO2scd30Init hd s).dev_uart_type = s.dev_uart_type ∧
      (CO2scd30Init hd s).device_selected =
        (if (s.scd30_begin.headD Scd30Begin.absent).begin then "SCD30"
          else s.device_selected) ∧
      (CO2scd30Init hd s).scd4x_begin = s.scd4x_begin := by
  unfold CO2scd30Init
  simp only
  split
  · refine ⟨?_, ?_, ?_⟩
    · rw [(CO2scd30Read_device hd _).1]
      split <;> split <;> rfl
    · rw [(CO2scd30Read_device hd _).2]
      split <;> split <;> rfl
    · rw [CO2scd30Read_scd4x_begin]
      split <;> split <;> rfl
  · exact ⟨rfl, rfl, rfl⟩

theorem CO2scd4xInit_device (hd : Header) (s : Sensors) :
    (CO2scd4xInit hd s).dev_uart_type = s.dev_uart_type ∧
      (CO2scd4xInit hd s).device_selected =
        (if (s.scd4x_begin.headD Scd4xBegin.absent).stopError % 65536 = 0 then "SCD4x"
          else s.device_selected) := by
  unfold CO2scd4xInit
  simp only
  generalize s.scd4x_begin.headD Scd4xBegin.absent = a
  obtain ⟨e1, b1, b2, e2⟩ := a
  simp only
  split
  · split
    · rw [(CO2scd4xRead_device hd _).1, (CO2scd4xRead_device hd _).2]
      cases b1 <;> cases b2 <;>
        simp [setSCD4xAltitudeOffset, setSCD4xTempOffset, delay]
    · cases b1 <;> cases b2 <;>
        simp [setSCD4xAltitudeOffset, setSCD4xTempOffset, delay]
  · exact ⟨rfl, rfl⟩

theorem initI2C_device (hd : Header) (s : Sensors)
    (h1 : s.dev_uart_type = SSPS30 ∨ s.sps30_i2c.headD false = false)
    (h2 : s.dev_uart_type = Panasonic ∨ s.gcja5_begin.headD false = false)
    (h3 : (s.scd30_begin.headD Scd30Begin.absent).begin = false)
    (h4 : (s.scd4x_begin.headD Scd4xBegin.absent).stopError % 65536 ≠ 0) :
    DeviceKept s (initI2C hd s) := by
  obtain ⟨a1, -, a3, a4, a5⟩ := sps30I2CInit_device s
  have k1 := a1 h1
  obtain ⟨b1, -, b3, b4⟩ := PMGCJA5Init_device (sps30I2CInit s).2
  have k2 := b1 (by rw [k1.1, a3]; exact h2)
  obtain ⟨c1, c2, c3⟩ := CO2scd30Init_device hd (PMGCJA5Init (sps30I2CInit s).2)
  obtain ⟨d1, d2⟩ := CO2scd4xInit_device hd (CO2scd30Init hd (PMGCJA5Init (sps30I2CInit s).2))
  rw [b3, a4, h3] at c2
  rw [c3, b4, a5, if_neg h4] at d2
  simp only [Bool.false_eq_true, if_false] at c2
  unfold initI2C dhtInit aht10Init bme680Init bmp280Init bme280Init sht31Init am2320Init
  exact ⟨by rw [d1, c1, k2.1, k1.1], by rw [d2, c2, k2.2, k1.2]⟩

/-- C21 (amended): no call of `loop` changes `dev_uart_type` or `device_selected`.  In the
second part of `init` the two are kept when no SPS30, SN-GCJA5, SCD30 or SCD4x answers on
the I2C bus; otherwise the I2C inits overwrite them: `sps30I2CInit` with SSPS30 and
"SENSIRION" (unless the UART kind is SSPS30), `PMGCJA5Init` with Auto and
"PANASONIC_I2C" (unless the UART kind is Panasonic), `CO2scd30Init` and `CO2scd4xInit`
the name with "SCD30" and "SCD4x", leaving `dev_uart_type`. -/
theorem device_selection_kept (hd : Header) (fp : Fpu) (s : Sensors) :
    (∀ n, DeviceKept s (loops hd fp n s)) ∧
      ((s.dev_uart_type = SSPS30 ∨ s.sps30_i2c.headD false = false) →
        (s.dev_uart_type = Panasonic ∨ s.gcja5_begin.headD false = false) →
        (s.scd30_begin.headD Scd30Begin.absent).begin = false →
        (s.scd4x_begin.headD Scd4xBegin.absent).stopError % 65536 ≠ 0 →
        ∀ n, DeviceKept s (loops hd fp n (initI2C hd s))) ∧
      (s.dev_uart_type ≠ SSPS30 → s.sps30_i2c.headD false = true →
        (sps30I2CInit s).2.dev_uart_type = SSPS30 ∧
          (sps30I2CInit s).2.device_selected = "SENSIRION") ∧
      (s.dev_uart_type ≠ Panasonic → s.gcja5_begin.headD false = true →
        (PMGCJA5Init s).dev_uart_type = Auto ∧
          (PMGCJA5Init s).device_selected = "PANASONIC_I2C") ∧
      ((CO2scd30Init hd s).dev_uart_type = s.dev_uart_type ∧
        (CO2scd30Init hd s).device_selected =
          (if (s.scd30_begin.headD Scd30Begin.absent).begin then "SCD30"
            else s.device_selected)) ∧
      ((CO2scd4xInit hd s).dev_uart_type = s.dev_uart_type ∧
        (CO2scd4xInit hd s).device_selected =
          (if (s.scd4x_begin.headD Scd4xBegin.absent).stopError % 65536 = 0 then "SCD4x"
            else s.device_selected)) := by
  refine ⟨fun n => loops_device hd fp n s, fun h1 h2 h3 h4 n => ?_,
    (sps30I2CInit_device s).2.1, (PMGCJA5Init_device s).2.1,
    ⟨(CO2scd30Init_device hd s).1, (CO2scd30Init_device hd s).2.1⟩,
    CO2scd4xInit_device hd s⟩
  exact (initI2C_device hd s h1 h2 h3 h4).trans_device (loops_device hd fp n _)

set_option maxRecDepth 100000 in
theorem device_selection_kept_witness :
    (loops Header.sample Fpu.exact 2
        (initI2C Header.sample
          (Sensors.detected Auto "GENERIC" [genericFrame 0 12 0 15]))).dev_uart_type = Auto ∧
      (loops Header.sample Fpu.exact 2
        (initI2C Header.sample
          (Sensors.detected Auto "GENERIC" [genericFrame 0 12 0 15]))).device_selected =
        "GENERIC" :=
  (device_selection_kept Header.sample Fpu.exact
    (Sensors.detected Auto "GENERIC" [genericFrame 0 12 0 15])).2.1
      (Or.inr (by decide)) (Or.inr (by decide)) (by decide) (by decide) 2

set_option maxRecDepth 100000 in
/-- C21, the claim as stated fails: with a Plantower on the UART and an SCD30 on the I2C
bus, `sensorSerialInit` returns true with Auto and "GENERIC", and at the end of `init`
`device_selected` is "SCD30"; with an SPS30 on the I2C bus instead, `init` ends with
SSPS30 and "SENSIRION". -/
theorem init_overwrites_selection :
    (sensorSerialInit Header.sample Auto 16 17
        { Sensors.fresh 20 with
          serial := [genericFrame 0 12 0 15]
          scd30_begin := [⟨true, false, false⟩] }).1 = true ∧
      (sensorSerialInit Header.sample Auto 16 17
        { Sensors.fresh 20 with
          serial := [genericFrame 0 12 0 15]
          scd30_begin := [⟨true, false, false⟩] }).2.dev_uart_type = Auto ∧
      (sensorSerialInit Header.sample Auto 16 17
        { Sensors.fresh 20 with
          serial := [genericFrame 0 12 0 15]
          scd30_begin := [⟨true, false, false⟩] }).2.device_selected = "GENERIC" ∧
      (init Header.sample Auto 16 17
        { Sensors.fresh 20 with
          serial := [genericFrame 0 12 0 15]
          scd30_begin := [⟨true, false, false⟩] }).dev_uart_type = Auto ∧
      (init Header.sample Auto 16 17
        { Sensors.fresh 20 with
          serial := [genericFrame 0 12 0 15]
          scd30_begin := [⟨true, false, false⟩] }).device_selected = "SCD30" ∧
      (init Header.sample Auto 16 17
        { Sensors.fresh 20 with
          serial := [genericFrame 0 12 0 15]
          sps30_i2c := [true] }).dev_uart_type = SSPS30 ∧
      (init Header.sample Auto 16 17
        { Sensors.fresh 20 with
          serial := [genericFrame 0 12 0 15]
          sps30_i2c := [true] }).device_selected = "SENSIRION" := by
  decide

end CanAirIO
